import Mathlib

/-!
# Leader start-up flag reconciliation (pkg/leader/config/loadflags.go)

A shallow embedding of the methods of LeaderRuntime that turn the operator's
options (FlagsOption) into the effective options (RuntimeOption).

Conventions of the embedding.

* The Go methods mutate the receiver; here every method is a function from the
  state before the call to the state after it, paired with the outcome.
* A Go string is modelled by a Lean String; the Go builtin len is the number of
  bytes of the UTF-8 encoding (String.utf8ByteSize).
* The packages certificate, authentication, yaml, os, net and path/filepath are
  collaborators whose code is not part of the file; they are fields of Env and
  every theorem holds for every behaviour of them.  The collaborators that touch
  the file system or the network read and update an abstract world W, and every
  call to them is appended to a trace.
* The option structs are heap objects reached through pointers.  A pointer is
  modelled as optional exactly where the source tests it against nil or assigns
  nil to it (FlagsOption, KineOptions, the three authentication handles); all
  other pointers and the two maps of ApiserverOptions are taken to be allocated,
  and the raw and effective trees are taken to be distinct objects.
* The declared integer type of the port fields is not part of the file; ports
  are mathematical integers, which covers every width.
-/

namespace LiteKube

/-! ## Option structs (pkg/options/leader) -/

/-- Go error values, identified by their message. -/
abbrev Error := String

/-- Fields of global.GlobalOptions used by the reconcilers. -/
structure GlobalOptions where
  WorkDir : String
  LogDir : String
  LogToDir : Bool
  LogToStd : Bool
  RunKine : Bool
  RunNetManager : Bool
  EnableWorker : Bool
  WorkerConfig : String
  deriving DecidableEq, Repr

/-- Fields of kine.KineOptions used by the reconcilers. -/
structure KineOptions where
  BindAddress : String
  SecurePort : Int
  CACert : String
  ServerCertFile : String
  ServerkeyFile : String
  deriving DecidableEq, Repr

/-- One endpoint of the network manager (RegisterOptions or JoinOptions). -/
structure NetOptions where
  Address : String
  SecurePort : Int
  CACert : String
  ClientCertFile : String
  ClientkeyFile : String
  deriving DecidableEq, Repr

/-- Fields of netmanager.NetManagerOptions used by the reconcilers. -/
structure NetManagerOptions where
  RegisterOptions : NetOptions
  JoinOptions : NetOptions
  Token : String
  NodeToken : String
  deriving DecidableEq, Repr

/-- A Go map from string to string, as an association list; the first binding
of a key is the live one. -/
abbrev StrMap := List (String × String)

/-- Map read m[k]. -/
def StrMap.get (m : StrMap) (k : String) : Option String :=
  (m.find? (fun kv => kv.1 == k)).map Prod.snd

/-- Map write m[k] = v. -/
def StrMap.set (m : StrMap) (k v : String) : StrMap :=
  (k, v) :: m.filter (fun kv => !(kv.1 == k))

/-- The options of apiserver.ApiserverLitekubeOptions read by LoadApiserver. -/
structure ApiserverLitekubeOptions where
  AllowPrivileged : Bool
  AuthorizationMode : String
  AnonymousAuth : Bool
  EnableSwaggerUI : Bool
  EnableAdmissionPlugins : String
  EncryptionProviderConfig : String
  Profiling : Bool
  ServiceClusterIpRange : String
  ServiceNodePortRange : String
  SecurePort : Int
  deriving DecidableEq, Repr

/-- The etcd fragment of the professional api-server options. -/
structure ECTDOptions where
  EtcdServers : String
  deriving DecidableEq, Repr

/-- The professional api-server options. -/
structure ApiserverProfessionalOptions where
  ECTDOptions : ECTDOptions
  deriving DecidableEq, Repr

/-- Fields of apiserver.ApiserverOptions used by the reconcilers. -/
structure ApiserverOptions where
  ReservedOptions : StrMap
  ProfessionalOptions : ApiserverProfessionalOptions
  Options : ApiserverLitekubeOptions
  IgnoreOptions : StrMap
  deriving DecidableEq, Repr

/-- The tree options.LeaderOptions; FlagsOption and RuntimeOption both have
this type. -/
structure LeaderOptions where
  GlobalOptions : GlobalOptions
  KineOptions : Option KineOptions
  NetmamagerOptions : NetManagerOptions
  ApiserverOptions : ApiserverOptions
  deriving DecidableEq, Repr

/-! ## Authentication handles (pkg/leader/authentication) -/

/-- The fields of authentication.KineAuthentication read by LoadKine. -/
structure KineAuthentication where
  CACert : String
  ServerCert : String
  Serverkey : String
  deriving DecidableEq, Repr

/-- The handle authentication.NetworkAuthentication; no field of it is read
here, so it records the arguments it was built from. -/
structure NetworkAuthentication where
  CertDir : String
  RegisterAddress : String
  JoinAddress : String
  deriving DecidableEq, Repr

/-- The fields of authentication.NetworkManagerClient read by LoadNetManager. -/
structure NetworkManagerClient where
  JoinCACert : String
  JoinClientCert : String
  JoinClientkey : String
  RegisterCACert : String
  RegisterClientCert : String
  RegisterClientkey : String
  deriving DecidableEq, Repr

/-- The struct RuntimeAuthentication: the certificate directory and the three
lazily created handles. -/
structure RuntimeAuthentication where
  CertDir : String
  Kine : Option KineAuthentication
  NetWorkManager : Option NetworkAuthentication
  NetWorkManagerClient : Option NetworkManagerClient
  deriving DecidableEq, Repr

/-- Modelled from the spec: NewRuntimeAuthentication is not part of the file;
it initialises the store with the certificate directory root and no handle. -/
def NewRuntimeAuthentication (certDir : String) : RuntimeAuthentication :=
  { CertDir := certDir, Kine := none, NetWorkManager := none, NetWorkManagerClient := none }

/-- The receiver LeaderRuntime. -/
structure LeaderRuntime where
  FlagsOption : Option LeaderOptions
  RuntimeOption : LeaderOptions
  RuntimeAuthentication : RuntimeAuthentication
  OwnKineCert : Bool
  deriving DecidableEq, Repr

/-! ## Collaborators, world and trace -/

/-- One call to a collaborator that reads or writes the file system or the
network. -/
inductive Event where
  | notExists (files : List String)
  | validateTLSPair (cert key : String)
  | validateCA (cert ca : String)
  | kineNew (certDir bindAddress : String)
  | kineGenerate
  | netNew (certDir registerAddress joinAddress : String)
  | netGenerate
  | clientNew (certDir token : String)
  | clientGenerate (address : String) (port : Int)
  | clientCheck
  | clientNodetoken
  | mkdirAll (path : String)
  | writeFile (path content : String)
  deriving DecidableEq, Repr

/-- The world outside the process together with the calls made so far, oldest
first. -/
structure Sys (W : Type) where
  world : W
  trace : List Event

/-- Append one call to the trace. -/
def Sys.emit {W : Type} (s : Sys W) (e : Event) : Sys W :=
  { s with trace := s.trace ++ [e] }

/-- The default option values (DefaultGO, DefaultKO, DefaultRONO, DefaultJONO,
DefaultALO); the constants are not part of the file. -/
structure Defaults where
  GO_WorkDir : String
  KO_BindAddress : String
  KO_SecurePort : Int
  RONO_Address : String
  RONO_SecurePort : Int
  JONO_Address : String
  JONO_SecurePort : Int
  ALO_ServiceClusterIpRange : String
  ALO_ServiceNodePortRange : String
  ALO_SecurePort : Int

/-- The collaborators.  ParseIP and ParseCIDR tell whether parsing succeeds,
Join is filepath.Join, Marshal is yaml.Marshal. -/
structure Env (W : Type) where
  ParseIP : String → Bool
  ParseCIDR : String → Bool
  Join : String → String → String
  NotExists : W → List String → Bool
  ValidateTLSPair : W → String → String → Bool
  ValidateCA : W → String → String → Bool
  NewKineAuthentication : String → String → KineAuthentication
  KineGenerateOrSkip : W → KineAuthentication → W × KineAuthentication × Option Error
  NetGenerateOrSkip : W → NetworkAuthentication → W × Option Error
  NewNetworkManagerClient : String → String → NetworkManagerClient
  ClientGenerateOrSkip : W → NetworkManagerClient → String → Int →
    W × NetworkManagerClient × Option Error
  ClientCheck : W → NetworkManagerClient → Bool
  ClientNodetoken : W → NetworkManagerClient → Except Error String
  Marshal : LeaderOptions → Except Error String
  MkdirAll : W → String → W × Option Error
  WriteFile : W → String → String → W × Option Error

/-- How a call ends: it returns nil, it returns an error, or it dereferences a
nil pointer and panics. -/
inductive Outcome where
  | ok
  | fail (e : Error)
  | nilDeref
  deriving DecidableEq, Repr

/-- The state after a call and how the call ended. -/
structure Res (W : Type) where
  rt : LeaderRuntime
  sys : Sys W
  out : Outcome

/-- The call certificate.NotExists(files...). -/
def callNotExists {W : Type} (env : Env W) (s : Sys W) (files : List String) : Bool × Sys W :=
  (env.NotExists s.world files, s.emit (.notExists files))

/-- The call certificate.ValidateTLSPair(cert, key). -/
def callValidateTLSPair {W : Type} (env : Env W) (s : Sys W) (cert key : String) :
    Bool × Sys W :=
  (env.ValidateTLSPair s.world cert key, s.emit (.validateTLSPair cert key))

/-- The call certificate.ValidateCA(cert, ca). -/
def callValidateCA {W : Type} (env : Env W) (s : Sys W) (cert ca : String) : Bool × Sys W :=
  (env.ValidateCA s.world cert ca, s.emit (.validateCA cert ca))

/-- The Go builtin len on a string: the number of bytes. -/
def len (s : String) : Nat := s.utf8ByteSize

/-! ## LoadNetManager -/

/-- Lines 164-189 of LoadNetManager: the two addresses and the two ports, each
kept when valid and replaced by its own default otherwise. -/
def netEndpoints {W : Type} (env : Env W) (d : Defaults) (raw new : NetManagerOptions) :
    NetManagerOptions :=
  let new := if env.ParseIP raw.RegisterOptions.Address = false then
      { new with RegisterOptions := { new.RegisterOptions with Address := d.RONO_Address } }
    else
      { new with RegisterOptions :=
          { new.RegisterOptions with Address := raw.RegisterOptions.Address } }
  let new := if env.ParseIP raw.JoinOptions.Address = false then
      { new with JoinOptions := { new.JoinOptions with Address := d.JONO_Address } }
    else
      { new with JoinOptions := { new.JoinOptions with Address := raw.JoinOptions.Address } }
  let new := if raw.RegisterOptions.SecurePort < 1 ∨ raw.RegisterOptions.SecurePort > 65535 then
      { new with RegisterOptions :=
          { new.RegisterOptions with SecurePort := d.RONO_SecurePort } }
    else
      { new with RegisterOptions :=
          { new.RegisterOptions with SecurePort := raw.RegisterOptions.SecurePort } }
  let new := if raw.JoinOptions.SecurePort < 1 ∨ raw.JoinOptions.SecurePort > 65535 then
      { new with JoinOptions := { new.JoinOptions with SecurePort := d.JONO_SecurePort } }
    else
      { new with JoinOptions :=
          { new.JoinOptions with SecurePort := raw.JoinOptions.SecurePort } }
  new

/-- Write the effective network-manager fragment back into the runtime. -/
def LeaderRuntime.setNet (rt : LeaderRuntime) (new : NetManagerOptions) : LeaderRuntime :=
  { rt with RuntimeOption := { rt.RuntimeOption with NetmamagerOptions := new } }

/-- The condition of line 211, evaluated left to right with short circuit:
no register client file, no join client file and no node token. -/
def nothingSupplied {W : Type} (env : Env W) (s : Sys W) (raw : NetManagerOptions) :
    Bool × Sys W :=
  let (a, s) := callNotExists env s
    [raw.RegisterOptions.CACert, raw.RegisterOptions.ClientCertFile,
      raw.RegisterOptions.ClientkeyFile]
  if a = false then (false, s) else
  let (b, s) := callNotExists env s
    [raw.JoinOptions.CACert, raw.JoinOptions.ClientCertFile, raw.JoinOptions.ClientkeyFile]
  if b = false then (false, s) else
  (raw.NodeToken == "", s)

/-- The condition of line 246, evaluated left to right with short circuit. -/
def suppliedValid {W : Type} (env : Env W) (s : Sys W) (raw : NetManagerOptions) :
    Bool × Sys W :=
  let (a, s) := callValidateTLSPair env s raw.RegisterOptions.ClientCertFile
    raw.RegisterOptions.ClientkeyFile
  if a = false then (false, s) else
  let (b, s) := callValidateCA env s raw.RegisterOptions.ClientCertFile
    raw.RegisterOptions.CACert
  if b = false then (false, s) else
  let (c, s) := callValidateTLSPair env s raw.JoinOptions.ClientCertFile
    raw.JoinOptions.ClientkeyFile
  if c = false then (false, s) else
  let (e, s) := callValidateCA env s raw.JoinOptions.ClientCertFile raw.JoinOptions.CACert
  if e = false then (false, s) else
  (decide (len raw.NodeToken > 0), s)

/-- Lines 210-265 of LoadNetManager: the client credentials.  The arguments are
the runtime with the effective fragment new not yet written back, and raw. -/
def loadClientCredentials {W : Type} (env : Env W) (rt : LeaderRuntime) (s : Sys W)
    (raw new : NetManagerOptions) : Res W :=
  let (nothing, s) := nothingSupplied env s raw
  if nothing then
    -- TLS bootstrap
    let client := env.NewNetworkManagerClient rt.RuntimeAuthentication.CertDir new.Token
    let s := s.emit (.clientNew rt.RuntimeAuthentication.CertDir new.Token)
    let (w, client, err) := env.ClientGenerateOrSkip s.world client
      new.RegisterOptions.Address new.RegisterOptions.SecurePort
    let s : Sys W := { world := w, trace := s.trace ++
      [.clientGenerate new.RegisterOptions.Address new.RegisterOptions.SecurePort] }
    let rt := { rt with RuntimeAuthentication :=
      { rt.RuntimeAuthentication with NetWorkManagerClient := some client } }
    match err with
    | some e => { rt := rt.setNet new, sys := s, out := .fail e }
    | none =>
      let checked := env.ClientCheck s.world client
      let s := s.emit .clientCheck
      if checked = false then
        { rt := rt.setNet new, sys := s, out := .fail "fail to load network-manager TLS args" }
      else
        let tok := env.ClientNodetoken s.world client
        let s := s.emit .clientNodetoken
        match tok with
        | .error e => { rt := rt.setNet new, sys := s, out := .fail e }
        | .ok nodeToken =>
          let new := { new with NodeToken := nodeToken }
          let new := { new with JoinOptions := { new.JoinOptions with
            CACert := client.JoinCACert,
            ClientCertFile := client.JoinClientCert,
            ClientkeyFile := client.JoinClientkey } }
          let new := { new with RegisterOptions := { new.RegisterOptions with
            CACert := client.RegisterCACert,
            ClientCertFile := client.RegisterClientCert,
            ClientkeyFile := client.RegisterClientkey } }
          { rt := rt.setNet new, sys := s, out := .ok }
  else
    let (valid, s) := suppliedValid env s raw
    if valid then
      let new := { new with JoinOptions := { new.JoinOptions with
        CACert := raw.JoinOptions.CACert,
        ClientCertFile := raw.JoinOptions.ClientCertFile,
        ClientkeyFile := raw.JoinOptions.ClientkeyFile } }
      let new := { new with RegisterOptions := { new.RegisterOptions with
        CACert := raw.RegisterOptions.CACert,
        ClientCertFile := raw.RegisterOptions.ClientCertFile,
        ClientkeyFile := raw.RegisterOptions.ClientkeyFile } }
      let new := { new with NodeToken := raw.NodeToken }
      let rt := { rt with RuntimeAuthentication :=
        { rt.RuntimeAuthentication with NetWorkManagerClient := none } }
      { rt := rt.setNet new, sys := s, out := .ok }
    else
      { rt := rt.setNet new, sys := s, out := .fail
          "you have provide bad network manager client certificates or node-token for network manager" }

/-- The method LoadNetManager (lines 160-266). -/
def LoadNetManager {W : Type} (env : Env W) (d : Defaults) (rt : LeaderRuntime) (s : Sys W) :
    Res W :=
  match rt.FlagsOption with
  | none => { rt := rt, sys := s, out := .nilDeref }
  | some flags =>
    let raw := flags.NetmamagerOptions
    let new := netEndpoints env d raw rt.RuntimeOption.NetmamagerOptions
    -- check Token
    if rt.RuntimeOption.GlobalOptions.RunNetManager then
      let new := { new with Token := "local" }
      let auth : NetworkAuthentication :=
        { CertDir := rt.RuntimeAuthentication.CertDir,
          RegisterAddress := new.RegisterOptions.Address,
          JoinAddress := new.JoinOptions.Address }
      let s := s.emit (.netNew rt.RuntimeAuthentication.CertDir new.RegisterOptions.Address
        new.JoinOptions.Address)
      let rt := { rt with RuntimeAuthentication :=
        { rt.RuntimeAuthentication with NetWorkManager := some auth } }
      let (w, err) := env.NetGenerateOrSkip s.world auth
      let s : Sys W := { world := w, trace := s.trace ++ [.netGenerate] }
      match err with
      | some e => { rt := rt.setNet new, sys := s, out := .fail e }
      | none => loadClientCredentials env rt s raw new
    else
      if raw.Token == "local" then
        { rt := rt.setNet new, sys := s, out := .fail
            "bad token(local) to connect with network-manager, only enable when network manager run in leader node" }
      else if len raw.Token ≠ 16 then
        { rt := rt.setNet new, sys := s, out := .fail "error network token format" }
      else
        let new := { new with Token := raw.Token }
        loadClientCredentials env rt s raw new

/-! ## LoadGloabl -/

/-- The method LoadGloabl (lines 63-102).  The deferred function runs when the
method returns and sees the effective work directory. -/
def LoadGloabl {W : Type} (env : Env W) (d : Defaults) (rt : LeaderRuntime) (s : Sys W) :
    Res W :=
  match rt.FlagsOption with
  | none =>
    -- the panic of line 68 unwinds through the deferred function
    { rt := { rt with RuntimeAuthentication :=
        NewRuntimeAuthentication (env.Join rt.RuntimeOption.GlobalOptions.WorkDir "tls/") },
      sys := s, out := .nilDeref }
  | some flags =>
    let raw := flags.GlobalOptions
    let new := rt.RuntimeOption.GlobalOptions
    -- set default work-dir
    let new := { new with WorkDir := raw.WorkDir }
    let new := if new.WorkDir == "" then { new with WorkDir := d.GO_WorkDir } else new
    -- log
    let new := { new with LogDir := raw.LogDir }
    let new := if new.LogDir == "" then { new with LogDir := env.Join new.WorkDir "logs/" }
      else new
    let new := { new with LogToDir := raw.LogToDir }
    let new := { new with LogToStd := raw.LogToStd }
    -- kine
    let new := { new with RunKine := raw.RunKine }
    let new :=
      if rt.RuntimeOption.ApiserverOptions.ProfessionalOptions.ECTDOptions.EtcdServers == ""
      then { new with RunKine := true } else new
    -- network-manager
    let new := { new with RunNetManager := raw.RunNetManager }
    let new := { new with EnableWorker := raw.EnableWorker }
    let new := if new.EnableWorker = false then { new with WorkerConfig := "" } else new
    let rt := { rt with RuntimeOption := { rt.RuntimeOption with GlobalOptions := new } }
    let rt := { rt with RuntimeAuthentication :=
      NewRuntimeAuthentication (env.Join rt.RuntimeOption.GlobalOptions.WorkDir "tls/") }
    { rt := rt, sys := s, out := .ok }

/-! ## LoadKine -/

/-- Write the effective kine fragment back into the runtime. -/
def LeaderRuntime.setKine (rt : LeaderRuntime) (new : KineOptions) : LeaderRuntime :=
  { rt with RuntimeOption := { rt.RuntimeOption with KineOptions := some new } }

/-- The condition of line 144, evaluated left to right with short circuit: the
pair is invalid or the certificate is not signed by the CA. -/
def kineInvalid {W : Type} (env : Env W) (s : Sys W) (raw : KineOptions) : Bool × Sys W :=
  let (a, s) := callValidateTLSPair env s raw.ServerCertFile raw.ServerkeyFile
  if a = false then (true, s) else
  let (b, s) := callValidateCA env s raw.ServerCertFile raw.CACert
  (!b, s)

/-- Lines 115-127 of LoadKine: the bind address and the port, each kept when
valid and replaced by its default otherwise. -/
def kineEndpoint {W : Type} (env : Env W) (d : Defaults) (raw new : KineOptions) :
    KineOptions :=
  -- check bind-address
  let new := if env.ParseIP raw.BindAddress = false then
      { new with BindAddress := d.KO_BindAddress }
    else { new with BindAddress := raw.BindAddress }
  -- check https port
  let new := if raw.SecurePort < 1 ∨ raw.SecurePort > 65535 then
      { new with SecurePort := d.KO_SecurePort }
    else { new with SecurePort := raw.SecurePort }
  new

/-- The method LoadKine (lines 106-156). -/
def LoadKine {W : Type} (env : Env W) (d : Defaults) (rt : LeaderRuntime) (s : Sys W) :
    Res W :=
  if rt.RuntimeOption.GlobalOptions.RunKine = false then
    { rt := { rt with RuntimeOption := { rt.RuntimeOption with KineOptions := none } },
      sys := s, out := .ok }
  else
  match rt.FlagsOption with
  | none => { rt := rt, sys := s, out := .nilDeref }
  | some flags =>
    match flags.KineOptions, rt.RuntimeOption.KineOptions with
    | some raw, some new =>
      let new := kineEndpoint env d raw new
      -- check TLS certificate
      let (absent, s) := callNotExists env s [raw.CACert, raw.ServerCertFile, raw.ServerkeyFile]
      if absent then
        let rt := { rt with OwnKineCert := true }
        let kine := env.NewKineAuthentication rt.RuntimeAuthentication.CertDir new.BindAddress
        let s := s.emit (.kineNew rt.RuntimeAuthentication.CertDir new.BindAddress)
        let (w, kine, err) := env.KineGenerateOrSkip s.world kine
        let s : Sys W := { world := w, trace := s.trace ++ [.kineGenerate] }
        let rt := { rt with RuntimeAuthentication :=
          { rt.RuntimeAuthentication with Kine := some kine } }
        match err with
        | some e => { rt := rt.setKine new, sys := s, out := .fail e }
        | none =>
          let new := { new with CACert := kine.CACert }
          let new := { new with ServerCertFile := kine.ServerCert }
          let new := { new with ServerkeyFile := kine.Serverkey }
          { rt := rt.setKine new, sys := s, out := .ok }
      else
        let (bad, s) := kineInvalid env s raw
        if bad then
          { rt := rt.setKine new, sys := s,
            out := .fail "you specified an unavailable certificate for kine" }
        else
          let new := { new with CACert := raw.CACert }
          let new := { new with ServerCertFile := raw.ServerCertFile }
          let new := { new with ServerkeyFile := raw.ServerkeyFile }
          { rt := rt.setKine new, sys := s, out := .ok }
    | _, _ => { rt := rt, sys := s, out := .nilDeref }

/-! ## LoadFlags -/

/-- The method SetFlags (lines 23-25). -/
def SetFlags (rt : LeaderRuntime) (opt : Option LeaderOptions) : LeaderRuntime :=
  { rt with FlagsOption := opt }

/-- Lines 48-59 of LoadFlags: serialise the effective options and write the
manifest. -/
def writeManifest {W : Type} (env : Env W) (rt : LeaderRuntime) (s : Sys W) : Res W :=
  match env.Marshal rt.RuntimeOption with
  | .error e => { rt := rt, sys := s, out := .fail e }
  | .ok config =>
    let startupDir := env.Join rt.RuntimeOption.GlobalOptions.WorkDir "startup/"
    let (w, err) := env.MkdirAll s.world startupDir
    let s : Sys W := { world := w, trace := s.trace ++ [.mkdirAll startupDir] }
    match err with
    | some e => { rt := rt, sys := s, out := .fail e }
    | none =>
      let (w, err) := env.WriteFile s.world (env.Join startupDir "leader.yaml") config
      let s : Sys W :=
        { world := w, trace := s.trace ++ [.writeFile (env.Join startupDir "leader.yaml") config] }
      match err with
      | some e => { rt := rt, sys := s, out := .fail e }
      | none => { rt := rt, sys := s, out := .ok }

/-- The method LoadFlags (lines 28-60). -/
def LoadFlags {W : Type} (env : Env W) (d : Defaults) (rt : LeaderRuntime) (s : Sys W) :
    Res W :=
  match rt.FlagsOption with
  | none => { rt := rt, sys := s, out := .fail "no flags input" }
  | some _ =>
    -- init global flags
    let r := LoadGloabl env d rt s
    if r.out ≠ .ok then r else
    -- init kine flags
    let r := LoadKine env d r.rt r.sys
    if r.out ≠ .ok then r else
    -- init network manager flags
    let r := LoadNetManager env d r.rt r.sys
    if r.out ≠ .ok then r else
    writeManifest env r.rt r.sys

/-! ## LoadApiserver -/

/-- The predicate unicode.IsSpace. -/
def isSpace (c : Char) : Bool :=
  c == '\t' || c == '\n' || c.val == 0x0B || c.val == 0x0C || c == '\r' || c == ' ' ||
  c.val == 0x85 || c.val == 0xA0 || c.val == 0x1680 ||
  (0x2000 ≤ c.val && c.val ≤ 0x200A) ||
  c.val == 0x2028 || c.val == 0x2029 || c.val == 0x202F || c.val == 0x205F || c.val == 0x3000

/-- The function strings.TrimSpace: drop leading and trailing white space. -/
def TrimSpace (s : String) : String :=
  String.mk ((s.toList.dropWhile isSpace).reverse.dropWhile isSpace).reverse

/-- Cut a character list at every dash. -/
def splitDash : List Char → List (List Char)
  | [] => [[]]
  | c :: cs =>
    if c = '-' then [] :: splitDash cs
    else match splitDash cs with
      | [] => [[c]]
      | p :: ps => (c :: p) :: ps

/-- The call strings.Split(s, "-"). -/
def Split (s : String) : List String :=
  (splitDash s.toList).map String.mk

/-- The value of a run of decimal digits. -/
def digitsVal (cs : List Char) : Nat :=
  cs.foldl (fun n c => 10 * n + (c.toNat - '0'.toNat)) 0

/-- The function strconv.Atoi, for a 64-bit int: an optional sign followed by
one or more decimal digits, with a value that fits; none stands for a non-nil
error. -/
def Atoi (s : String) : Option Int :=
  let cs := s.toList
  let neg := cs.head? == some '-'
  let ds := if cs.head? == some '-' ∨ cs.head? == some '+' then cs.tail else cs
  if ds.isEmpty ∨ ¬ ds.all Char.isDigit then none
  else
    let v : Int := if neg then -(digitsVal ds : Int) else (digitsVal ds : Int)
    if -9223372036854775808 ≤ v ∧ v ≤ 9223372036854775807 then some v else none

/-- Two's complement wrap-around of a 64-bit int. -/
def wrapInt64 (x : Int) : Int :=
  (x + 9223372036854775808) % 18446744073709551616 - 9223372036854775808

/-- Lines 293-297: the lower bound, 30000 unless the text parses to a positive
integer. -/
def portMin (part : String) : Int :=
  match Atoi (TrimSpace part) with
  | some p => if p > 0 then p else 30000
  | none => 30000

/-- Lines 294-301: the upper bound, 65535 unless the text parses to an integer
below 65536. -/
def portMax (part : String) : Int :=
  match Atoi (TrimSpace part) with
  | some p => if p < 65536 then p else 65535
  | none => 65535

/-- The call fmt.Sprintf("%d-%d", a, b). -/
def sprintfRange (a b : Int) : String :=
  toString a ++ "-" ++ toString b

/-- Lines 291-306: the node-port range after the check, the empty string when
the raw range is not accepted. -/
def nodePortRange (rawRange : String) : String :=
  match Split rawRange with
  | [p0, p1] =>
    let port_min := portMin p0
    let port_max := portMax p1
    if port_max > port_min ∧ wrapInt64 (port_max - port_min) > 100 then
      sprintfRange port_min port_max
    else ""
  | _ => ""

/-- The method LoadApiserver (lines 268-321).  The effective IgnoreOptions is
the raw map itself (line 273 copies the reference), so the writes of lines 286
and 311 land in the one map both trees point to. -/
def LoadApiserver {W : Type} (env : Env W) (d : Defaults) (rt : LeaderRuntime) (s : Sys W) :
    Res W :=
  match rt.FlagsOption with
  | none => { rt := rt, sys := s, out := .nilDeref }
  | some flags =>
    let raw := flags.ApiserverOptions
    let new := rt.RuntimeOption.ApiserverOptions
    let new := { new with ReservedOptions := raw.ReservedOptions }
    let ignore := raw.IgnoreOptions
    let o := new.Options
    let o := { o with AllowPrivileged := raw.Options.AllowPrivileged }
    let o := { o with AuthorizationMode := raw.Options.AuthorizationMode }
    let o := { o with AnonymousAuth := raw.Options.AnonymousAuth }
    let o := { o with EnableSwaggerUI := raw.Options.EnableSwaggerUI }
    let o := { o with EnableAdmissionPlugins := raw.Options.EnableAdmissionPlugins }
    let o := { o with EncryptionProviderConfig := raw.Options.EncryptionProviderConfig }
    let o := { o with Profiling := raw.Options.Profiling }
    -- check --service-cluster-ip-range
    let (o, ignore) :=
      if env.ParseCIDR raw.Options.ServiceClusterIpRange = false then
        ({ o with ServiceClusterIpRange := d.ALO_ServiceClusterIpRange },
          ignore.set "service-cluster-ip-range" raw.Options.ServiceClusterIpRange)
      else ({ o with ServiceClusterIpRange := raw.Options.ServiceClusterIpRange }, ignore)
    -- check --service-node-port-range
    let o := { o with ServiceNodePortRange := nodePortRange raw.Options.ServiceNodePortRange }
    let (o, ignore) :=
      if o.ServiceNodePortRange == "" then
        ({ o with ServiceNodePortRange := d.ALO_ServiceNodePortRange },
          ignore.set "service-node-port-range" raw.Options.ServiceNodePortRange)
      else (o, ignore)
    let o := if raw.Options.SecurePort < 1 ∨ raw.Options.SecurePort > 65535 then
        { o with SecurePort := d.ALO_SecurePort }
      else { o with SecurePort := raw.Options.SecurePort }
    let new := { new with Options := o, IgnoreOptions := ignore }
    let raw := { raw with IgnoreOptions := ignore }
    { rt := { rt with
        FlagsOption := some { flags with ApiserverOptions := raw },
        RuntimeOption := { rt.RuntimeOption with ApiserverOptions := new } },
      sys := s, out := .ok }

/-! ## Predicates used to state the properties -/

/-- The register client files of a fragment, in the order line 211 passes them. -/
def registerFiles (o : NetManagerOptions) : List String :=
  [o.RegisterOptions.CACert, o.RegisterOptions.ClientCertFile, o.RegisterOptions.ClientkeyFile]

/-- The join client files of a fragment, in the order line 211 passes them. -/
def joinFiles (o : NetManagerOptions) : List String :=
  [o.JoinOptions.CACert, o.JoinOptions.ClientCertFile, o.JoinOptions.ClientkeyFile]

/-- The operator supplied something: the register client files exist, or the
join client files exist, or the node token is not empty.  Existence is what
certificate.NotExists reports. -/
def suppliedSomething {W : Type} (env : Env W) (w : W) (raw : NetManagerOptions) : Bool :=
  !env.NotExists w (registerFiles raw) || !env.NotExists w (joinFiles raw) ||
    decide (raw.NodeToken ≠ "")

/-- The register certificate and key form a valid pair and the certificate
chains to the register CA. -/
def registerValid {W : Type} (env : Env W) (w : W) (raw : NetManagerOptions) : Bool :=
  env.ValidateTLSPair w raw.RegisterOptions.ClientCertFile raw.RegisterOptions.ClientkeyFile &&
    env.ValidateCA w raw.RegisterOptions.ClientCertFile raw.RegisterOptions.CACert

/-- The join certificate and key form a valid pair and the certificate chains to
the join CA. -/
def joinValid {W : Type} (env : Env W) (w : W) (raw : NetManagerOptions) : Bool :=
  env.ValidateTLSPair w raw.JoinOptions.ClientCertFile raw.JoinOptions.ClientkeyFile &&
    env.ValidateCA w raw.JoinOptions.ClientCertFile raw.JoinOptions.CACert

/-- All five requirements on operator-supplied client credentials. -/
def allFiveHold {W : Type} (env : Env W) (w : W) (raw : NetManagerOptions) : Bool :=
  registerValid env w raw && joinValid env w raw && decide (raw.NodeToken ≠ "")

/-- The six client paths and the node token of the effective fragment are the
ones of the other fragment. -/
def sameClientCredentials (new other : NetManagerOptions) : Prop :=
  new.RegisterOptions.CACert = other.RegisterOptions.CACert ∧
  new.RegisterOptions.ClientCertFile = other.RegisterOptions.ClientCertFile ∧
  new.RegisterOptions.ClientkeyFile = other.RegisterOptions.ClientkeyFile ∧
  new.JoinOptions.CACert = other.JoinOptions.CACert ∧
  new.JoinOptions.ClientCertFile = other.JoinOptions.ClientCertFile ∧
  new.JoinOptions.ClientkeyFile = other.JoinOptions.ClientkeyFile ∧
  new.NodeToken = other.NodeToken

instance (new other : NetManagerOptions) : Decidable (sameClientCredentials new other) := by
  unfold sameClientCredentials; infer_instance

/-! ## Concrete collaborators and states

A small closed instance of the collaborators, used to run the model on concrete
inputs.  A file counts as present when its path is not empty, a pair is valid
unless the key is named wrong.key, a chain is valid unless the CA is named
other-ca.crt, and every generation, exchange and write succeeds. -/

/-- Sample default values. -/
def sampleDefaults : Defaults :=
  { GO_WorkDir := "/root/litekube",
    KO_BindAddress := "127.0.0.1", KO_SecurePort := 2379,
    RONO_Address := "0.0.0.0", RONO_SecurePort := 6440,
    JONO_Address := "0.0.0.0", JONO_SecurePort := 6441,
    ALO_ServiceClusterIpRange := "10.0.0.0/16",
    ALO_ServiceNodePortRange := "30000-32767",
    ALO_SecurePort := 6443 }

/-- Sample collaborators over a world with a single state. -/
def sampleEnv : Env Unit :=
  { ParseIP := fun a => a != "",
    ParseCIDR := fun a => a != "",
    Join := fun a b =>
      a ++ "/" ++ String.mk (b.toList.reverse.dropWhile (fun c => c == '/')).reverse,
    NotExists := fun _ files => files.all (fun f => f == ""),
    ValidateTLSPair := fun _ cert key => cert != "" && key != "" && key != "wrong.key",
    ValidateCA := fun _ cert ca => cert != "" && ca != "" && ca != "other-ca.crt",
    NewKineAuthentication := fun certDir _ =>
      { CACert := certDir ++ "/kine/ca.crt", ServerCert := certDir ++ "/kine/server.crt",
        Serverkey := certDir ++ "/kine/server.key" },
    KineGenerateOrSkip := fun w k => (w, k, none),
    NetGenerateOrSkip := fun w _ => (w, none),
    NewNetworkManagerClient := fun certDir _ =>
      { JoinCACert := certDir ++ "/join/ca.crt", JoinClientCert := certDir ++ "/join/client.crt",
        JoinClientkey := certDir ++ "/join/client.key",
        RegisterCACert := certDir ++ "/register/ca.crt",
        RegisterClientCert := certDir ++ "/register/client.crt",
        RegisterClientkey := certDir ++ "/register/client.key" },
    ClientGenerateOrSkip := fun w c _ _ => (w, c, none),
    ClientCheck := fun _ _ => true,
    ClientNodetoken := fun _ _ => .ok "node-7f3a",
    Marshal := fun o => .ok ("work-dir: " ++ o.GlobalOptions.WorkDir),
    MkdirAll := fun w _ => (w, none),
    WriteFile := fun w _ _ => (w, none) }

/-- An endpoint fragment with nothing set. -/
def emptyNetOptions : NetOptions :=
  { Address := "", SecurePort := 0, CACert := "", ClientCertFile := "", ClientkeyFile := "" }

/-- An options tree with nothing set. -/
def emptyOptions : LeaderOptions :=
  { GlobalOptions :=
      { WorkDir := "", LogDir := "", LogToDir := false, LogToStd := false, RunKine := false,
        RunNetManager := false, EnableWorker := false, WorkerConfig := "" },
    KineOptions := some
      { BindAddress := "", SecurePort := 0, CACert := "", ServerCertFile := "",
        ServerkeyFile := "" },
    NetmamagerOptions :=
      { RegisterOptions := emptyNetOptions, JoinOptions := emptyNetOptions, Token := "",
        NodeToken := "" },
    ApiserverOptions :=
      { ReservedOptions := [],
        ProfessionalOptions := { ECTDOptions := { EtcdServers := "" } },
        Options :=
          { AllowPrivileged := false, AuthorizationMode := "", AnonymousAuth := false,
            EnableSwaggerUI := false, EnableAdmissionPlugins := "",
            EncryptionProviderConfig := "", Profiling := false, ServiceClusterIpRange := "",
            ServiceNodePortRange := "", SecurePort := 0 },
        IgnoreOptions := [] } }

/-- A runtime holding the given raw options, an empty effective tree with the
given hosting decision, and an authentication store rooted at /w/tls. -/
def sampleRuntime (flags : LeaderOptions) (hosting : Bool) : LeaderRuntime :=
  { FlagsOption := some flags,
    RuntimeOption := { emptyOptions with
      GlobalOptions := { emptyOptions.GlobalOptions with
        WorkDir := "/w", RunKine := true, RunNetManager := hosting } },
    RuntimeAuthentication := NewRuntimeAuthentication "/w/tls",
    OwnKineCert := false }

/-- The world before anything was called. -/
def sampleSys : Sys Unit := { world := (), trace := [] }

/-- Raw options with the given network-manager token, node token and client
files (the same three names for both endpoints). -/
def netFlags (token nodeToken ca cert key joinKey : String) : LeaderOptions :=
  { emptyOptions with NetmamagerOptions :=
      { RegisterOptions := { emptyNetOptions with
          Address := "10.0.0.1", SecurePort := 6440, CACert := ca, ClientCertFile := cert,
          ClientkeyFile := key },
        JoinOptions := { emptyNetOptions with
          Address := "10.0.0.1", SecurePort := 6441, CACert := ca, ClientCertFile := cert,
          ClientkeyFile := joinKey },
        Token := token, NodeToken := nodeToken } }

/-- Raw options with the given kine certificate files. -/
def kineFlags (ca cert key : String) : LeaderOptions :=
  { emptyOptions with
    KineOptions := some (KineOptions.mk "10.0.0.2" 2379 ca cert key) }

/-- The calls that create or generate the self-managed kine material. -/
def Event.isKineGeneration : Event → Bool
  | .kineNew _ _ => true
  | .kineGenerate => true
  | _ => false

/-- The call returned an error. -/
def Outcome.isFail : Outcome → Bool
  | .fail _ => true
  | _ => false

/-- The manifest writes of a trace: its calls to ioutil.WriteFile, in order. -/
def manifestWrites (t : List Event) : List Event :=
  t.filter (fun e => match e with
    | .writeFile _ _ => true
    | _ => false)

/-- The state LoadFlags reaches after the global reconciler. -/
def afterGlobal {W : Type} (env : Env W) (d : Defaults) (rt : LeaderRuntime) (s : Sys W) :
    Res W :=
  LoadGloabl env d rt s

/-- The state LoadFlags reaches after the kine reconciler, run on what the
global reconciler left. -/
def afterKine {W : Type} (env : Env W) (d : Defaults) (rt : LeaderRuntime) (s : Sys W) :
    Res W :=
  LoadKine env d (afterGlobal env d rt s).rt (afterGlobal env d rt s).sys

/-- The state LoadFlags reaches after the network-manager reconciler, run on
what the kine reconciler left. -/
def afterNet {W : Type} (env : Env W) (d : Defaults) (rt : LeaderRuntime) (s : Sys W) :
    Res W :=
  LoadNetManager env d (afterKine env d rt s).rt (afterKine env d rt s).sys

/-- The run stops before the manifest step: FlagsOption is nil, or one of
LoadGloabl, LoadKine, LoadNetManager, called in this order on the state the
previous one left, returns an error. -/
def reconcilerFails {W : Type} (env : Env W) (d : Defaults) (rt : LeaderRuntime)
    (s : Sys W) : Prop :=
  rt.FlagsOption = none ∨
  (afterGlobal env d rt s).out.isFail = true ∨
  ((afterGlobal env d rt s).out = .ok ∧ (afterKine env d rt s).out.isFail = true) ∨
  ((afterGlobal env d rt s).out = .ok ∧ (afterKine env d rt s).out = .ok ∧
    (afterNet env d rt s).out.isFail = true)

instance {W : Type} (env : Env W) (d : Defaults) (rt : LeaderRuntime) (s : Sys W) :
    Decidable (reconcilerFails env d rt s) := by
  unfold reconcilerFails; infer_instance

/-- The path of the manifest for a work directory. -/
def manifestPath {W : Type} (env : Env W) (workDir : String) : String :=
  env.Join (env.Join workDir "startup/") "leader.yaml"

/-- The server handle LoadNetManager builds when the node hosts the membership
service (line 196). -/
def hostingAuth {W : Type} (env : Env W) (d : Defaults) (rt : LeaderRuntime)
    (flags : LeaderOptions) : NetworkAuthentication :=
  { CertDir := rt.RuntimeAuthentication.CertDir,
    RegisterAddress := (netEndpoints env d flags.NetmamagerOptions
      rt.RuntimeOption.NetmamagerOptions).RegisterOptions.Address,
    JoinAddress := (netEndpoints env d flags.NetmamagerOptions
      rt.RuntimeOption.NetmamagerOptions).JoinOptions.Address }

/-- The world after the server material of a hosting node was generated (line
197). -/
def worldAfterHosting {W : Type} (env : Env W) (d : Defaults) (rt : LeaderRuntime)
    (flags : LeaderOptions) (w : W) : W :=
  (env.NetGenerateOrSkip w (hostingAuth env d rt flags)).1

/-- Raw options with the given storage preference and etcd servers. -/
def globalFlags (runKine : Bool) (etcd : String) : LeaderOptions :=
  { emptyOptions with
    GlobalOptions := { emptyOptions.GlobalOptions with RunKine := runKine },
    ApiserverOptions := { emptyOptions.ApiserverOptions with
      ProfessionalOptions := { ECTDOptions := { EtcdServers := etcd } } } }

/-- A runtime holding the given raw options and an effective tree that is empty
except for the given etcd servers. -/
def etcdRuntime (flags : LeaderOptions) (effectiveEtcd : String) : LeaderRuntime :=
  { FlagsOption := some flags,
    RuntimeOption := { emptyOptions with
      ApiserverOptions := { emptyOptions.ApiserverOptions with
        ProfessionalOptions := { ECTDOptions := { EtcdServers := effectiveEtcd } } } },
    RuntimeAuthentication := NewRuntimeAuthentication "",
    OwnKineCert := false }

/-- The etcd servers of an options tree. -/
def LeaderOptions.etcdServers (o : LeaderOptions) : String :=
  o.ApiserverOptions.ProfessionalOptions.ECTDOptions.EtcdServers

/-- The raw node-port range is not accepted: it does not split into exactly two
parts at the dash, or, after the fallback bound is substituted on each side that
needs it, the upper bound is not above the lower one or the span is at most
100. -/
def rangeRejected (rawRange : String) : Prop :=
  match Split rawRange with
  | [p0, p1] => portMax p1 ≤ portMin p0 ∨ portMax p1 - portMin p0 ≤ 100
  | _ => True

instance (rawRange : String) : Decidable (rangeRejected rawRange) := by
  unfold rangeRejected; split <;> infer_instance

/-- Raw options with the given service node-port range and cluster IP range. -/
def apiFlags (nodePorts clusterIps : String) : LeaderOptions :=
  { emptyOptions with
    ApiserverOptions := { emptyOptions.ApiserverOptions with
      Options := { emptyOptions.ApiserverOptions.Options with
        ServiceNodePortRange := nodePorts, ServiceClusterIpRange := clusterIps } } }

/-- The port rule in the words of the specification: a raw port outside
[1, 65535] yields the default, a raw port inside yields itself. -/
def portReconciled (p dflt eff : Int) : Prop :=
  (p < 1 ∨ 65535 < p → eff = dflt) ∧ (1 ≤ p ∧ p ≤ 65535 → eff = p)

instance (p dflt eff : Int) : Decidable (portReconciled p dflt eff) := by
  unfold portReconciled; infer_instance

/-- The address rule in the words of the specification: a raw address that
fails IP parsing yields the default, one that parses yields itself. -/
def addressReconciled {W : Type} (env : Env W) (a dflt eff : String) : Prop :=
  (env.ParseIP a = false → eff = dflt) ∧ (env.ParseIP a = true → eff = a)

instance {W : Type} (env : Env W) (a dflt eff : String) :
    Decidable (addressReconciled env a dflt eff) := by
  unfold addressReconciled; infer_instance

/-- Raw options with the given addresses and ports for kine, the register
endpoint, the join endpoint and the api server. -/
def endpointFlags (kineAddr : String) (kinePort : Int) (regAddr : String) (regPort : Int)
    (joinAddr : String) (joinPort apiPort : Int) : LeaderOptions :=
  { emptyOptions with
    KineOptions := some (KineOptions.mk kineAddr kinePort "" "" ""),
    NetmamagerOptions :=
      { RegisterOptions := { emptyNetOptions with Address := regAddr, SecurePort := regPort },
        JoinOptions := { emptyNetOptions with Address := joinAddr, SecurePort := joinPort },
        Token := "0123456789abcdef", NodeToken := "" },
    ApiserverOptions := { emptyOptions.ApiserverOptions with
      Options := { emptyOptions.ApiserverOptions.Options with SecurePort := apiPort } } }

/-- The state in which LoadNetManager enters the client credential resolution
of line 210, when it gets there: the runtime, the world with the trace, and
the effective fragment not yet written back.  A hosting node gets there when
its server material is generated without error, a client node when its token
is not the sentinel and has 16 bytes. -/
def resolutionEntry {W : Type} (env : Env W) (d : Defaults) (rt : LeaderRuntime) (s : Sys W)
    (flags : LeaderOptions) : Option (LeaderRuntime × Sys W × NetManagerOptions) :=
  if rt.RuntimeOption.GlobalOptions.RunNetManager = true then
    match (env.NetGenerateOrSkip s.world (hostingAuth env d rt flags)).2 with
    | some _ => none
    | none => some
      ({ rt with RuntimeAuthentication := { rt.RuntimeAuthentication with
          NetWorkManager := some (hostingAuth env d rt flags) } },
        { world := worldAfterHosting env d rt flags s.world,
          trace := s.trace ++ [.netNew rt.RuntimeAuthentication.CertDir
            (hostingAuth env d rt flags).RegisterAddress
            (hostingAuth env d rt flags).JoinAddress] ++ [.netGenerate] },
        { netEndpoints env d flags.NetmamagerOptions rt.RuntimeOption.NetmamagerOptions with
          Token := "local" })
  else if flags.NetmamagerOptions.Token = "local" ∨ len flags.NetmamagerOptions.Token ≠ 16 then
    none
  else some
    (rt, s,
      { netEndpoints env d flags.NetmamagerOptions rt.RuntimeOption.NetmamagerOptions with
        Token := flags.NetmamagerOptions.Token })

/-- The six client paths of the effective fragment are the ones held by the
bootstrap client. -/
def clientPathsFrom (new : NetManagerOptions) (c : NetworkManagerClient) : Prop :=
  new.RegisterOptions.CACert = c.RegisterCACert ∧
  new.RegisterOptions.ClientCertFile = c.RegisterClientCert ∧
  new.RegisterOptions.ClientkeyFile = c.RegisterClientkey ∧
  new.JoinOptions.CACert = c.JoinCACert ∧
  new.JoinOptions.ClientCertFile = c.JoinClientCert ∧
  new.JoinOptions.ClientkeyFile = c.JoinClientkey

instance (new : NetManagerOptions) (c : NetworkManagerClient) :
    Decidable (clientPathsFrom new c) := by
  unfold clientPathsFrom; infer_instance

/-- The bootstrap fetch of lines 215-216: a client built from the certificate
directory and the effective token, driven against the effective register
address and port.  It yields the world after the exchange, the client, and the
error if any. -/
def bootstrapFetch {W : Type} (env : Env W) (certDir : String) (w : W)
    (new : NetManagerOptions) : W × NetworkManagerClient × Option Error :=
  env.ClientGenerateOrSkip w (env.NewNetworkManagerClient certDir new.Token)
    new.RegisterOptions.Address new.RegisterOptions.SecurePort

/-- The three kine certificate paths of a fragment. -/
def KineOptions.certs (k : KineOptions) : String × String × String :=
  (k.CACert, k.ServerCertFile, k.ServerkeyFile)

/-- The three certificate paths held by the self-managed kine store. -/
def KineAuthentication.certs (a : KineAuthentication) : String × String × String :=
  (a.CACert, a.ServerCert, a.Serverkey)

/-- The world in which the client credential resolution runs: the one the
server material generation left on a hosting node, the one before the call on
a client node. -/
def resolutionWorld {W : Type} (env : Env W) (d : Defaults) (rt : LeaderRuntime)
    (flags : LeaderOptions) (w : W) : W :=
  if rt.RuntimeOption.GlobalOptions.RunNetManager = true then
    worldAfterHosting env d rt flags w
  else w

/-- Sample collaborators whose bootstrap exchange is refused. -/
def refusedFetchEnv : Env Unit :=
  { sampleEnv with ClientGenerateOrSkip := fun w c _ _ => (w, c, some "connection refused") }

/-- Sample collaborators whose bootstrap self-check fails. -/
def failedCheckEnv : Env Unit :=
  { sampleEnv with ClientCheck := fun _ _ => false }

/-- The effective fragment with which a client node holding the given raw
options enters the client credential resolution. -/
def clientEntryFragment (env : Env Unit) (flags : LeaderOptions) : NetManagerOptions :=
  { netEndpoints env sampleDefaults flags.NetmamagerOptions
      (sampleRuntime flags false).RuntimeOption.NetmamagerOptions with
    Token := flags.NetmamagerOptions.Token }

/-- A runtime on which LoadKine already ran once without operator certificates,
so that the self-managed material was generated, and which was then given the
raw options flags through SetFlags. -/
def rerunRuntime (flags : LeaderOptions) : LeaderRuntime :=
  SetFlags (LoadKine sampleEnv sampleDefaults (sampleRuntime (kineFlags "" "" "") false)
    sampleSys).rt (some flags)

/-- Cut a character list at every slash. -/
def splitSlash : List Char → List (List Char)
  | [] => [[]]
  | c :: cs =>
    if c = '/' then [] :: splitSlash cs
    else match splitSlash cs with
      | [] => [[c]]
      | p :: ps => (c :: p) :: ps

/-- The path elements that survive filepath.Clean, given the elements still to
read and the ones kept so far (last kept first): empty and dot elements are
dropped, a dot-dot element removes the element kept before it, is dropped at
the root and is kept at the start of a relative path. -/
def cleanElements (rooted : Bool) : List (List Char) → List (List Char) → List (List Char)
  | kept, [] => kept.reverse
  | kept, e :: rest =>
    if e = [] ∨ e = ['.'] then cleanElements rooted kept rest
    else if e = ['.', '.'] then
      match kept with
      | top :: below =>
        if top = ['.', '.'] then cleanElements rooted (e :: kept) rest
        else cleanElements rooted below rest
      | [] => if rooted then cleanElements rooted [] rest else cleanElements rooted [e] rest
    else cleanElements rooted (e :: kept) rest

/-- The function filepath.Clean on a Unix path, after the four rules of its
documentation; the empty path becomes a dot. -/
def filepathClean (path : String) : String :=
  let rooted := path.toList.head? = some '/'
  let body := String.intercalate "/"
    ((cleanElements rooted [] (splitSlash path.toList)).map String.mk)
  if rooted then "/" ++ body else if body = "" then "." else body

/-- The function filepath.Join for two elements on a Unix path: leading empty
elements are ignored and the rest, joined by a slash, is cleaned. -/
def filepathJoin (a b : String) : String :=
  if a ≠ "" then filepathClean (a ++ "/" ++ b)
  else if b ≠ "" then filepathClean b
  else ""

/-- The sample collaborators with the Unix filepath.Join. -/
def unixEnv : Env Unit :=
  { sampleEnv with Join := filepathJoin }

/-- Raw options that are empty except for the work directory, the log
directory and the network token. -/
def dirFlags (workDir logDir token : String) : LeaderOptions :=
  { emptyOptions with
    GlobalOptions := { emptyOptions.GlobalOptions with WorkDir := workDir, LogDir := logDir },
    NetmamagerOptions := { emptyOptions.NetmamagerOptions with Token := token } }

/-- A runtime that holds the given raw options and an effective tree with
nothing set. -/
def freshRuntime (flags : LeaderOptions) : LeaderRuntime :=
  { FlagsOption := some flags, RuntimeOption := emptyOptions,
    RuntimeAuthentication := NewRuntimeAuthentication "", OwnKineCert := false }

/-! ## Helper lemmas -/

theorem utf8ByteSize_go_eq_zero (cs : List Char) :
    String.utf8ByteSize.go cs = 0 ↔ cs = [] := by
  cases cs with
  | nil => simp [String.utf8ByteSize.go]
  | cons c cs =>
    have := Char.utf8Size_pos c
    simp [String.utf8ByteSize.go]
    omega

theorem len_eq_zero_iff (s : String) : len s = 0 ↔ s = "" := by
  cases s with
  | mk cs =>
    simp only [len, String.utf8ByteSize, utf8ByteSize_go_eq_zero]
    constructor
    · intro h; subst h; rfl
    · intro h; exact congrArg String.data h

theorem len_pos_iff (s : String) : len s > 0 ↔ s ≠ "" := by
  rw [Ne, ← len_eq_zero_iff]; omega

theorem nothingSupplied_fst {W : Type} (env : Env W) (s : Sys W) (raw : NetManagerOptions) :
    (nothingSupplied env s raw).1 =
      (env.NotExists s.world (registerFiles raw) && env.NotExists s.world (joinFiles raw) &&
        (raw.NodeToken == "")) := by
  simp only [nothingSupplied, callNotExists, registerFiles, joinFiles, Sys.emit]
  cases env.NotExists s.world [raw.RegisterOptions.CACert, raw.RegisterOptions.ClientCertFile,
      raw.RegisterOptions.ClientkeyFile] <;>
  cases env.NotExists s.world [raw.JoinOptions.CACert, raw.JoinOptions.ClientCertFile,
      raw.JoinOptions.ClientkeyFile] <;> simp

theorem nothingSupplied_world {W : Type} (env : Env W) (s : Sys W) (raw : NetManagerOptions) :
    (nothingSupplied env s raw).2.world = s.world := by
  simp only [nothingSupplied, callNotExists, Sys.emit]
  split_ifs <;> rfl

theorem suppliedValid_fst {W : Type} (env : Env W) (s : Sys W) (raw : NetManagerOptions) :
    (suppliedValid env s raw).1 = allFiveHold env s.world raw := by
  have hnt := len_pos_iff raw.NodeToken
  simp only [suppliedValid, callValidateTLSPair, callValidateCA, Sys.emit, allFiveHold,
    registerValid, joinValid]
  cases env.ValidateTLSPair s.world raw.RegisterOptions.ClientCertFile
      raw.RegisterOptions.ClientkeyFile <;>
  cases env.ValidateCA s.world raw.RegisterOptions.ClientCertFile
      raw.RegisterOptions.CACert <;>
  cases env.ValidateTLSPair s.world raw.JoinOptions.ClientCertFile
      raw.JoinOptions.ClientkeyFile <;>
  cases env.ValidateCA s.world raw.JoinOptions.ClientCertFile raw.JoinOptions.CACert <;>
  simp [hnt]

/-- The supplied branch of the client credentials: the outcome is decided by the
five requirements, and on success the credentials are the raw ones. -/
theorem loadClientCredentials_supplied {W : Type} (env : Env W) (rt : LeaderRuntime)
    (s : Sys W) (raw new : NetManagerOptions)
    (h : suppliedSomething env s.world raw = true) :
    ((loadClientCredentials env rt s raw new).out = .ok ↔ allFiveHold env s.world raw = true) ∧
    (allFiveHold env s.world raw = false →
      (loadClientCredentials env rt s raw new).out = .fail
        "you have provide bad network manager client certificates or node-token for network manager") ∧
    ((loadClientCredentials env rt s raw new).out = .ok →
      sameClientCredentials (loadClientCredentials env rt s raw new).rt.RuntimeOption.NetmamagerOptions
        raw) := by
  have h1 := nothingSupplied_fst env s raw
  have h2 := nothingSupplied_world env s raw
  have hn : (nothingSupplied env s raw).1 = false := by
    rw [h1]
    simp only [suppliedSomething, Bool.or_eq_true, Bool.not_eq_true', decide_eq_true_eq] at h
    rcases h with (h | h) | h
    · simp [h]
    · simp [h]
    · simp [h]
  rcases hp : nothingSupplied env s raw with ⟨b, s1⟩
  rw [hp] at hn h2
  simp only at hn h2
  subst hn
  have h3 := suppliedValid_fst env s1 raw
  rw [h2] at h3
  rcases hq : suppliedValid env s1 raw with ⟨v, s2⟩
  rw [hq] at h3
  simp only at h3
  simp only [loadClientCredentials, hp, hq, ← h3]
  cases v <;> simp [sameClientCredentials, LeaderRuntime.setNet]

theorem netEndpoints_Token {W : Type} (env : Env W) (d : Defaults)
    (raw new : NetManagerOptions) : (netEndpoints env d raw new).Token = new.Token := by
  simp only [netEndpoints]
  split_ifs <;> rfl

theorem netEndpoints_NodeToken {W : Type} (env : Env W) (d : Defaults)
    (raw new : NetManagerOptions) : (netEndpoints env d raw new).NodeToken = new.NodeToken := by
  simp only [netEndpoints]
  split_ifs <;> rfl

/-- Not hosting, with a token that is not the sentinel and has 16 bytes:
LoadNetManager is the client credential resolution run with that token. -/
theorem LoadNetManager_client {W : Type} (env : Env W) (d : Defaults)
    (rt : LeaderRuntime) (s : Sys W) (flags : LeaderOptions)
    (hflags : rt.FlagsOption = some flags)
    (hhost : rt.RuntimeOption.GlobalOptions.RunNetManager = false)
    (hlocal : flags.NetmamagerOptions.Token ≠ "local")
    (hlen : len flags.NetmamagerOptions.Token = 16) :
    LoadNetManager env d rt s = loadClientCredentials env rt s flags.NetmamagerOptions
      { netEndpoints env d flags.NetmamagerOptions rt.RuntimeOption.NetmamagerOptions with
        Token := flags.NetmamagerOptions.Token } := by
  have hne : (flags.NetmamagerOptions.Token == "local") = false := by simpa using hlocal
  simp [LoadNetManager, hflags, hhost, hne, hlen]

/-- The client credential resolution never touches the effective token. -/
theorem loadClientCredentials_Token {W : Type} (env : Env W) (rt : LeaderRuntime)
    (s : Sys W) (raw new : NetManagerOptions) :
    (loadClientCredentials env rt s raw new).rt.RuntimeOption.NetmamagerOptions.Token =
      new.Token := by
  rcases hp : nothingSupplied env s raw with ⟨b, s1⟩
  rcases hq : suppliedValid env s1 raw with ⟨v, s2⟩
  simp only [loadClientCredentials, hp, hq]
  cases b
  · cases v <;> simp [LeaderRuntime.setNet]
  · simp only [if_true]
    split
    · simp [LeaderRuntime.setNet]
    · split_ifs
      · simp [LeaderRuntime.setNet]
      · split <;> simp [LeaderRuntime.setNet]

theorem manifestWrites_append (t u : List Event) :
    manifestWrites (t ++ u) = manifestWrites t ++ manifestWrites u := by
  simp [manifestWrites]

theorem LoadGloabl_sys {W : Type} (env : Env W) (d : Defaults) (rt : LeaderRuntime)
    (s : Sys W) : (LoadGloabl env d rt s).sys = s := by
  unfold LoadGloabl
  split <;> rfl

theorem LoadGloabl_not_fail {W : Type} (env : Env W) (d : Defaults) (rt : LeaderRuntime)
    (s : Sys W) : (LoadGloabl env d rt s).out.isFail = false := by
  unfold LoadGloabl
  split <;> rfl

theorem nothingSupplied_manifestWrites {W : Type} (env : Env W) (s : Sys W)
    (raw : NetManagerOptions) :
    manifestWrites (nothingSupplied env s raw).2.trace = manifestWrites s.trace := by
  simp only [nothingSupplied, callNotExists, Sys.emit]
  split_ifs <;> simp [manifestWrites]

theorem suppliedValid_manifestWrites {W : Type} (env : Env W) (s : Sys W)
    (raw : NetManagerOptions) :
    manifestWrites (suppliedValid env s raw).2.trace = manifestWrites s.trace := by
  simp only [suppliedValid, callValidateTLSPair, callValidateCA, Sys.emit]
  split_ifs <;> simp [manifestWrites]

theorem loadClientCredentials_manifestWrites {W : Type} (env : Env W) (rt : LeaderRuntime)
    (s : Sys W) (raw new : NetManagerOptions) :
    manifestWrites (loadClientCredentials env rt s raw new).sys.trace =
      manifestWrites s.trace := by
  have h1 := nothingSupplied_manifestWrites env s raw
  rcases hp : nothingSupplied env s raw with ⟨b, s1⟩
  rw [hp] at h1
  have h2 := suppliedValid_manifestWrites env s1 raw
  rcases hq : suppliedValid env s1 raw with ⟨v, s2⟩
  rw [hq] at h2
  simp only at h1 h2
  simp only [loadClientCredentials, hp, hq, Sys.emit]
  cases b
  · cases v <;> simp only [h1, h2, if_true, if_false, Bool.false_eq_true]
  · simp only [if_true]
    split
    · (simp only [manifestWrites_append, h1]; simp [manifestWrites])
    · split_ifs
      · (simp only [manifestWrites_append, h1]; simp [manifestWrites])
      · split <;> (simp only [manifestWrites_append, h1]; simp [manifestWrites])

theorem LoadNetManager_manifestWrites {W : Type} (env : Env W) (d : Defaults)
    (rt : LeaderRuntime) (s : Sys W) :
    manifestWrites (LoadNetManager env d rt s).sys.trace = manifestWrites s.trace := by
  unfold LoadNetManager
  split
  · rfl
  · simp only [Sys.emit]
    split_ifs
    · split
      · simp [manifestWrites_append, manifestWrites]
      · rw [loadClientCredentials_manifestWrites]
        simp [manifestWrites_append, manifestWrites]
    · rfl
    · rfl
    · rw [loadClientCredentials_manifestWrites]

theorem kineEndpoint_certs {W : Type} (env : Env W) (d : Defaults) (raw new : KineOptions) :
    (kineEndpoint env d raw new).CACert = new.CACert ∧
    (kineEndpoint env d raw new).ServerCertFile = new.ServerCertFile ∧
    (kineEndpoint env d raw new).ServerkeyFile = new.ServerkeyFile := by
  simp only [kineEndpoint]
  split_ifs <;> simp

theorem LoadKine_manifestWrites {W : Type} (env : Env W) (d : Defaults) (rt : LeaderRuntime)
    (s : Sys W) :
    manifestWrites (LoadKine env d rt s).sys.trace = manifestWrites s.trace := by
  unfold LoadKine
  simp only [callNotExists, kineInvalid, callValidateTLSPair, callValidateCA, Sys.emit]
  split_ifs
  · rfl
  · split
    · rfl
    · split
      · split_ifs <;> (try split) <;> simp [manifestWrites]
      · rfl

theorem writeManifest_rt {W : Type} (env : Env W) (rt : LeaderRuntime) (s : Sys W) :
    (writeManifest env rt s).rt = rt := by
  unfold writeManifest
  cases env.Marshal rt.RuntimeOption with
  | error e => rfl
  | ok config =>
    simp only
    split
    · rfl
    · split <;> rfl

theorem writeManifest_ok {W : Type} (env : Env W) (rt : LeaderRuntime) (s : Sys W)
    (h : (writeManifest env rt s).out = .ok) :
    ∃ config, env.Marshal rt.RuntimeOption = .ok config ∧
      (writeManifest env rt s).sys.trace = s.trace ++
        [.mkdirAll (env.Join rt.RuntimeOption.GlobalOptions.WorkDir "startup/"),
          .writeFile (manifestPath env rt.RuntimeOption.GlobalOptions.WorkDir) config] := by
  unfold writeManifest at h ⊢
  cases hm : env.Marshal rt.RuntimeOption with
  | error e => rw [hm] at h; cases h
  | ok config =>
    refine ⟨config, rfl, ?_⟩
    rw [hm] at h
    simp only at h ⊢
    split at h
    · cases h
    · rename_i hmk
      split at h
      · cases h
      · rename_i hwr
        simp [hmk, hwr, manifestPath]

theorem isFail_ne_ok {o : Outcome} (h : o.isFail = true) : o ≠ .ok := by
  cases o <;> simp_all [Outcome.isFail]

/-- Hosting, with the server material generated: LoadNetManager is the client
credential resolution run with the token "local" in the world the generation
left. -/
theorem LoadNetManager_hosting {W : Type} (env : Env W) (d : Defaults)
    (rt : LeaderRuntime) (s : Sys W) (flags : LeaderOptions)
    (hflags : rt.FlagsOption = some flags)
    (hhost : rt.RuntimeOption.GlobalOptions.RunNetManager = true)
    (hgen : (env.NetGenerateOrSkip s.world (hostingAuth env d rt flags)).2 = none) :
    LoadNetManager env d rt s = loadClientCredentials env
      { rt with RuntimeAuthentication := { rt.RuntimeAuthentication with
          NetWorkManager := some (hostingAuth env d rt flags) } }
      { world := worldAfterHosting env d rt flags s.world,
        trace := s.trace ++ [.netNew rt.RuntimeAuthentication.CertDir
            (hostingAuth env d rt flags).RegisterAddress
            (hostingAuth env d rt flags).JoinAddress] ++ [.netGenerate] }
      flags.NetmamagerOptions
      { netEndpoints env d flags.NetmamagerOptions rt.RuntimeOption.NetmamagerOptions with
        Token := "local" } := by
  simp only [hostingAuth, worldAfterHosting] at hgen ⊢
  simp only [LoadNetManager, hflags, hhost, if_true, Sys.emit, hgen]

/-- The bootstrap branch constructs the client with the effective token and
drives it against the effective register endpoint. -/
theorem loadClientCredentials_bootstrap {W : Type} (env : Env W) (rt : LeaderRuntime)
    (s : Sys W) (raw new : NetManagerOptions)
    (h : suppliedSomething env s.world raw = false) :
    Event.clientNew rt.RuntimeAuthentication.CertDir new.Token ∈
      (loadClientCredentials env rt s raw new).sys.trace ∧
    Event.clientGenerate new.RegisterOptions.Address new.RegisterOptions.SecurePort ∈
      (loadClientCredentials env rt s raw new).sys.trace := by
  have h1 := nothingSupplied_fst env s raw
  have hn : (nothingSupplied env s raw).1 = true := by
    rw [h1]
    simp only [suppliedSomething, Bool.or_eq_false_iff, Bool.not_eq_false',
      decide_eq_false_iff_not, not_not] at h
    simp [h.1.1, h.1.2, h.2]
  rcases hp : nothingSupplied env s raw with ⟨b, s1⟩
  rw [hp] at hn
  simp only at hn
  subst hn
  simp only [loadClientCredentials, hp, if_true, Sys.emit]
  split
  · simp
  · split_ifs
    · simp
    · split <;> simp

/-- The client credential resolution never touches the register address and
port. -/
theorem loadClientCredentials_endpoint {W : Type} (env : Env W) (rt : LeaderRuntime)
    (s : Sys W) (raw new : NetManagerOptions) :
    (loadClientCredentials env rt s raw new).rt.RuntimeOption.NetmamagerOptions.RegisterOptions.Address
      = new.RegisterOptions.Address ∧
    (loadClientCredentials env rt s raw new).rt.RuntimeOption.NetmamagerOptions.RegisterOptions.SecurePort
      = new.RegisterOptions.SecurePort := by
  rcases hp : nothingSupplied env s raw with ⟨b, s1⟩
  rcases hq : suppliedValid env s1 raw with ⟨v, s2⟩
  simp only [loadClientCredentials, hp, hq]
  cases b
  · cases v <;> simp [LeaderRuntime.setNet]
  · simp only [if_true]
    split
    · simp [LeaderRuntime.setNet]
    · split_ifs
      · simp [LeaderRuntime.setNet]
      · split <;> simp [LeaderRuntime.setNet]

/-- A successful LoadNetManager ends in the client credential resolution. -/
theorem LoadNetManager_ok_resolution {W : Type} (env : Env W) (d : Defaults)
    (rt : LeaderRuntime) (s : Sys W) (flags : LeaderOptions)
    (hflags : rt.FlagsOption = some flags)
    (hok : (LoadNetManager env d rt s).out = .ok) :
    ∃ rt1 s1 new, LoadNetManager env d rt s =
      loadClientCredentials env rt1 s1 flags.NetmamagerOptions new := by
  cases hhost : rt.RuntimeOption.GlobalOptions.RunNetManager with
  | true =>
    cases hgen : (env.NetGenerateOrSkip s.world (hostingAuth env d rt flags)).2 with
    | none => exact ⟨_, _, _, LoadNetManager_hosting env d rt s flags hflags hhost hgen⟩
    | some e =>
      simp only [hostingAuth] at hgen
      simp [LoadNetManager, hflags, hhost, Sys.emit, hgen] at hok
  | false =>
    by_cases hl : flags.NetmamagerOptions.Token = "local"
    · simp [LoadNetManager, hflags, hhost, hl] at hok
    · by_cases hlen : len flags.NetmamagerOptions.Token = 16
      · exact ⟨_, _, _, LoadNetManager_client env d rt s flags hflags hhost hl hlen⟩
      · have hne : (flags.NetmamagerOptions.Token == "local") = false := by simpa using hl
        simp [LoadNetManager, hflags, hhost, hne, hlen] at hok

/-- The node token a successful client credential resolution leaves: the raw
one when the operator gave one, otherwise what the bootstrap client returned. -/
theorem loadClientCredentials_NodeToken {W : Type} (env : Env W) (rt : LeaderRuntime)
    (s : Sys W) (raw new : NetManagerOptions)
    (hok : (loadClientCredentials env rt s raw new).out = .ok) :
    (raw.NodeToken ≠ "" →
      (loadClientCredentials env rt s raw new).rt.RuntimeOption.NetmamagerOptions.NodeToken =
        raw.NodeToken) ∧
    (raw.NodeToken = "" → ∃ w c, env.ClientNodetoken w c = .ok
      (loadClientCredentials env rt s raw new).rt.RuntimeOption.NetmamagerOptions.NodeToken) := by
  have h1 := nothingSupplied_fst env s raw
  rcases hp : nothingSupplied env s raw with ⟨b, s1⟩
  have h3 := suppliedValid_fst env s1 raw
  rcases hq : suppliedValid env s1 raw with ⟨v, s2⟩
  rw [hp] at h1
  rw [hq] at h3
  simp only at h1 h3
  simp only [loadClientCredentials, hp, hq] at hok ⊢
  cases b
  · cases v
    · simp at hok
    · have hnt : raw.NodeToken ≠ "" := by
        have := h3.symm
        simp only [allFiveHold, Bool.and_eq_true, decide_eq_true_eq] at this
        exact this.2
      simp [LeaderRuntime.setNet, hnt]
  · have hnt : raw.NodeToken = "" := by
      have := h1.symm
      simp only [Bool.and_eq_true, beq_iff_eq] at this
      exact this.2
    simp only [if_true] at hok ⊢
    refine ⟨fun h => absurd hnt h, fun _ => ?_⟩
    split at hok
    · cases hok
    · split at hok
      · cases hok
      · split at hok
        · cases hok
        · rename_i hc _ _ hn
          rw [if_neg hc]
          simp only [hn]
          exact ⟨_, _, hn⟩

theorem LoadGloabl_ok {W : Type} (env : Env W) (d : Defaults) (rt : LeaderRuntime)
    (s : Sys W) (flags : LeaderOptions) (hflags : rt.FlagsOption = some flags) :
    (LoadGloabl env d rt s).out = .ok := by
  simp only [LoadGloabl, hflags]

theorem LoadGloabl_RunKine {W : Type} (env : Env W) (d : Defaults) (rt : LeaderRuntime)
    (s : Sys W) (flags : LeaderOptions) (hflags : rt.FlagsOption = some flags) :
    (LoadGloabl env d rt s).rt.RuntimeOption.GlobalOptions.RunKine =
      if (rt.RuntimeOption.ApiserverOptions.ProfessionalOptions.ECTDOptions.EtcdServers == "")
      then true else flags.GlobalOptions.RunKine := by
  simp only [LoadGloabl, hflags]
  split_ifs <;> rfl

theorem LoadGloabl_etcdServers {W : Type} (env : Env W) (d : Defaults) (rt : LeaderRuntime)
    (s : Sys W) :
    (LoadGloabl env d rt s).rt.RuntimeOption.etcdServers = rt.RuntimeOption.etcdServers := by
  unfold LoadGloabl
  split <;> rfl

theorem StrMap.get_set_self (m : StrMap) (k v : String) : (m.set k v).get k = some v := by
  simp [StrMap.get, StrMap.set]

theorem StrMap.get_set_ne (m : StrMap) (k k2 v : String) (h : k2 ≠ k) :
    (m.set k v).get k2 = m.get k2 := by
  have hk : (k == k2) = false := by simpa using fun e => h e.symm
  simp only [StrMap.get, StrMap.set, List.find?_cons, hk]
  congr 1
  induction m with
  | nil => rfl
  | cons kv m ih =>
    by_cases h1 : kv.1 = k
    · have h2 : (kv.1 == k2) = false := by
        simp only [beq_eq_false_iff_ne, ne_eq]
        rw [h1]; exact fun e => h e.symm
      have h3 : (kv.1 == k) = true := by simpa using h1
      simp only [List.filter_cons, h3, Bool.not_true, Bool.false_eq_true, if_false,
        List.find?_cons, h2, ih]
    · have h3 : (kv.1 == k) = false := by simpa using h1
      simp only [List.filter_cons, h3, Bool.not_false, if_true, List.find?_cons, ih]

theorem portMin_pos (part : String) : 0 < portMin part := by
  unfold portMin
  split
  · split_ifs with h
    · exact h
    · decide
  · decide

theorem portMax_le (part : String) : portMax part ≤ 65535 := by
  unfold portMax
  split
  · split_ifs with h
    · omega
    · decide
  · decide

theorem wrapInt64_of_small (x : Int) (h0 : 0 ≤ x) (h1 : x < 65536) : wrapInt64 x = x := by
  unfold wrapInt64
  omega

theorem sprintfRange_ne_empty (a b : Int) : sprintfRange a b ≠ "" := by
  intro h
  have h2 := congrArg String.length h
  simp only [sprintfRange, String.length_append] at h2
  have h3 : "-".length = 1 := rfl
  have h4 : "".length = 0 := rfl
  omega

/-- The check of lines 291-306 yields the empty string exactly for the ranges
that are not accepted. -/
theorem nodePortRange_eq_empty_iff (rawRange : String) :
    nodePortRange rawRange = "" ↔ rangeRejected rawRange := by
  unfold nodePortRange rangeRejected
  split
  · rename_i p0 p1 _
    have hmin := portMin_pos p0
    have hmax := portMax_le p1
    simp only
    by_cases hgt : portMax p1 > portMin p0
    · have hw := wrapInt64_of_small (portMax p1 - portMin p0) (by omega) (by omega)
      rw [hw]
      by_cases hs : portMax p1 - portMin p0 > 100
      · simp only [hgt, hs, and_self, if_true]
        constructor
        · intro h; exact absurd h (sprintfRange_ne_empty _ _)
        · intro h; omega
      · simp only [hs, and_false, if_false, true_iff]
        right; omega
    · simp only [hgt, false_and, if_false, true_iff]
      left; omega
  · simp

/-- The effective node-port range and the recorded option after LoadApiserver. -/
theorem LoadApiserver_nodePortRange {W : Type} (env : Env W) (d : Defaults)
    (rt : LeaderRuntime) (s : Sys W) (flags : LeaderOptions)
    (hflags : rt.FlagsOption = some flags) :
    (LoadApiserver env d rt s).out = .ok ∧
    (LoadApiserver env d rt s).rt.RuntimeOption.ApiserverOptions.Options.ServiceNodePortRange =
      (if nodePortRange flags.ApiserverOptions.Options.ServiceNodePortRange = "" then
        d.ALO_ServiceNodePortRange
      else nodePortRange flags.ApiserverOptions.Options.ServiceNodePortRange) ∧
    (LoadApiserver env d rt s).rt.RuntimeOption.ApiserverOptions.IgnoreOptions.get
        "service-node-port-range" =
      (if nodePortRange flags.ApiserverOptions.Options.ServiceNodePortRange = "" then
        some flags.ApiserverOptions.Options.ServiceNodePortRange
      else flags.ApiserverOptions.IgnoreOptions.get "service-node-port-range") := by
  simp only [LoadApiserver, hflags]
  by_cases hr : nodePortRange flags.ApiserverOptions.Options.ServiceNodePortRange = ""
  · cases hc : env.ParseCIDR flags.ApiserverOptions.Options.ServiceClusterIpRange <;>
      simp [hr, StrMap.get_set_self] <;> split_ifs <;> rfl
  · have hb : (nodePortRange flags.ApiserverOptions.Options.ServiceNodePortRange == "")
        = false := by simpa using hr
    cases hc : env.ParseCIDR flags.ApiserverOptions.Options.ServiceClusterIpRange
    · simp [hr, hb]
      refine ⟨by split_ifs <;> rfl, ?_⟩
      exact StrMap.get_set_ne _ _ _ _ (by decide)
    · simp [hr, hb]
      split_ifs <;> rfl

theorem portMin_of_parse (part : String) (lo : Int) (h : Atoi (TrimSpace part) = some lo)
    (hpos : 0 < lo) : portMin part = lo := by
  simp [portMin, h, hpos]

theorem portMax_of_parse (part : String) (hi : Int) (h : Atoi (TrimSpace part) = some hi)
    (hlt : hi < 65536) : portMax part = hi := by
  simp [portMax, h, hlt]

theorem netEndpoints_fields {W : Type} (env : Env W) (d : Defaults)
    (raw new : NetManagerOptions) :
    (netEndpoints env d raw new).RegisterOptions.Address =
      (if env.ParseIP raw.RegisterOptions.Address = false then d.RONO_Address
        else raw.RegisterOptions.Address) ∧
    (netEndpoints env d raw new).JoinOptions.Address =
      (if env.ParseIP raw.JoinOptions.Address = false then d.JONO_Address
        else raw.JoinOptions.Address) ∧
    (netEndpoints env d raw new).RegisterOptions.SecurePort =
      (if raw.RegisterOptions.SecurePort < 1 ∨ raw.RegisterOptions.SecurePort > 65535
        then d.RONO_SecurePort else raw.RegisterOptions.SecurePort) ∧
    (netEndpoints env d raw new).JoinOptions.SecurePort =
      (if raw.JoinOptions.SecurePort < 1 ∨ raw.JoinOptions.SecurePort > 65535
        then d.JONO_SecurePort else raw.JoinOptions.SecurePort) := by
  simp only [netEndpoints]
  refine ⟨?_, ?_, ?_, ?_⟩ <;> split_ifs <;> rfl

theorem kineEndpoint_fields {W : Type} (env : Env W) (d : Defaults) (raw new : KineOptions) :
    (kineEndpoint env d raw new).BindAddress =
      (if env.ParseIP raw.BindAddress = false then d.KO_BindAddress else raw.BindAddress) ∧
    (kineEndpoint env d raw new).SecurePort =
      (if raw.SecurePort < 1 ∨ raw.SecurePort > 65535 then d.KO_SecurePort
        else raw.SecurePort) := by
  simp only [kineEndpoint]
  refine ⟨?_, ?_⟩ <;> split_ifs <;> rfl

/-- The client credential resolution never touches the join address and port. -/
theorem loadClientCredentials_joinEndpoint {W : Type} (env : Env W) (rt : LeaderRuntime)
    (s : Sys W) (raw new : NetManagerOptions) :
    (loadClientCredentials env rt s raw new).rt.RuntimeOption.NetmamagerOptions.JoinOptions.Address
      = new.JoinOptions.Address ∧
    (loadClientCredentials env rt s raw new).rt.RuntimeOption.NetmamagerOptions.JoinOptions.SecurePort
      = new.JoinOptions.SecurePort := by
  rcases hp : nothingSupplied env s raw with ⟨b, s1⟩
  rcases hq : suppliedValid env s1 raw with ⟨v, s2⟩
  simp only [loadClientCredentials, hp, hq]
  cases b
  · cases v <;> simp [LeaderRuntime.setNet]
  · simp only [if_true]
    split
    · simp [LeaderRuntime.setNet]
    · split_ifs
      · simp [LeaderRuntime.setNet]
      · split <;> simp [LeaderRuntime.setNet]

/-- Whatever way LoadNetManager ends, the addresses and ports it leaves are the
ones computed by lines 164-189. -/
theorem LoadNetManager_endpoints {W : Type} (env : Env W) (d : Defaults)
    (rt : LeaderRuntime) (s : Sys W) (flags : LeaderOptions)
    (hflags : rt.FlagsOption = some flags) :
    (LoadNetManager env d rt s).rt.RuntimeOption.NetmamagerOptions.RegisterOptions.Address =
      (netEndpoints env d flags.NetmamagerOptions
        rt.RuntimeOption.NetmamagerOptions).RegisterOptions.Address ∧
    (LoadNetManager env d rt s).rt.RuntimeOption.NetmamagerOptions.JoinOptions.Address =
      (netEndpoints env d flags.NetmamagerOptions
        rt.RuntimeOption.NetmamagerOptions).JoinOptions.Address ∧
    (LoadNetManager env d rt s).rt.RuntimeOption.NetmamagerOptions.RegisterOptions.SecurePort =
      (netEndpoints env d flags.NetmamagerOptions
        rt.RuntimeOption.NetmamagerOptions).RegisterOptions.SecurePort ∧
    (LoadNetManager env d rt s).rt.RuntimeOption.NetmamagerOptions.JoinOptions.SecurePort =
      (netEndpoints env d flags.NetmamagerOptions
        rt.RuntimeOption.NetmamagerOptions).JoinOptions.SecurePort := by
  cases hhost : rt.RuntimeOption.GlobalOptions.RunNetManager with
  | true =>
    cases hgen : (env.NetGenerateOrSkip s.world (hostingAuth env d rt flags)).2 with
    | none =>
      rw [LoadNetManager_hosting env d rt s flags hflags hhost hgen]
      exact ⟨(loadClientCredentials_endpoint _ _ _ _ _).1,
        (loadClientCredentials_joinEndpoint _ _ _ _ _).1,
        (loadClientCredentials_endpoint _ _ _ _ _).2,
        (loadClientCredentials_joinEndpoint _ _ _ _ _).2⟩
    | some e =>
      simp only [hostingAuth] at hgen
      simp [LoadNetManager, hflags, hhost, Sys.emit, hgen, LeaderRuntime.setNet]
  | false =>
    by_cases hl : flags.NetmamagerOptions.Token = "local"
    · simp [LoadNetManager, hflags, hhost, hl, LeaderRuntime.setNet]
    · by_cases hlen : len flags.NetmamagerOptions.Token = 16
      · rw [LoadNetManager_client env d rt s flags hflags hhost hl hlen]
        exact ⟨(loadClientCredentials_endpoint _ _ _ _ _).1,
          (loadClientCredentials_joinEndpoint _ _ _ _ _).1,
          (loadClientCredentials_endpoint _ _ _ _ _).2,
          (loadClientCredentials_joinEndpoint _ _ _ _ _).2⟩
      · have hne : (flags.NetmamagerOptions.Token == "local") = false := by simpa using hl
        simp [LoadNetManager, hflags, hhost, hne, hlen, LeaderRuntime.setNet]

/-- With the storage backend enabled and both kine fragments allocated, whatever
way LoadKine ends, the bind address and port it leaves are the ones computed by
lines 115-127. -/
theorem LoadKine_endpoint {W : Type} (env : Env W) (d : Defaults) (rt : LeaderRuntime)
    (s : Sys W) (flags : LeaderOptions) (raw eff : KineOptions)
    (hflags : rt.FlagsOption = some flags) (hraw : flags.KineOptions = some raw)
    (heff : rt.RuntimeOption.KineOptions = some eff)
    (hrun : rt.RuntimeOption.GlobalOptions.RunKine = true) :
    ∃ k, (LoadKine env d rt s).rt.RuntimeOption.KineOptions = some k ∧
      k.BindAddress = (kineEndpoint env d raw eff).BindAddress ∧
      k.SecurePort = (kineEndpoint env d raw eff).SecurePort := by
  simp only [LoadKine, hflags, hraw, heff, hrun, callNotExists, kineInvalid,
    callValidateTLSPair, callValidateCA, Sys.emit, LeaderRuntime.setKine]
  simp only [Bool.true_eq_false, if_false]
  split_ifs
  · split <;> exact ⟨_, rfl, rfl, rfl⟩
  all_goals exact ⟨_, rfl, rfl, rfl⟩

theorem LoadApiserver_SecurePort {W : Type} (env : Env W) (d : Defaults)
    (rt : LeaderRuntime) (s : Sys W) (flags : LeaderOptions)
    (hflags : rt.FlagsOption = some flags) :
    (LoadApiserver env d rt s).rt.RuntimeOption.ApiserverOptions.Options.SecurePort =
      (if flags.ApiserverOptions.Options.SecurePort < 1 ∨
          flags.ApiserverOptions.Options.SecurePort > 65535 then d.ALO_SecurePort
        else flags.ApiserverOptions.Options.SecurePort) := by
  simp only [LoadApiserver, hflags]
  split_ifs <;> rfl

theorem portReconciled_ite (p dflt : Int) :
    portReconciled p dflt (if p < 1 ∨ p > 65535 then dflt else p) := by
  unfold portReconciled
  split_ifs with h
  · exact ⟨fun _ => rfl, fun h2 => by omega⟩
  · exact ⟨fun h2 => absurd h2 (by omega), fun _ => rfl⟩

theorem addressReconciled_ite {W : Type} (env : Env W) (a dflt : String) :
    addressReconciled env a dflt (if env.ParseIP a = false then dflt else a) := by
  unfold addressReconciled
  cases env.ParseIP a <;> simp

theorem netEndpoints_credentials {W : Type} (env : Env W) (d : Defaults)
    (raw new : NetManagerOptions) :
    sameClientCredentials (netEndpoints env d raw new) new := by
  simp only [netEndpoints, sameClientCredentials]
  split_ifs <;> simp

/-- When LoadNetManager gets to the client credential resolution, it is that
resolution run from the entry state. -/
theorem LoadNetManager_of_entry {W : Type} (env : Env W) (d : Defaults)
    (rt : LeaderRuntime) (s : Sys W) (flags : LeaderOptions)
    (rt1 : LeaderRuntime) (s1 : Sys W) (new1 : NetManagerOptions)
    (hflags : rt.FlagsOption = some flags)
    (hentry : resolutionEntry env d rt s flags = some (rt1, s1, new1)) :
    LoadNetManager env d rt s = loadClientCredentials env rt1 s1 flags.NetmamagerOptions new1 := by
  unfold resolutionEntry at hentry
  split_ifs at hentry with hhost hbad
  · split at hentry
    · cases hentry
    · rename_i hgen
      simp only [Option.some.injEq, Prod.mk.injEq] at hentry
      obtain ⟨h1, h2, h3⟩ := hentry
      rw [← h1, ← h2, ← h3]
      exact LoadNetManager_hosting env d rt s flags hflags hhost hgen
  · simp only [Option.some.injEq, Prod.mk.injEq] at hentry
    obtain ⟨h1, h2, h3⟩ := hentry
    rw [← h1, ← h2, ← h3]
    have hh : rt.RuntimeOption.GlobalOptions.RunNetManager = false := by simpa using hhost
    exact LoadNetManager_client env d rt s flags hflags hh (fun h => hbad (Or.inl h))
      (by by_contra h; exact hbad (Or.inr h))

/-- A successful LoadNetManager got to the client credential resolution. -/
theorem LoadNetManager_ok_entry {W : Type} (env : Env W) (d : Defaults)
    (rt : LeaderRuntime) (s : Sys W) (flags : LeaderOptions)
    (hflags : rt.FlagsOption = some flags)
    (hok : (LoadNetManager env d rt s).out = .ok) :
    ∃ rt1 s1 new1, resolutionEntry env d rt s flags = some (rt1, s1, new1) := by
  cases hhost : rt.RuntimeOption.GlobalOptions.RunNetManager with
  | true =>
    cases hgen : (env.NetGenerateOrSkip s.world (hostingAuth env d rt flags)).2 with
    | none =>
      simp only [resolutionEntry, hhost, if_true, hgen]
      exact ⟨_, _, _, rfl⟩
    | some e =>
      simp only [hostingAuth] at hgen
      simp [LoadNetManager, hflags, hhost, Sys.emit, hgen] at hok
  | false =>
    by_cases hl : flags.NetmamagerOptions.Token = "local"
    · simp [LoadNetManager, hflags, hhost, hl] at hok
    · by_cases hlen : len flags.NetmamagerOptions.Token = 16
      · simp only [resolutionEntry, hhost, hl, hlen, Bool.false_eq_true, if_false, ne_eq,
          not_true_eq_false, or_self]
        exact ⟨_, _, _, rfl⟩
      · have hne : (flags.NetmamagerOptions.Token == "local") = false := by simpa using hl
        simp [LoadNetManager, hflags, hhost, hne, hlen] at hok

/-- What the entry state keeps of the state before the call: the certificate
directory, and the client credentials of the effective fragment; its token is
"local" on a hosting node and the raw token, valid, on a client node. -/
theorem resolutionEntry_facts {W : Type} (env : Env W) (d : Defaults)
    (rt : LeaderRuntime) (s : Sys W) (flags : LeaderOptions)
    (rt1 : LeaderRuntime) (s1 : Sys W) (new1 : NetManagerOptions)
    (hentry : resolutionEntry env d rt s flags = some (rt1, s1, new1)) :
    rt1.RuntimeAuthentication.CertDir = rt.RuntimeAuthentication.CertDir ∧
    rt1.RuntimeOption.GlobalOptions = rt.RuntimeOption.GlobalOptions ∧
    sameClientCredentials new1 rt.RuntimeOption.NetmamagerOptions ∧
    new1.RegisterOptions.Address = (netEndpoints env d flags.NetmamagerOptions
      rt.RuntimeOption.NetmamagerOptions).RegisterOptions.Address ∧
    new1.RegisterOptions.SecurePort = (netEndpoints env d flags.NetmamagerOptions
      rt.RuntimeOption.NetmamagerOptions).RegisterOptions.SecurePort ∧
    (rt.RuntimeOption.GlobalOptions.RunNetManager = true → new1.Token = "local") ∧
    (rt.RuntimeOption.GlobalOptions.RunNetManager = false →
      new1.Token = flags.NetmamagerOptions.Token ∧ flags.NetmamagerOptions.Token ≠ "local" ∧
      len flags.NetmamagerOptions.Token = 16 ∧ s1 = s) := by
  have hc := netEndpoints_credentials env d flags.NetmamagerOptions
    rt.RuntimeOption.NetmamagerOptions
  unfold resolutionEntry at hentry
  split_ifs at hentry with hhost hbad
  · split at hentry
    · cases hentry
    · simp only [Option.some.injEq, Prod.mk.injEq] at hentry
      obtain ⟨h1, h2, h3⟩ := hentry
      subst h1 h3
      refine ⟨rfl, rfl, hc, rfl, rfl, fun _ => rfl, fun h => ?_⟩
      rw [hhost] at h; cases h
  · simp only [Option.some.injEq, Prod.mk.injEq] at hentry
    obtain ⟨h1, h2, h3⟩ := hentry
    subst h1 h3
    refine ⟨rfl, rfl, hc, rfl, rfl, fun h => absurd h hhost, fun _ => ?_⟩
    exact ⟨rfl, fun h => hbad (Or.inl h), by by_contra h; exact hbad (Or.inr h), h2.symm⟩

/-- The four ways the bootstrap branch ends, in terms of what the client
returned: a failed fetch, a failed self-check and a failed node-token read
each return an error and leave the effective fragment as it was; otherwise the
fragment takes the six paths of the client and the node token it returned. -/
theorem loadClientCredentials_bootstrap_outcomes {W : Type} (env : Env W)
    (rt : LeaderRuntime) (s : Sys W) (raw new : NetManagerOptions)
    (h : suppliedSomething env s.world raw = false) :
    (∀ e, (bootstrapFetch env rt.RuntimeAuthentication.CertDir s.world new).2.2 = some e →
      (loadClientCredentials env rt s raw new).out = .fail e ∧
      (loadClientCredentials env rt s raw new).rt.RuntimeOption.NetmamagerOptions = new) ∧
    ((bootstrapFetch env rt.RuntimeAuthentication.CertDir s.world new).2.2 = none →
      env.ClientCheck
        (bootstrapFetch env rt.RuntimeAuthentication.CertDir s.world new).1
        (bootstrapFetch env rt.RuntimeAuthentication.CertDir s.world new).2.1 = false →
      (loadClientCredentials env rt s raw new).out = .fail
        "fail to load network-manager TLS args" ∧
      (loadClientCredentials env rt s raw new).rt.RuntimeOption.NetmamagerOptions = new) ∧
    (∀ e, (bootstrapFetch env rt.RuntimeAuthentication.CertDir s.world new).2.2 = none →
      env.ClientCheck
        (bootstrapFetch env rt.RuntimeAuthentication.CertDir s.world new).1
        (bootstrapFetch env rt.RuntimeAuthentication.CertDir s.world new).2.1 = true →
      env.ClientNodetoken
        (bootstrapFetch env rt.RuntimeAuthentication.CertDir s.world new).1
        (bootstrapFetch env rt.RuntimeAuthentication.CertDir s.world new).2.1 = .error e →
      (loadClientCredentials env rt s raw new).out = .fail e ∧
      (loadClientCredentials env rt s raw new).rt.RuntimeOption.NetmamagerOptions = new) ∧
    (∀ tok, (bootstrapFetch env rt.RuntimeAuthentication.CertDir s.world new).2.2 = none →
      env.ClientCheck
        (bootstrapFetch env rt.RuntimeAuthentication.CertDir s.world new).1
        (bootstrapFetch env rt.RuntimeAuthentication.CertDir s.world new).2.1 = true →
      env.ClientNodetoken
        (bootstrapFetch env rt.RuntimeAuthentication.CertDir s.world new).1
        (bootstrapFetch env rt.RuntimeAuthentication.CertDir s.world new).2.1 = .ok tok →
      (loadClientCredentials env rt s raw new).out = .ok ∧
      (loadClientCredentials env rt s raw new).rt.RuntimeAuthentication.NetWorkManagerClient =
        some (bootstrapFetch env rt.RuntimeAuthentication.CertDir s.world new).2.1 ∧
      clientPathsFrom (loadClientCredentials env rt s raw new).rt.RuntimeOption.NetmamagerOptions
        (bootstrapFetch env rt.RuntimeAuthentication.CertDir s.world new).2.1 ∧
      (loadClientCredentials env rt s raw new).rt.RuntimeOption.NetmamagerOptions.NodeToken =
        tok) := by
  simp only [bootstrapFetch]
  have h1 := nothingSupplied_fst env s raw
  have h2 := nothingSupplied_world env s raw
  have hn : (nothingSupplied env s raw).1 = true := by
    rw [h1]
    simp only [suppliedSomething, Bool.or_eq_false_iff, Bool.not_eq_false',
      decide_eq_false_iff_not, not_not] at h
    simp [h.1.1, h.1.2, h.2]
  rcases hp : nothingSupplied env s raw with ⟨b, s1⟩
  rw [hp] at hn h2
  simp only at hn h2
  subst hn
  generalize hg : env.ClientGenerateOrSkip s.world
    (env.NewNetworkManagerClient rt.RuntimeAuthentication.CertDir new.Token)
    new.RegisterOptions.Address new.RegisterOptions.SecurePort = g
  have hrun : loadClientCredentials env rt s raw new =
      (let s2 : Sys W := { world := g.1, trace := (s1.emit (.clientNew
          rt.RuntimeAuthentication.CertDir new.Token)).trace ++
          [.clientGenerate new.RegisterOptions.Address new.RegisterOptions.SecurePort] }
       let rt2 := { rt with RuntimeAuthentication :=
          { rt.RuntimeAuthentication with NetWorkManagerClient := some g.2.1 } }
       match g.2.2 with
       | some e => { rt := rt2.setNet new, sys := s2, out := .fail e }
       | none =>
         if env.ClientCheck g.1 g.2.1 = false then
           { rt := rt2.setNet new, sys := s2.emit .clientCheck,
             out := .fail "fail to load network-manager TLS args" }
         else
           match env.ClientNodetoken g.1 g.2.1 with
           | .error e =>
             { rt := rt2.setNet new, sys := (s2.emit .clientCheck).emit .clientNodetoken,
               out := .fail e }
           | .ok nodeToken =>
             { rt := rt2.setNet
                 { RegisterOptions := { new.RegisterOptions with
                     CACert := g.2.1.RegisterCACert,
                     ClientCertFile := g.2.1.RegisterClientCert,
                     ClientkeyFile := g.2.1.RegisterClientkey },
                   JoinOptions := { new.JoinOptions with
                     CACert := g.2.1.JoinCACert,
                     ClientCertFile := g.2.1.JoinClientCert,
                     ClientkeyFile := g.2.1.JoinClientkey },
                   Token := new.Token, NodeToken := nodeToken },
               sys := (s2.emit .clientCheck).emit .clientNodetoken, out := .ok }) := by
    subst hg
    simp only [loadClientCredentials, hp, if_true, Sys.emit, h2]
  rw [hrun]
  rcases g with ⟨w, c, err⟩
  refine ⟨?_, ?_, ?_, ?_⟩
  · intro e he
    simp only at he
    subst he
    exact ⟨rfl, rfl⟩
  · intro he hc
    simp only at he hc
    subst he
    simp only [hc, if_true, LeaderRuntime.setNet, and_self]
  · intro e he hc hn
    simp only at he hc hn
    subst he
    simp only [hc, hn, Bool.true_eq_false, if_false, LeaderRuntime.setNet, and_self]
  · intro tok he hc hn
    simp only at he hc hn
    subst he
    simp only [hc, hn, Bool.true_eq_false, if_false, LeaderRuntime.setNet, clientPathsFrom,
      and_self]

/-- The two ways LoadKine succeeds when the storage backend is enabled: the
operator files are absent and the self-managed material is generated and used,
with OwnKineCert set; or they are present and valid and are used verbatim,
with OwnKineCert and the store left as they were. -/
theorem LoadKine_ok_cases {W : Type} (env : Env W) (d : Defaults) (rt : LeaderRuntime)
    (s : Sys W) (flags : LeaderOptions) (raw eff : KineOptions)
    (hflags : rt.FlagsOption = some flags) (hraw : flags.KineOptions = some raw)
    (heff : rt.RuntimeOption.KineOptions = some eff)
    (hrun : rt.RuntimeOption.GlobalOptions.RunKine = true)
    (hok : (LoadKine env d rt s).out = .ok) :
    ∃ k, (LoadKine env d rt s).rt.RuntimeOption.KineOptions = some k ∧
      ((env.NotExists s.world [raw.CACert, raw.ServerCertFile, raw.ServerkeyFile] = true ∧
          (LoadKine env d rt s).rt.OwnKineCert = true ∧
          ∃ ka, (LoadKine env d rt s).rt.RuntimeAuthentication.Kine = some ka ∧
            k.certs = ka.certs) ∨
        (env.NotExists s.world [raw.CACert, raw.ServerCertFile, raw.ServerkeyFile] = false ∧
          env.ValidateTLSPair s.world raw.ServerCertFile raw.ServerkeyFile = true ∧
          env.ValidateCA s.world raw.ServerCertFile raw.CACert = true ∧
          (LoadKine env d rt s).rt.OwnKineCert = rt.OwnKineCert ∧
          (LoadKine env d rt s).rt.RuntimeAuthentication = rt.RuntimeAuthentication ∧
          k.certs = raw.certs)) := by
  simp only [LoadKine, hflags, hraw, heff, hrun, callNotExists, kineInvalid,
    callValidateTLSPair, callValidateCA, Sys.emit, LeaderRuntime.setKine] at hok ⊢
  simp only [Bool.true_eq_false, if_false] at hok ⊢
  cases hne : env.NotExists s.world [raw.CACert, raw.ServerCertFile, raw.ServerkeyFile]
  · simp only [hne, Bool.false_eq_true, if_false] at hok ⊢
    cases hp : env.ValidateTLSPair s.world raw.ServerCertFile raw.ServerkeyFile
    · simp [hp] at hok
    · cases hc : env.ValidateCA s.world raw.ServerCertFile raw.CACert
      · simp [hp, hc] at hok
      · simp [hp, hc, KineOptions.certs]
  · simp only [hne, if_true] at hok ⊢
    split at hok
    · cases hok
    · rename_i hg
      simp [hg, KineOptions.certs, KineAuthentication.certs]

theorem resolutionEntry_world {W : Type} (env : Env W) (d : Defaults)
    (rt : LeaderRuntime) (s : Sys W) (flags : LeaderOptions)
    (rt1 : LeaderRuntime) (s1 : Sys W) (new1 : NetManagerOptions)
    (hentry : resolutionEntry env d rt s flags = some (rt1, s1, new1)) :
    s1.world = resolutionWorld env d rt flags s.world := by
  unfold resolutionEntry at hentry
  unfold resolutionWorld
  split_ifs at hentry ⊢ with hhost hbad
  · split at hentry
    · cases hentry
    · simp only [Option.some.injEq, Prod.mk.injEq] at hentry
      rw [← hentry.2.1]
  · simp only [Option.some.injEq, Prod.mk.injEq] at hentry
    rw [← hentry.2.1]

/-- A successful bootstrap: the fetch, the self-check and the node-token read
all went well, the store holds the client and the effective fragment takes its
six paths. -/
theorem loadClientCredentials_bootstrap_ok {W : Type} (env : Env W)
    (rt : LeaderRuntime) (s : Sys W) (raw new : NetManagerOptions)
    (h : suppliedSomething env s.world raw = false)
    (hok : (loadClientCredentials env rt s raw new).out = .ok) :
    (bootstrapFetch env rt.RuntimeAuthentication.CertDir s.world new).2.2 = none ∧
    env.ClientCheck (bootstrapFetch env rt.RuntimeAuthentication.CertDir s.world new).1
      (bootstrapFetch env rt.RuntimeAuthentication.CertDir s.world new).2.1 = true ∧
    (∃ tok, env.ClientNodetoken
      (bootstrapFetch env rt.RuntimeAuthentication.CertDir s.world new).1
      (bootstrapFetch env rt.RuntimeAuthentication.CertDir s.world new).2.1 = .ok tok ∧
      (loadClientCredentials env rt s raw new).rt.RuntimeOption.NetmamagerOptions.NodeToken
        = tok) ∧
    (loadClientCredentials env rt s raw new).rt.RuntimeAuthentication.NetWorkManagerClient =
      some (bootstrapFetch env rt.RuntimeAuthentication.CertDir s.world new).2.1 ∧
    clientPathsFrom (loadClientCredentials env rt s raw new).rt.RuntimeOption.NetmamagerOptions
      (bootstrapFetch env rt.RuntimeAuthentication.CertDir s.world new).2.1 := by
  obtain ⟨h1, h2, h3, h4⟩ := loadClientCredentials_bootstrap_outcomes env rt s raw new h
  cases hg : (bootstrapFetch env rt.RuntimeAuthentication.CertDir s.world new).2.2 with
  | some e =>
    rw [(h1 e hg).1] at hok; cases hok
  | none =>
    cases hc : env.ClientCheck (bootstrapFetch env rt.RuntimeAuthentication.CertDir s.world new).1
        (bootstrapFetch env rt.RuntimeAuthentication.CertDir s.world new).2.1 with
    | false => rw [(h2 hg hc).1] at hok; cases hok
    | true =>
      cases hn : env.ClientNodetoken
          (bootstrapFetch env rt.RuntimeAuthentication.CertDir s.world new).1
          (bootstrapFetch env rt.RuntimeAuthentication.CertDir s.world new).2.1 with
      | error e => rw [(h3 e hg hc hn).1] at hok; cases hok
      | ok tok =>
        obtain ⟨_, hcl, hpaths, htok⟩ := h4 tok hg hc hn
        exact ⟨rfl, rfl, ⟨tok, rfl, htok⟩, hcl, hpaths⟩

theorem sameClientCredentials_of_eq {a b c : NetManagerOptions} (h : a = b)
    (hbc : sameClientCredentials b c) : sameClientCredentials a c := by
  rw [h]; exact hbc

/-- The client credential resolution never touches the global options. -/
theorem loadClientCredentials_GlobalOptions {W : Type} (env : Env W) (rt : LeaderRuntime)
    (s : Sys W) (raw new : NetManagerOptions) :
    (loadClientCredentials env rt s raw new).rt.RuntimeOption.GlobalOptions =
      rt.RuntimeOption.GlobalOptions := by
  rcases hp : nothingSupplied env s raw with ⟨b, s1⟩
  rcases hq : suppliedValid env s1 raw with ⟨v, s2⟩
  simp only [loadClientCredentials, hp, hq]
  cases b
  · cases v <;> simp [LeaderRuntime.setNet]
  · simp only [if_true]
    split
    · simp [LeaderRuntime.setNet]
    · split_ifs
      · simp [LeaderRuntime.setNet]
      · split <;> simp [LeaderRuntime.setNet]

theorem LoadGloabl_FlagsOption {W : Type} (env : Env W) (d : Defaults) (rt : LeaderRuntime)
    (s : Sys W) : (LoadGloabl env d rt s).rt.FlagsOption = rt.FlagsOption := by
  unfold LoadGloabl
  split
  · rfl
  · rename_i h; simp only [h]

theorem LoadKine_FlagsOption {W : Type} (env : Env W) (d : Defaults) (rt : LeaderRuntime)
    (s : Sys W) : (LoadKine env d rt s).rt.FlagsOption = rt.FlagsOption := by
  unfold LoadKine
  simp only [callNotExists, kineInvalid, callValidateTLSPair, callValidateCA, Sys.emit,
    LeaderRuntime.setKine]
  split_ifs
  · rfl
  · split
    · rfl
    · split
      · split_ifs <;> (try split) <;> simp_all
      · rfl

theorem LoadKine_GlobalOptions {W : Type} (env : Env W) (d : Defaults) (rt : LeaderRuntime)
    (s : Sys W) :
    (LoadKine env d rt s).rt.RuntimeOption.GlobalOptions = rt.RuntimeOption.GlobalOptions := by
  unfold LoadKine
  simp only [callNotExists, kineInvalid, callValidateTLSPair, callValidateCA, Sys.emit,
    LeaderRuntime.setKine]
  split_ifs
  · rfl
  · split
    · rfl
    · split
      · split_ifs <;> (try split) <;> rfl
      · rfl

theorem loadClientCredentials_FlagsOption {W : Type} (env : Env W) (rt : LeaderRuntime)
    (s : Sys W) (raw new : NetManagerOptions) :
    (loadClientCredentials env rt s raw new).rt.FlagsOption = rt.FlagsOption := by
  rcases hp : nothingSupplied env s raw with ⟨b, s1⟩
  rcases hq : suppliedValid env s1 raw with ⟨v, s2⟩
  simp only [loadClientCredentials, hp, hq]
  cases b
  · cases v <;> simp [LeaderRuntime.setNet]
  · simp only [if_true]
    split
    · simp [LeaderRuntime.setNet]
    · split_ifs
      · simp [LeaderRuntime.setNet]
      · split <;> simp [LeaderRuntime.setNet]

theorem LoadNetManager_frame {W : Type} (env : Env W) (d : Defaults)
    (rt : LeaderRuntime) (s : Sys W) :
    (LoadNetManager env d rt s).rt.FlagsOption = rt.FlagsOption ∧
    (LoadNetManager env d rt s).rt.RuntimeOption.GlobalOptions =
      rt.RuntimeOption.GlobalOptions := by
  cases hflags : rt.FlagsOption with
  | none => simp [LoadNetManager, hflags]
  | some flags =>
    cases hhost : rt.RuntimeOption.GlobalOptions.RunNetManager with
    | true =>
      cases hgen : (env.NetGenerateOrSkip s.world (hostingAuth env d rt flags)).2 with
      | none =>
        rw [LoadNetManager_hosting env d rt s flags hflags hhost hgen,
          loadClientCredentials_FlagsOption, loadClientCredentials_GlobalOptions]
        exact ⟨hflags, rfl⟩
      | some e =>
        simp only [hostingAuth] at hgen
        simp [LoadNetManager, hflags, hhost, Sys.emit, hgen, LeaderRuntime.setNet]
    | false =>
      by_cases hl : flags.NetmamagerOptions.Token = "local"
      · simp [LoadNetManager, hflags, hhost, hl, LeaderRuntime.setNet]
      · by_cases hlen : len flags.NetmamagerOptions.Token = 16
        · rw [LoadNetManager_client env d rt s flags hflags hhost hl hlen,
            loadClientCredentials_FlagsOption, loadClientCredentials_GlobalOptions]
          exact ⟨hflags, rfl⟩
        · have hne : (flags.NetmamagerOptions.Token == "local") = false := by simpa using hl
          simp [LoadNetManager, hflags, hhost, hne, hlen, LeaderRuntime.setNet]

/-- What LoadGloabl leaves in the effective global options. -/
theorem LoadGloabl_fields {W : Type} (env : Env W) (d : Defaults) (rt : LeaderRuntime)
    (s : Sys W) (flags : LeaderOptions) (hflags : rt.FlagsOption = some flags) :
    (LoadGloabl env d rt s).rt.RuntimeOption.GlobalOptions.WorkDir =
      (if flags.GlobalOptions.WorkDir = "" then d.GO_WorkDir else flags.GlobalOptions.WorkDir) ∧
    (LoadGloabl env d rt s).rt.RuntimeOption.GlobalOptions.LogDir =
      (if flags.GlobalOptions.LogDir = "" then
        env.Join (LoadGloabl env d rt s).rt.RuntimeOption.GlobalOptions.WorkDir "logs/"
      else flags.GlobalOptions.LogDir) ∧
    (LoadGloabl env d rt s).rt.RuntimeOption.GlobalOptions.RunNetManager =
      flags.GlobalOptions.RunNetManager ∧
    (LoadGloabl env d rt s).rt.RuntimeAuthentication.CertDir =
      env.Join (LoadGloabl env d rt s).rt.RuntimeOption.GlobalOptions.WorkDir "tls/" := by
  simp only [LoadGloabl, hflags, NewRuntimeAuthentication]
  by_cases hw : flags.GlobalOptions.WorkDir = "" <;>
    by_cases hl : flags.GlobalOptions.LogDir = "" <;>
    simp [hw, hl] <;> split_ifs <;> simp

/-- After a successful LoadKine with the storage backend enabled, OwnKineCert is
true when the self-managed branch was taken and keeps its previous value when
the operator files were used. -/
theorem LoadKine_ok_OwnKineCert {W : Type} (env : Env W) (d : Defaults) (rt : LeaderRuntime)
    (s : Sys W) (flags : LeaderOptions) (raw eff : KineOptions)
    (hflags : rt.FlagsOption = some flags) (hraw : flags.KineOptions = some raw)
    (heff : rt.RuntimeOption.KineOptions = some eff)
    (hrun : rt.RuntimeOption.GlobalOptions.RunKine = true)
    (hok : (LoadKine env d rt s).out = .ok) :
    (LoadKine env d rt s).rt.OwnKineCert =
      (env.NotExists s.world [raw.CACert, raw.ServerCertFile, raw.ServerkeyFile] ||
        rt.OwnKineCert) := by
  obtain ⟨k, _, hcase⟩ := LoadKine_ok_cases env d rt s flags raw eff hflags hraw heff hrun hok
  rcases hcase with ⟨hne, hown, _⟩ | ⟨hne, _, _, hown, _⟩
  · rw [hown, hne]; rfl
  · rw [hown, hne]; rfl

/-- The map LoadApiserver writes its records to is the raw one: after the call
the raw tree holds the same IgnoreOptions as the effective tree. -/
theorem LoadApiserver_raw_IgnoreOptions {W : Type} (env : Env W) (d : Defaults)
    (rt : LeaderRuntime) (s : Sys W) (flags : LeaderOptions)
    (hflags : rt.FlagsOption = some flags) :
    ∃ f, (LoadApiserver env d rt s).rt.FlagsOption = some f ∧
      f.ApiserverOptions.IgnoreOptions =
        (LoadApiserver env d rt s).rt.RuntimeOption.ApiserverOptions.IgnoreOptions := by
  simp only [LoadApiserver, hflags]
  exact ⟨_, rfl, rfl⟩

/-- With FlagsOption set, LoadFlags is the chain of the three reconcilers
followed by the manifest step. -/
theorem LoadFlags_eq {W : Type} (env : Env W) (d : Defaults) (rt : LeaderRuntime)
    (s : Sys W) (flags : LeaderOptions) (hflags : rt.FlagsOption = some flags) :
    LoadFlags env d rt s =
      if (afterGlobal env d rt s).out ≠ .ok then afterGlobal env d rt s
      else if (afterKine env d rt s).out ≠ .ok then afterKine env d rt s
      else if (afterNet env d rt s).out ≠ .ok then afterNet env d rt s
      else writeManifest env (afterNet env d rt s).rt (afterNet env d rt s).sys := by
  simp only [LoadFlags, hflags, afterGlobal, afterKine, afterNet]

/-- The raw options and the effective global options with which the
network-manager reconciler is called inside LoadFlags. -/
theorem afterKine_frame {W : Type} (env : Env W) (d : Defaults) (rt : LeaderRuntime)
    (s : Sys W) :
    (afterKine env d rt s).rt.FlagsOption = rt.FlagsOption ∧
    (afterKine env d rt s).rt.RuntimeOption.GlobalOptions =
      (afterGlobal env d rt s).rt.RuntimeOption.GlobalOptions := by
  simp only [afterKine, afterGlobal, LoadKine_FlagsOption, LoadKine_GlobalOptions,
    LoadGloabl_FlagsOption, and_self]

theorem afterNet_GlobalOptions {W : Type} (env : Env W) (d : Defaults) (rt : LeaderRuntime)
    (s : Sys W) :
    (afterNet env d rt s).rt.RuntimeOption.GlobalOptions =
      (afterGlobal env d rt s).rt.RuntimeOption.GlobalOptions := by
  rw [afterNet, (LoadNetManager_frame env d _ _).2, (afterKine_frame env d rt s).2]

/-- With an empty raw token on a node that does not host the membership
service, the network-manager reconciler called inside LoadFlags returns the
token format error. -/
theorem afterNet_empty_token {W : Type} (env : Env W) (d : Defaults) (rt : LeaderRuntime)
    (s : Sys W) (flags : LeaderOptions) (hflags : rt.FlagsOption = some flags)
    (htok : flags.NetmamagerOptions.Token = "")
    (hhost : flags.GlobalOptions.RunNetManager = false) :
    (afterNet env d rt s).out = .fail "error network token format" := by
  have hf : (afterKine env d rt s).rt.FlagsOption = some flags := by
    rw [(afterKine_frame env d rt s).1, hflags]
  have hh : (afterKine env d rt s).rt.RuntimeOption.GlobalOptions.RunNetManager = false := by
    rw [(afterKine_frame env d rt s).2, afterGlobal,
      (LoadGloabl_fields env d rt s flags hflags).2.2.1, hhost]
  have hne : (flags.NetmamagerOptions.Token == "local") = false := by rw [htok]; decide
  have hlen : len flags.NetmamagerOptions.Token ≠ 16 := by rw [htok]; decide
  simp [afterNet, LoadNetManager, hf, hh, hne, hlen]

/-- A successful LoadFlags: the network-manager reconciler succeeded, the
runtime is the one it left, and the run made exactly one manifest write, of the
serialized effective options, to the manifest path of the effective work
directory. -/
theorem LoadFlags_ok {W : Type} (env : Env W) (d : Defaults) (rt : LeaderRuntime)
    (s : Sys W) (flags : LeaderOptions) (hflags : rt.FlagsOption = some flags)
    (hok : (LoadFlags env d rt s).out = .ok) :
    (afterNet env d rt s).out = .ok ∧
    (LoadFlags env d rt s).rt = (afterNet env d rt s).rt ∧
    ∃ config, env.Marshal (afterNet env d rt s).rt.RuntimeOption = .ok config ∧
      manifestWrites (LoadFlags env d rt s).sys.trace = manifestWrites s.trace ++
        [.writeFile (manifestPath env (afterNet env d rt s).rt.RuntimeOption.GlobalOptions.WorkDir)
          config] := by
  have hN : manifestWrites (afterNet env d rt s).sys.trace = manifestWrites s.trace := by
    rw [afterNet, LoadNetManager_manifestWrites, afterKine, LoadKine_manifestWrites,
      afterGlobal, LoadGloabl_sys]
  rw [LoadFlags_eq env d rt s flags hflags] at hok ⊢
  by_cases hg : (afterGlobal env d rt s).out = .ok
  · by_cases hk : (afterKine env d rt s).out = .ok
    · by_cases hn : (afterNet env d rt s).out = .ok
      · rw [if_neg (by simp [hg]), if_neg (by simp [hk]), if_neg (by simp [hn])] at hok ⊢
        obtain ⟨config, hm, ht⟩ := writeManifest_ok env _ _ hok
        refine ⟨hn, writeManifest_rt env _ _, config, hm, ?_⟩
        rw [ht, manifestWrites_append, hN]
        simp [manifestWrites]
      · rw [if_neg (by simp [hg]), if_neg (by simp [hk]), if_pos hn] at hok
        exact absurd hok hn
    · rw [if_neg (by simp [hg]), if_pos hk] at hok
      exact absurd hok hk
  · rw [if_pos hg] at hok
    exact absurd hok hg

/-- When the run stops at a reconciler, LoadFlags makes no manifest write. -/
theorem LoadFlags_stopped {W : Type} (env : Env W) (d : Defaults) (rt : LeaderRuntime)
    (s : Sys W) (flags : LeaderOptions) (hflags : rt.FlagsOption = some flags)
    (hn : (afterNet env d rt s).out ≠ .ok) :
    (LoadFlags env d rt s).out ≠ .ok ∧
    manifestWrites (LoadFlags env d rt s).sys.trace = manifestWrites s.trace ∧
    ((afterKine env d rt s).out = .ok → LoadFlags env d rt s = afterNet env d rt s) := by
  have hG : manifestWrites (afterGlobal env d rt s).sys.trace = manifestWrites s.trace := by
    rw [afterGlobal, LoadGloabl_sys]
  have hK : manifestWrites (afterKine env d rt s).sys.trace = manifestWrites s.trace := by
    rw [afterKine, LoadKine_manifestWrites, hG]
  have hN : manifestWrites (afterNet env d rt s).sys.trace = manifestWrites s.trace := by
    rw [afterNet, LoadNetManager_manifestWrites, hK]
  have hgo : (afterGlobal env d rt s).out = .ok := LoadGloabl_ok env d rt s flags hflags
  rw [LoadFlags_eq env d rt s flags hflags, if_neg (by simp [hgo])]
  by_cases hk : (afterKine env d rt s).out = .ok
  · rw [if_neg (by simp [hk]), if_pos hn]
    exact ⟨hn, hN, fun _ => rfl⟩
  · rw [if_pos hk]
    exact ⟨hk, hK, fun h => absurd h hk⟩

/-- A range that passes the check of lines 291-306 is the rendering of its two
bounds after substitution, and these lie in [1, 65535] with a span above 100. -/
theorem nodePortRange_accepted (rawRange : String) (h : nodePortRange rawRange ≠ "") :
    ∃ p0 p1, Split rawRange = [p0, p1] ∧
      nodePortRange rawRange = sprintfRange (portMin p0) (portMax p1) ∧
      1 ≤ portMin p0 ∧ portMin p0 < portMax p1 ∧ portMax p1 ≤ 65535 ∧
      portMax p1 - portMin p0 > 100 := by
  unfold nodePortRange at h ⊢
  split at h
  · rename_i p0 p1 hs
    have hmin := portMin_pos p0
    have hmax := portMax_le p1
    simp only at h
    by_cases hgt : portMax p1 > portMin p0
    · have hw := wrapInt64_of_small (portMax p1 - portMin p0) (by omega) (by omega)
      rw [hw] at h
      by_cases hsp : portMax p1 - portMin p0 > 100
      · refine ⟨p0, p1, hs, ?_, by omega, hgt, hmax, hsp⟩
        simp only [hs, hw, hgt, hsp, and_self, if_true]
      · simp [hsp] at h
    · simp [hgt] at h
  · exact absurd rfl h

theorem portMax_of_large (part : String) (p : Int) (h : Atoi (TrimSpace part) = some p)
    (hp : 65535 < p) : portMax part = 65535 := by
  have : ¬ p < 65536 := by omega
  simp [portMax, h, this]

theorem portMin_of_small (part : String) (p : Int) (h : Atoi (TrimSpace part) = some p)
    (hp : p < 1) : portMin part = 30000 := by
  have : ¬ p > 0 := by omega
  simp [portMin, h, this]

/-- What line 89 does as written: the value it tests is the etcd-servers value
of the effective options.  When that value is empty the effective RunKine is
true whatever the raw RunKine is; when it is not empty the effective RunKine is
the raw one. -/
theorem LoadGloabl_RunKine_by_effective_etcd {W : Type} (env : Env W) (d : Defaults)
    (rt : LeaderRuntime) (s : Sys W) (flags : LeaderOptions)
    (hflags : rt.FlagsOption = some flags) :
    (rt.RuntimeOption.etcdServers = "" →
      (LoadGloabl env d rt s).rt.RuntimeOption.GlobalOptions.RunKine = true) ∧
    (rt.RuntimeOption.etcdServers ≠ "" →
      (LoadGloabl env d rt s).rt.RuntimeOption.GlobalOptions.RunKine =
        flags.GlobalOptions.RunKine) := by
  rw [LoadGloabl_RunKine env d rt s flags hflags]
  refine ⟨?_, ?_⟩
  · intro h
    simp [LeaderOptions.etcdServers] at h
    simp [h]
  · intro h
    have hb : (rt.RuntimeOption.ApiserverOptions.ProfessionalOptions.ECTDOptions.EtcdServers
        == "") = false := by simpa [LeaderOptions.etcdServers] using h
    simp [hb]

/-! ## Theorems -/

/-- C1: when the node is not hosting, the raw token is valid and the operator
supplied something, LoadNetManager succeeds exactly when the register pair and
chain, the join pair and chain and the node token are all good; otherwise it
returns an error, in particular when only one of the register and join
material validates; on success the six effective client paths and the node
token are the raw ones. -/
theorem C1_supplied_credentials_all_or_nothing {W : Type} (env : Env W) (d : Defaults)
    (rt : LeaderRuntime) (s : Sys W) (flags : LeaderOptions)
    (hflags : rt.FlagsOption = some flags)
    (hhost : rt.RuntimeOption.GlobalOptions.RunNetManager = false)
    (hlocal : flags.NetmamagerOptions.Token ≠ "local")
    (hlen : len flags.NetmamagerOptions.Token = 16)
    (hsup : suppliedSomething env s.world flags.NetmamagerOptions = true) :
    ((LoadNetManager env d rt s).out = .ok ↔
        allFiveHold env s.world flags.NetmamagerOptions = true) ∧
    (allFiveHold env s.world flags.NetmamagerOptions = false →
        ∃ e, (LoadNetManager env d rt s).out = .fail e) ∧
    (registerValid env s.world flags.NetmamagerOptions ≠
        joinValid env s.world flags.NetmamagerOptions →
        ∃ e, (LoadNetManager env d rt s).out = .fail e) ∧
    ((LoadNetManager env d rt s).out = .ok →
        sameClientCredentials (LoadNetManager env d rt s).rt.RuntimeOption.NetmamagerOptions
          flags.NetmamagerOptions) := by
  have key := loadClientCredentials_supplied env rt s flags.NetmamagerOptions
    { netEndpoints env d flags.NetmamagerOptions rt.RuntimeOption.NetmamagerOptions with
      Token := flags.NetmamagerOptions.Token } hsup
  rw [LoadNetManager_client env d rt s flags hflags hhost hlocal hlen]
  refine ⟨key.1, fun h => ⟨_, key.2.1 h⟩, fun h => ⟨_, key.2.1 ?_⟩, key.2.2⟩
  simp only [allFiveHold]
  cases hr : registerValid env s.world flags.NetmamagerOptions <;>
    cases hj : joinValid env s.world flags.NetmamagerOptions <;> simp_all

/-- Witness of C1: a client node with a 16-byte token.  With register material
that validates and a wrong join key LoadNetManager returns an error; with both
sets valid it succeeds and the effective credentials are the raw ones. -/
theorem C1_supplied_credentials_all_or_nothing_witness :
    (allFiveHold sampleEnv ()
      (netFlags "0123456789abcdef" "nt" "ca.crt" "c.crt" "c.key" "wrong.key").NetmamagerOptions
      = false ∧
     ∃ e, (LoadNetManager sampleEnv sampleDefaults
      (sampleRuntime (netFlags "0123456789abcdef" "nt" "ca.crt" "c.crt" "c.key" "wrong.key") false)
      sampleSys).out = .fail e) ∧
    (LoadNetManager sampleEnv sampleDefaults
      (sampleRuntime (netFlags "0123456789abcdef" "nt" "ca.crt" "c.crt" "c.key" "c.key") false)
      sampleSys).out = .ok :=
  ⟨⟨by decide,
    (C1_supplied_credentials_all_or_nothing sampleEnv sampleDefaults
      (sampleRuntime (netFlags "0123456789abcdef" "nt" "ca.crt" "c.crt" "c.key" "wrong.key") false)
      sampleSys (netFlags "0123456789abcdef" "nt" "ca.crt" "c.crt" "c.key" "wrong.key")
      rfl rfl (by decide) (by decide) (by decide)).2.1 (by decide)⟩,
   (C1_supplied_credentials_all_or_nothing sampleEnv sampleDefaults
      (sampleRuntime (netFlags "0123456789abcdef" "nt" "ca.crt" "c.crt" "c.key" "c.key") false)
      sampleSys (netFlags "0123456789abcdef" "nt" "ca.crt" "c.crt" "c.key" "c.key")
      rfl rfl (by decide) (by decide) (by decide)).1.2 (by decide)⟩

/-- C2: when the node is not hosting and the raw token is the sentinel "local",
LoadNetManager returns an error whatever the other fields and the certificate
collaborators are; no collaborator is called, so no bootstrap exchange is
attempted, no handle is created and the effective token is left unchanged. -/
theorem C2_local_token_rejected_when_not_hosting {W : Type} (env : Env W) (d : Defaults)
    (rt : LeaderRuntime) (s : Sys W) (flags : LeaderOptions)
    (hflags : rt.FlagsOption = some flags)
    (hhost : rt.RuntimeOption.GlobalOptions.RunNetManager = false)
    (hlocal : flags.NetmamagerOptions.Token = "local") :
    (LoadNetManager env d rt s).out = .fail
      "bad token(local) to connect with network-manager, only enable when network manager run in leader node" ∧
    (LoadNetManager env d rt s).rt.RuntimeOption.NetmamagerOptions.Token =
      rt.RuntimeOption.NetmamagerOptions.Token ∧
    (LoadNetManager env d rt s).sys.trace = s.trace ∧
    (LoadNetManager env d rt s).sys.world = s.world ∧
    (LoadNetManager env d rt s).rt.RuntimeAuthentication = rt.RuntimeAuthentication := by
  simp [LoadNetManager, hflags, hhost, hlocal, LeaderRuntime.setNet, netEndpoints_Token]

/-- Witness of C2: a client node whose token is "local" and whose certificates
and node token are all valid still gets the error. -/
theorem C2_local_token_rejected_when_not_hosting_witness :
    (LoadNetManager sampleEnv sampleDefaults
      (sampleRuntime (netFlags "local" "nt" "ca.crt" "c.crt" "c.key" "c.key") false)
      sampleSys).out = .fail
      "bad token(local) to connect with network-manager, only enable when network manager run in leader node" ∧
    (LoadNetManager sampleEnv sampleDefaults
      (sampleRuntime (netFlags "local" "nt" "ca.crt" "c.crt" "c.key" "c.key") false)
      sampleSys).sys.trace = [] :=
  have h := C2_local_token_rejected_when_not_hosting sampleEnv sampleDefaults
    (sampleRuntime (netFlags "local" "nt" "ca.crt" "c.crt" "c.key" "c.key") false)
    sampleSys (netFlags "local" "nt" "ca.crt" "c.crt" "c.key" "c.key") rfl rfl rfl
  ⟨h.1, h.2.2.1⟩

/-- C3 as stated fails: a token of sixteen characters that takes 32 bytes is
rejected with the token format error, and a token of eight characters that takes
16 bytes passes token validation and becomes the effective token. -/
theorem C3_sixteen_characters_counterexample :
    ("éééééééééééééééé".length = 16 ∧ "éééééééééééééééé" ≠ "local" ∧
      (LoadNetManager sampleEnv sampleDefaults
        (sampleRuntime (netFlags "éééééééééééééééé" "nt" "ca.crt" "c.crt" "c.key" "c.key") false)
        sampleSys).out = .fail "error network token format") ∧
    ("éééééééé".length ≠ 16 ∧ "éééééééé" ≠ "local" ∧
      (LoadNetManager sampleEnv sampleDefaults
        (sampleRuntime (netFlags "éééééééé" "nt" "ca.crt" "c.crt" "c.key" "c.key") false)
        sampleSys).out = .ok ∧
      (LoadNetManager sampleEnv sampleDefaults
        (sampleRuntime (netFlags "éééééééé" "nt" "ca.crt" "c.crt" "c.key" "c.key") false)
        sampleSys).rt.RuntimeOption.NetmamagerOptions.Token = "éééééééé") := by
  decide

/-- C3 (amended): when the node is not hosting and the raw token is not "local",
a token whose length in bytes is not 16 makes LoadNetManager return the token
format error, and a token of exactly 16 bytes passes: the call is the client
credential resolution run with the raw token as effective token, and the
effective token it leaves is the raw token. -/
theorem C3_token_length_in_bytes {W : Type} (env : Env W) (d : Defaults)
    (rt : LeaderRuntime) (s : Sys W) (flags : LeaderOptions)
    (hflags : rt.FlagsOption = some flags)
    (hhost : rt.RuntimeOption.GlobalOptions.RunNetManager = false)
    (hlocal : flags.NetmamagerOptions.Token ≠ "local") :
    (len flags.NetmamagerOptions.Token ≠ 16 →
      (LoadNetManager env d rt s).out = .fail "error network token format") ∧
    (len flags.NetmamagerOptions.Token = 16 →
      LoadNetManager env d rt s = loadClientCredentials env rt s flags.NetmamagerOptions
        { netEndpoints env d flags.NetmamagerOptions rt.RuntimeOption.NetmamagerOptions with
          Token := flags.NetmamagerOptions.Token } ∧
      (LoadNetManager env d rt s).rt.RuntimeOption.NetmamagerOptions.Token =
        flags.NetmamagerOptions.Token) := by
  have hne : (flags.NetmamagerOptions.Token == "local") = false := by simpa using hlocal
  constructor
  · intro h
    simp [LoadNetManager, hflags, hhost, hne, h]
  · intro h
    have hrun := LoadNetManager_client env d rt s flags hflags hhost hlocal h
    refine ⟨hrun, ?_⟩
    rw [hrun, loadClientCredentials_Token]

/-- Witness of C3: a 15-byte token is rejected and a 16-byte token becomes the
effective token. -/
theorem C3_token_length_in_bytes_witness :
    (LoadNetManager sampleEnv sampleDefaults
      (sampleRuntime (netFlags "0123456789abcde" "nt" "ca.crt" "c.crt" "c.key" "c.key") false)
      sampleSys).out = .fail "error network token format" ∧
    (LoadNetManager sampleEnv sampleDefaults
      (sampleRuntime (netFlags "0123456789abcdef" "nt" "ca.crt" "c.crt" "c.key" "c.key") false)
      sampleSys).rt.RuntimeOption.NetmamagerOptions.Token = "0123456789abcdef" :=
  ⟨(C3_token_length_in_bytes sampleEnv sampleDefaults
      (sampleRuntime (netFlags "0123456789abcde" "nt" "ca.crt" "c.crt" "c.key" "c.key") false)
      sampleSys (netFlags "0123456789abcde" "nt" "ca.crt" "c.crt" "c.key" "c.key")
      rfl rfl (by decide)).1 (by decide),
   ((C3_token_length_in_bytes sampleEnv sampleDefaults
      (sampleRuntime (netFlags "0123456789abcdef" "nt" "ca.crt" "c.crt" "c.key" "c.key") false)
      sampleSys (netFlags "0123456789abcdef" "nt" "ca.crt" "c.crt" "c.key" "c.key")
      rfl rfl (by decide)).2 (by decide)).2⟩

/-- C4: in LoadKine with the storage backend enabled, when the operator-supplied
CA, certificate and key are present (certificate.NotExists answers false) but
the pair is invalid or the certificate does not chain to the CA, LoadKine
returns an error and does not fall back to self-generation: the calls it made
are not kine generation calls, the authentication store and OwnKineCert are
unchanged, and the effective CACert, ServerCertFile and ServerkeyFile are
unchanged. -/
theorem C4_kine_bad_supplied_certificate_aborts {W : Type} (env : Env W) (d : Defaults)
    (rt : LeaderRuntime) (s : Sys W) (flags : LeaderOptions) (raw eff : KineOptions)
    (hflags : rt.FlagsOption = some flags)
    (hraw : flags.KineOptions = some raw)
    (heff : rt.RuntimeOption.KineOptions = some eff)
    (hrun : rt.RuntimeOption.GlobalOptions.RunKine = true)
    (hpresent : env.NotExists s.world [raw.CACert, raw.ServerCertFile, raw.ServerkeyFile] = false)
    (hbad : env.ValidateTLSPair s.world raw.ServerCertFile raw.ServerkeyFile = false ∨
      env.ValidateCA s.world raw.ServerCertFile raw.CACert = false) :
    (LoadKine env d rt s).out = .fail "you specified an unavailable certificate for kine" ∧
    (∃ calls, (LoadKine env d rt s).sys.trace = s.trace ++ calls ∧
      ∀ e ∈ calls, e.isKineGeneration = false) ∧
    (LoadKine env d rt s).rt.RuntimeAuthentication = rt.RuntimeAuthentication ∧
    (LoadKine env d rt s).rt.OwnKineCert = rt.OwnKineCert ∧
    (∃ k, (LoadKine env d rt s).rt.RuntimeOption.KineOptions = some k ∧
      k.CACert = eff.CACert ∧ k.ServerCertFile = eff.ServerCertFile ∧
      k.ServerkeyFile = eff.ServerkeyFile) := by
  simp only [LoadKine, hflags, hraw, heff, hrun, callNotExists, hpresent, kineInvalid,
    callValidateTLSPair, callValidateCA, Sys.emit, LeaderRuntime.setKine]
  cases h1 : env.ValidateTLSPair s.world raw.ServerCertFile raw.ServerkeyFile
  · refine ⟨by simp, ⟨_, by simp; rfl, ?_⟩, by simp, by simp, ?_⟩
    · intro e he
      simp at he
      rcases he with rfl | rfl <;> rfl
    · simp only [Bool.true_eq_false, if_false, if_true]
      exact ⟨_, rfl, kineEndpoint_certs env d raw eff⟩
  · have h2 : env.ValidateCA s.world raw.ServerCertFile raw.CACert = false := by
      rcases hbad with h | h
      · rw [h1] at h; cases h
      · exact h
    refine ⟨by simp [h2], ⟨_, by simp [h2]; rfl, ?_⟩, by simp [h2], by simp [h2], ?_⟩
    · intro e he
      simp at he
      rcases he with rfl | rfl | rfl <;> rfl
    · simp only [h2, Bool.true_eq_false, if_false, if_true, Bool.not_false]
      exact ⟨_, rfl, kineEndpoint_certs env d raw eff⟩

/-- Witness of C4: the three files are present, the key does not match, and
LoadKine aborts without generating anything. -/
theorem C4_kine_bad_supplied_certificate_aborts_witness :
    (LoadKine sampleEnv sampleDefaults
      (sampleRuntime (kineFlags "ca.crt" "s.crt" "wrong.key") false) sampleSys).out =
      .fail "you specified an unavailable certificate for kine" ∧
    (LoadKine sampleEnv sampleDefaults
      (sampleRuntime (kineFlags "ca.crt" "s.crt" "wrong.key") false) sampleSys).rt.OwnKineCert =
      false :=
  have h := C4_kine_bad_supplied_certificate_aborts sampleEnv sampleDefaults
    (sampleRuntime (kineFlags "ca.crt" "s.crt" "wrong.key") false) sampleSys
    (kineFlags "ca.crt" "s.crt" "wrong.key")
    { BindAddress := "10.0.0.2", SecurePort := 2379, CACert := "ca.crt",
      ServerCertFile := "s.crt", ServerkeyFile := "wrong.key" }
    { BindAddress := "", SecurePort := 0, CACert := "", ServerCertFile := "",
      ServerkeyFile := "" }
    rfl rfl rfl rfl (by decide) (Or.inl (by decide))
  ⟨h.1, h.2.2.2.1⟩

/-- C5: LoadFlags never persists a partial manifest.  If FlagsOption is nil or
one of LoadGloabl, LoadKine, LoadNetManager returns an error, LoadFlags returns
an error and the trace gains no manifest write.  If LoadFlags succeeds, the
three reconcilers succeeded, and the calls made after them are exactly the
creation of the startup directory and one write of the serialized effective
options to the manifest path of the effective work directory; it is the only
manifest write of the run. -/
theorem C5_manifest_written_once_after_all_reconcilers {W : Type} (env : Env W)
    (d : Defaults) (rt : LeaderRuntime) (s : Sys W) :
    (reconcilerFails env d rt s →
      (LoadFlags env d rt s).out.isFail = true ∧
      manifestWrites (LoadFlags env d rt s).sys.trace = manifestWrites s.trace) ∧
    ((LoadFlags env d rt s).out = .ok →
      (afterGlobal env d rt s).out = .ok ∧ (afterKine env d rt s).out = .ok ∧
      (afterNet env d rt s).out = .ok ∧
      (LoadFlags env d rt s).rt = (afterNet env d rt s).rt ∧
      ∃ config, env.Marshal (LoadFlags env d rt s).rt.RuntimeOption = .ok config ∧
        (LoadFlags env d rt s).sys.trace = (afterNet env d rt s).sys.trace ++
          [.mkdirAll (env.Join (LoadFlags env d rt s).rt.RuntimeOption.GlobalOptions.WorkDir
              "startup/"),
            .writeFile
              (manifestPath env (LoadFlags env d rt s).rt.RuntimeOption.GlobalOptions.WorkDir)
              config] ∧
        manifestWrites (LoadFlags env d rt s).sys.trace = manifestWrites s.trace ++
          [.writeFile
            (manifestPath env (LoadFlags env d rt s).rt.RuntimeOption.GlobalOptions.WorkDir)
            config]) := by
  have hG : manifestWrites (afterGlobal env d rt s).sys.trace = manifestWrites s.trace := by
    rw [afterGlobal, LoadGloabl_sys]
  have hK : manifestWrites (afterKine env d rt s).sys.trace = manifestWrites s.trace := by
    rw [afterKine, LoadKine_manifestWrites, hG]
  have hN : manifestWrites (afterNet env d rt s).sys.trace = manifestWrites s.trace := by
    rw [afterNet, LoadNetManager_manifestWrites, hK]
  cases hf : rt.FlagsOption with
  | none =>
    constructor
    · intro _
      simp [LoadFlags, hf, Outcome.isFail]
    · intro h
      simp [LoadFlags, hf] at h
  | some flags =>
    have hunf : LoadFlags env d rt s =
        if (afterGlobal env d rt s).out ≠ .ok then afterGlobal env d rt s
        else if (afterKine env d rt s).out ≠ .ok then afterKine env d rt s
        else if (afterNet env d rt s).out ≠ .ok then afterNet env d rt s
        else writeManifest env (afterNet env d rt s).rt (afterNet env d rt s).sys := by
      simp only [LoadFlags, hf, afterGlobal, afterKine, afterNet]
    constructor
    · intro h
      rcases h with h | h | ⟨hg, h⟩ | ⟨hg, hk, h⟩
      · rw [hf] at h; cases h
      · rw [hunf, if_pos (isFail_ne_ok h)]
        exact ⟨h, hG⟩
      · rw [hunf, if_neg (by simp [hg]), if_pos (isFail_ne_ok h)]
        exact ⟨h, hK⟩
      · rw [hunf, if_neg (by simp [hg]), if_neg (by simp [hk]), if_pos (isFail_ne_ok h)]
        exact ⟨h, hN⟩
    · intro h
      rw [hunf] at h ⊢
      by_cases hg : (afterGlobal env d rt s).out = .ok
      · by_cases hk : (afterKine env d rt s).out = .ok
        · by_cases hn : (afterNet env d rt s).out = .ok
          · rw [if_neg (by simp [hg]), if_neg (by simp [hk]), if_neg (by simp [hn])] at h ⊢
            obtain ⟨config, hm, ht⟩ := writeManifest_ok env _ _ h
            refine ⟨hg, hk, hn, writeManifest_rt env _ _, config, ?_, ?_, ?_⟩
            · rw [writeManifest_rt]; exact hm
            · rw [writeManifest_rt]; exact ht
            · rw [writeManifest_rt, ht, manifestWrites_append, hN]
              simp [manifestWrites]
          · rw [if_neg (by simp [hg]), if_neg (by simp [hk]), if_pos hn] at h
            exact absurd h hn
        · rw [if_neg (by simp [hg]), if_pos hk] at h
          exact absurd h hk
      · rw [if_pos hg] at h
        exact absurd h hg

/-- Witness of C5: with the sentinel token on a client node the network-manager
reconciler fails and nothing is written; with valid client credentials the run
succeeds and the trace ends with the single manifest write. -/
theorem C5_manifest_written_once_after_all_reconcilers_witness :
    (reconcilerFails sampleEnv sampleDefaults
        (sampleRuntime (netFlags "local" "nt" "ca.crt" "c.crt" "c.key" "c.key") false)
        sampleSys ∧
      manifestWrites (LoadFlags sampleEnv sampleDefaults
        (sampleRuntime (netFlags "local" "nt" "ca.crt" "c.crt" "c.key" "c.key") false)
        sampleSys).sys.trace = manifestWrites sampleSys.trace) ∧
    ((LoadFlags sampleEnv sampleDefaults
        (sampleRuntime (netFlags "0123456789abcdef" "nt" "ca.crt" "c.crt" "c.key" "c.key") false)
        sampleSys).out = .ok ∧
      (afterNet sampleEnv sampleDefaults
        (sampleRuntime (netFlags "0123456789abcdef" "nt" "ca.crt" "c.crt" "c.key" "c.key") false)
        sampleSys).out = .ok) :=
  ⟨⟨by decide,
    ((C5_manifest_written_once_after_all_reconcilers sampleEnv sampleDefaults
      (sampleRuntime (netFlags "local" "nt" "ca.crt" "c.crt" "c.key" "c.key") false)
      sampleSys).1 (by decide)).2⟩,
   by decide,
   ((C5_manifest_written_once_after_all_reconcilers sampleEnv sampleDefaults
      (sampleRuntime (netFlags "0123456789abcdef" "nt" "ca.crt" "c.crt" "c.key" "c.key") false)
      sampleSys).2 (by decide)).2.2.1⟩

/-- C6 as stated fails: on a hosting node whose server material is generated
without error, with nothing supplied by the operator a bootstrap client is
constructed with the token "local" and driven, and with a wrong join key the
operator-supplied certificates are validated and the call fails because of
them. -/
theorem C6_hosting_runs_client_resolution_counterexample :
    ((sampleRuntime (netFlags "" "" "" "" "" "") true).RuntimeOption.GlobalOptions.RunNetManager
        = true ∧
      (sampleEnv.NetGenerateOrSkip ()
        (hostingAuth sampleEnv sampleDefaults (sampleRuntime (netFlags "" "" "" "" "" "") true)
          (netFlags "" "" "" "" "" ""))).2 = none ∧
      Event.clientNew "/w/tls" "local" ∈ (LoadNetManager sampleEnv sampleDefaults
        (sampleRuntime (netFlags "" "" "" "" "" "") true) sampleSys).sys.trace ∧
      Event.clientGenerate "10.0.0.1" 6440 ∈ (LoadNetManager sampleEnv sampleDefaults
        (sampleRuntime (netFlags "" "" "" "" "" "") true) sampleSys).sys.trace) ∧
    (Event.validateTLSPair "c.crt" "wrong.key" ∈ (LoadNetManager sampleEnv sampleDefaults
        (sampleRuntime (netFlags "" "nt" "ca.crt" "c.crt" "c.key" "wrong.key") true)
        sampleSys).sys.trace ∧
      (LoadNetManager sampleEnv sampleDefaults
        (sampleRuntime (netFlags "" "nt" "ca.crt" "c.crt" "c.key" "wrong.key") true)
        sampleSys).out = .fail
        "you have provide bad network manager client certificates or node-token for network manager") := by
  decide

/-- C6 (amended): client credential resolution is evaluated on a hosting node
too.  For every state with effective RunNetManager = true in which the server
material generation succeeds, the effective token is "local" and the call goes
on with the resolution in the world the generation left: when the operator
supplied nothing a NetworkManagerClient is constructed with the token "local"
and driven against the effective register endpoint; when the operator supplied
something the call succeeds exactly when all five requirements hold, and
otherwise fails because of the client certificates or the node token. -/
theorem C6_hosting_still_resolves_client_credentials {W : Type} (env : Env W) (d : Defaults)
    (rt : LeaderRuntime) (s : Sys W) (flags : LeaderOptions)
    (hflags : rt.FlagsOption = some flags)
    (hhost : rt.RuntimeOption.GlobalOptions.RunNetManager = true)
    (hgen : (env.NetGenerateOrSkip s.world (hostingAuth env d rt flags)).2 = none) :
    (LoadNetManager env d rt s).rt.RuntimeOption.NetmamagerOptions.Token = "local" ∧
    (suppliedSomething env (worldAfterHosting env d rt flags s.world) flags.NetmamagerOptions
        = false →
      Event.clientNew rt.RuntimeAuthentication.CertDir "local" ∈
        (LoadNetManager env d rt s).sys.trace ∧
      Event.clientGenerate
        (LoadNetManager env d rt s).rt.RuntimeOption.NetmamagerOptions.RegisterOptions.Address
        (LoadNetManager env d rt s).rt.RuntimeOption.NetmamagerOptions.RegisterOptions.SecurePort
        ∈ (LoadNetManager env d rt s).sys.trace) ∧
    (suppliedSomething env (worldAfterHosting env d rt flags s.world) flags.NetmamagerOptions
        = true →
      ((LoadNetManager env d rt s).out = .ok ↔
        allFiveHold env (worldAfterHosting env d rt flags s.world) flags.NetmamagerOptions
          = true) ∧
      (allFiveHold env (worldAfterHosting env d rt flags s.world) flags.NetmamagerOptions
          = false →
        (LoadNetManager env d rt s).out = .fail
          "you have provide bad network manager client certificates or node-token for network manager")) := by
  rw [LoadNetManager_hosting env d rt s flags hflags hhost hgen]
  refine ⟨by rw [loadClientCredentials_Token], ?_, ?_⟩
  · intro h
    have hb := loadClientCredentials_bootstrap env
      { rt with RuntimeAuthentication := { rt.RuntimeAuthentication with
          NetWorkManager := some (hostingAuth env d rt flags) } }
      { world := worldAfterHosting env d rt flags s.world,
        trace := s.trace ++ [.netNew rt.RuntimeAuthentication.CertDir
            (hostingAuth env d rt flags).RegisterAddress
            (hostingAuth env d rt flags).JoinAddress] ++ [.netGenerate] }
      flags.NetmamagerOptions
      { netEndpoints env d flags.NetmamagerOptions rt.RuntimeOption.NetmamagerOptions with
        Token := "local" } h
    refine ⟨hb.1, ?_⟩
    rw [(loadClientCredentials_endpoint _ _ _ _ _).1, (loadClientCredentials_endpoint _ _ _ _ _).2]
    exact hb.2
  · intro h
    have hs := loadClientCredentials_supplied env
      { rt with RuntimeAuthentication := { rt.RuntimeAuthentication with
          NetWorkManager := some (hostingAuth env d rt flags) } }
      { world := worldAfterHosting env d rt flags s.world,
        trace := s.trace ++ [.netNew rt.RuntimeAuthentication.CertDir
            (hostingAuth env d rt flags).RegisterAddress
            (hostingAuth env d rt flags).JoinAddress] ++ [.netGenerate] }
      flags.NetmamagerOptions
      { netEndpoints env d flags.NetmamagerOptions rt.RuntimeOption.NetmamagerOptions with
        Token := "local" } h
    exact ⟨hs.1, hs.2.1⟩

/-- Witness of C6: a hosting node to which the operator supplied nothing
constructs the bootstrap client with the token "local". -/
theorem C6_hosting_still_resolves_client_credentials_witness :
    Event.clientNew "/w/tls" "local" ∈ (LoadNetManager sampleEnv sampleDefaults
      (sampleRuntime (netFlags "" "" "" "" "" "") true) sampleSys).sys.trace :=
  ((C6_hosting_still_resolves_client_credentials sampleEnv sampleDefaults
    (sampleRuntime (netFlags "" "" "" "" "" "") true) sampleSys (netFlags "" "" "" "" "" "")
    rfl rfl rfl).2.1 (by decide)).1

/-- C7 as stated fails: a hosting node to which the operator supplied valid
client credentials and a node token succeeds and ends with a non-empty
NodeToken. -/
theorem C7_hosting_node_keeps_node_token_counterexample :
    (sampleRuntime (netFlags "" "nt" "ca.crt" "c.crt" "c.key" "c.key")
      true).RuntimeOption.GlobalOptions.RunNetManager = true ∧
    (LoadNetManager sampleEnv sampleDefaults
      (sampleRuntime (netFlags "" "nt" "ca.crt" "c.crt" "c.key" "c.key") true)
      sampleSys).out = .ok ∧
    (LoadNetManager sampleEnv sampleDefaults
      (sampleRuntime (netFlags "" "nt" "ca.crt" "c.crt" "c.key" "c.key") true)
      sampleSys).rt.RuntimeOption.GlobalOptions.RunNetManager = true ∧
    (LoadNetManager sampleEnv sampleDefaults
      (sampleRuntime (netFlags "" "nt" "ca.crt" "c.crt" "c.key" "c.key") true)
      sampleSys).rt.RuntimeOption.NetmamagerOptions.NodeToken = "nt" := by
  decide

/-- C7 (amended): after every successful LoadNetManager, hosting or not, the
effective NodeToken is the raw node token when the operator supplied one (then
it is not empty).  Otherwise the call went through the bootstrap branch, and
the effective NodeToken is the token that Nodetoken() returned for the
bootstrap client of lines 215-216, after its fetch and its self-check
succeeded; that client is the one the store holds, and the token is not tested
for emptiness. -/
theorem C7_node_token_after_success {W : Type} (env : Env W) (d : Defaults)
    (rt : LeaderRuntime) (s : Sys W) (flags : LeaderOptions)
    (hflags : rt.FlagsOption = some flags)
    (hok : (LoadNetManager env d rt s).out = .ok) :
    (flags.NetmamagerOptions.NodeToken ≠ "" →
      (LoadNetManager env d rt s).rt.RuntimeOption.NetmamagerOptions.NodeToken =
        flags.NetmamagerOptions.NodeToken ∧
      (LoadNetManager env d rt s).rt.RuntimeOption.NetmamagerOptions.NodeToken ≠ "") ∧
    (flags.NetmamagerOptions.NodeToken = "" →
      ∃ rt1 s1 new1, resolutionEntry env d rt s flags = some (rt1, s1, new1) ∧
        suppliedSomething env s1.world flags.NetmamagerOptions = false ∧
        (bootstrapFetch env rt.RuntimeAuthentication.CertDir s1.world new1).2.2 = none ∧
        env.ClientCheck (bootstrapFetch env rt.RuntimeAuthentication.CertDir s1.world new1).1
          (bootstrapFetch env rt.RuntimeAuthentication.CertDir s1.world new1).2.1 = true ∧
        env.ClientNodetoken (bootstrapFetch env rt.RuntimeAuthentication.CertDir s1.world new1).1
          (bootstrapFetch env rt.RuntimeAuthentication.CertDir s1.world new1).2.1 =
          .ok (LoadNetManager env d rt s).rt.RuntimeOption.NetmamagerOptions.NodeToken ∧
        (LoadNetManager env d rt s).rt.RuntimeAuthentication.NetWorkManagerClient =
          some (bootstrapFetch env rt.RuntimeAuthentication.CertDir s1.world new1).2.1) := by
  obtain ⟨rt1, s1, new1, hentry⟩ := LoadNetManager_ok_entry env d rt s flags hflags hok
  obtain ⟨hdir, _⟩ := resolutionEntry_facts env d rt s flags rt1 s1 new1 hentry
  rw [LoadNetManager_of_entry env d rt s flags rt1 s1 new1 hflags hentry] at hok ⊢
  have h := loadClientCredentials_NodeToken env rt1 s1 flags.NetmamagerOptions new1 hok
  refine ⟨fun hne => ⟨h.1 hne, ?_⟩, fun hempty => ?_⟩
  · rw [h.1 hne]
    exact hne
  · cases hsup : suppliedSomething env s1.world flags.NetmamagerOptions with
    | true =>
      have hs := loadClientCredentials_supplied env rt1 s1 flags.NetmamagerOptions new1 hsup
      have hfive := hs.1.1 hok
      simp only [allFiveHold, Bool.and_eq_true, decide_eq_true_eq] at hfive
      exact absurd hempty hfive.2
    | false =>
      obtain ⟨hg, hc, ⟨tok, hn, htok⟩, hcl, _⟩ :=
        loadClientCredentials_bootstrap_ok env rt1 s1 flags.NetmamagerOptions new1 hsup hok
      rw [hdir] at hg hc hn hcl
      exact ⟨rt1, s1, new1, hentry, hsup, hg, hc, by rw [htok]; exact hn, hcl⟩

/-- Witness of C7: a hosting node with supplied credentials keeps the raw node
token, and a client node to which nothing was supplied ends with the token its
bootstrap client returned. -/
theorem C7_node_token_after_success_witness :
    (LoadNetManager sampleEnv sampleDefaults
      (sampleRuntime (netFlags "" "nt" "ca.crt" "c.crt" "c.key" "c.key") true)
      sampleSys).rt.RuntimeOption.NetmamagerOptions.NodeToken = "nt" ∧
    (∃ rt1 s1 new1, resolutionEntry sampleEnv sampleDefaults
        (sampleRuntime (netFlags "0123456789abcdef" "" "" "" "" "") false) sampleSys
        (netFlags "0123456789abcdef" "" "" "" "" "") = some (rt1, s1, new1) ∧
      sampleEnv.ClientNodetoken (bootstrapFetch sampleEnv "/w/tls" s1.world new1).1
        (bootstrapFetch sampleEnv "/w/tls" s1.world new1).2.1 =
        .ok (LoadNetManager sampleEnv sampleDefaults
          (sampleRuntime (netFlags "0123456789abcdef" "" "" "" "" "") false)
          sampleSys).rt.RuntimeOption.NetmamagerOptions.NodeToken) :=
  ⟨((C7_node_token_after_success sampleEnv sampleDefaults
      (sampleRuntime (netFlags "" "nt" "ca.crt" "c.crt" "c.key" "c.key") true) sampleSys
      (netFlags "" "nt" "ca.crt" "c.crt" "c.key" "c.key") rfl (by decide)).1 (by decide)).1,
   ((C7_node_token_after_success sampleEnv sampleDefaults
      (sampleRuntime (netFlags "0123456789abcdef" "" "" "" "" "") false) sampleSys
      (netFlags "0123456789abcdef" "" "" "" "" "") rfl (by decide)).2 rfl).elim
    fun rt1 h1 => h1.elim fun s1 h2 => h2.elim fun new1 h3 =>
      ⟨rt1, s1, new1, h3.1, h3.2.2.2.2.1⟩⟩

/-- C8 fails on the code: line 89 tests the etcd servers of the effective
options, which nothing in the file writes, instead of the operator's.  On a
fresh runtime an operator who configured an external endpoint and set RunKine
to false gets the effective RunKine = true, not the raw value; and with no
endpoint configured by the operator but etcd servers present in the effective
tree the effective RunKine stays false. -/
theorem C8_run_kine_ignores_operator_etcd :
    ((globalFlags false "https://10.0.0.9:2379").etcdServers ≠ "" ∧
      (globalFlags false "https://10.0.0.9:2379").GlobalOptions.RunKine = false ∧
      (etcdRuntime (globalFlags false "https://10.0.0.9:2379") "").RuntimeOption.etcdServers
        = "" ∧
      (LoadGloabl sampleEnv sampleDefaults
        (etcdRuntime (globalFlags false "https://10.0.0.9:2379") "")
        sampleSys).rt.RuntimeOption.GlobalOptions.RunKine = true) ∧
    ((globalFlags false "").etcdServers = "" ∧
      (globalFlags false "").GlobalOptions.RunKine = false ∧
      (LoadGloabl sampleEnv sampleDefaults
        (etcdRuntime (globalFlags false "") "https://10.0.0.9:2379")
        sampleSys).rt.RuntimeOption.GlobalOptions.RunKine = false) := by
  decide

/-- C9 as stated fails: the raw range "30100-90000" splits into two bounds that
parse as integers with max > min and span 59900 > 100, yet the effective range
is "30100-65535", not the raw string. -/
theorem C9_upper_bound_clamped_counterexample :
    Split "30100-90000" = ["30100", "90000"] ∧
    Atoi (TrimSpace "30100") = some 30100 ∧ Atoi (TrimSpace "90000") = some 90000 ∧
    (LoadApiserver sampleEnv sampleDefaults
      (sampleRuntime (apiFlags "30100-90000" "10.0.0.0/16") false)
      sampleSys).rt.RuntimeOption.ApiserverOptions.Options.ServiceNodePortRange =
      "30100-65535" ∧
    (LoadApiserver sampleEnv sampleDefaults
      (sampleRuntime (apiFlags "30100-90000" "10.0.0.0/16") false)
      sampleSys).rt.RuntimeOption.ApiserverOptions.Options.ServiceNodePortRange ≠
      "30100-90000" := by
  decide

/-- C9 (amended): in LoadApiserver, for every raw range that splits at the dash
into two parts which, trimmed, parse as integers lo and hi with 0 < lo,
hi < 65536, hi > lo and hi - lo > 100, the range is accepted: the effective
ServiceNodePortRange is the rendering "lo-hi" of the two integers, which is the
raw string itself when the raw string is written that way, and nothing is
recorded under "service-node-port-range" in IgnoreOptions. -/
theorem C9_range_within_bounds_accepted {W : Type} (env : Env W) (d : Defaults)
    (rt : LeaderRuntime) (s : Sys W) (flags : LeaderOptions) (p0 p1 : String) (lo hi : Int)
    (hflags : rt.FlagsOption = some flags)
    (hsplit : Split flags.ApiserverOptions.Options.ServiceNodePortRange = [p0, p1])
    (hlo : Atoi (TrimSpace p0) = some lo) (hhi : Atoi (TrimSpace p1) = some hi)
    (hpos : 0 < lo) (hmax : hi < 65536) (hgt : hi > lo) (hspan : hi - lo > 100) :
    (LoadApiserver env d rt s).rt.RuntimeOption.ApiserverOptions.Options.ServiceNodePortRange =
      sprintfRange lo hi ∧
    (flags.ApiserverOptions.Options.ServiceNodePortRange = sprintfRange lo hi →
      (LoadApiserver env d rt s).rt.RuntimeOption.ApiserverOptions.Options.ServiceNodePortRange =
        flags.ApiserverOptions.Options.ServiceNodePortRange) ∧
    (LoadApiserver env d rt s).rt.RuntimeOption.ApiserverOptions.IgnoreOptions.get
        "service-node-port-range" =
      flags.ApiserverOptions.IgnoreOptions.get "service-node-port-range" := by
  have hr : nodePortRange flags.ApiserverOptions.Options.ServiceNodePortRange =
      sprintfRange lo hi := by
    have hw := wrapInt64_of_small (hi - lo) (by omega) (by omega)
    simp only [nodePortRange, hsplit, portMin_of_parse p0 lo hlo hpos,
      portMax_of_parse p1 hi hhi hmax, hw, hgt, hspan, and_self, if_true]
  have hne : nodePortRange flags.ApiserverOptions.Options.ServiceNodePortRange ≠ "" := by
    rw [hr]; exact sprintfRange_ne_empty lo hi
  have h := LoadApiserver_nodePortRange env d rt s flags hflags
  rw [if_neg hne, if_neg hne, hr] at h
  exact ⟨h.2.1, fun e => by rw [h.2.1, e], h.2.2⟩

/-- Witness of C9: "30100-65000" is accepted verbatim. -/
theorem C9_range_within_bounds_accepted_witness :
    (LoadApiserver sampleEnv sampleDefaults
      (sampleRuntime (apiFlags "30100-65000" "10.0.0.0/16") false)
      sampleSys).rt.RuntimeOption.ApiserverOptions.Options.ServiceNodePortRange =
      "30100-65000" :=
  (C9_range_within_bounds_accepted sampleEnv sampleDefaults
    (sampleRuntime (apiFlags "30100-65000" "10.0.0.0/16") false) sampleSys
    (apiFlags "30100-65000" "10.0.0.0/16") "30100" "65000" 30100 65000
    rfl (by decide) (by decide) (by decide) (by decide) (by decide) (by decide)
    (by decide)).2.1 (by decide)

/-- C10: in LoadApiserver, for every raw node-port range that is not accepted,
the effective ServiceNodePortRange is the default range and IgnoreOptions
records the original raw string under "service-node-port-range". -/
theorem C10_rejected_range_reverts_to_default {W : Type} (env : Env W) (d : Defaults)
    (rt : LeaderRuntime) (s : Sys W) (flags : LeaderOptions)
    (hflags : rt.FlagsOption = some flags)
    (hrej : rangeRejected flags.ApiserverOptions.Options.ServiceNodePortRange) :
    (LoadApiserver env d rt s).out = .ok ∧
    (LoadApiserver env d rt s).rt.RuntimeOption.ApiserverOptions.Options.ServiceNodePortRange =
      d.ALO_ServiceNodePortRange ∧
    (LoadApiserver env d rt s).rt.RuntimeOption.ApiserverOptions.IgnoreOptions.get
        "service-node-port-range" =
      some flags.ApiserverOptions.Options.ServiceNodePortRange := by
  have he := (nodePortRange_eq_empty_iff _).2 hrej
  have h := LoadApiserver_nodePortRange env d rt s flags hflags
  rw [if_pos he, if_pos he] at h
  exact h

/-- Witness of C10: "40000-40050" has span 50, reverts to the default range and
is recorded. -/
theorem C10_rejected_range_reverts_to_default_witness :
    (LoadApiserver sampleEnv sampleDefaults
      (sampleRuntime (apiFlags "40000-40050" "10.0.0.0/16") false)
      sampleSys).rt.RuntimeOption.ApiserverOptions.Options.ServiceNodePortRange =
      "30000-32767" ∧
    (LoadApiserver sampleEnv sampleDefaults
      (sampleRuntime (apiFlags "40000-40050" "10.0.0.0/16") false)
      sampleSys).rt.RuntimeOption.ApiserverOptions.IgnoreOptions.get
        "service-node-port-range" = some "40000-40050" :=
  (C10_rejected_range_reverts_to_default sampleEnv sampleDefaults
    (sampleRuntime (apiFlags "40000-40050" "10.0.0.0/16") false) sampleSys
    (apiFlags "40000-40050" "10.0.0.0/16") rfl (by decide)).2

/-- C11: each of the four reconciled ports follows the port rule.  For every
raw port, the kine port LoadKine leaves (storage backend enabled), the register
and join ports LoadNetManager leaves and the port LoadApiserver leaves are the
subsystem default when the raw port is outside [1, 65535] and the raw port
itself when it is inside. -/
theorem C11_ports_default_outside_range {W : Type} (env : Env W) (d : Defaults)
    (rt : LeaderRuntime) (s : Sys W) (flags : LeaderOptions)
    (hflags : rt.FlagsOption = some flags) :
    (∀ raw eff : KineOptions, flags.KineOptions = some raw →
      rt.RuntimeOption.KineOptions = some eff →
      rt.RuntimeOption.GlobalOptions.RunKine = true →
      ∃ k, (LoadKine env d rt s).rt.RuntimeOption.KineOptions = some k ∧
        portReconciled raw.SecurePort d.KO_SecurePort k.SecurePort) ∧
    portReconciled flags.NetmamagerOptions.RegisterOptions.SecurePort d.RONO_SecurePort
      (LoadNetManager env d rt s).rt.RuntimeOption.NetmamagerOptions.RegisterOptions.SecurePort ∧
    portReconciled flags.NetmamagerOptions.JoinOptions.SecurePort d.JONO_SecurePort
      (LoadNetManager env d rt s).rt.RuntimeOption.NetmamagerOptions.JoinOptions.SecurePort ∧
    portReconciled flags.ApiserverOptions.Options.SecurePort d.ALO_SecurePort
      (LoadApiserver env d rt s).rt.RuntimeOption.ApiserverOptions.Options.SecurePort := by
  have hn := LoadNetManager_endpoints env d rt s flags hflags
  have hf := netEndpoints_fields env d flags.NetmamagerOptions rt.RuntimeOption.NetmamagerOptions
  refine ⟨fun raw eff hraw heff hrun => ?_, ?_, ?_, ?_⟩
  · obtain ⟨k, hk, _, hport⟩ :=
      LoadKine_endpoint env d rt s flags raw eff hflags hraw heff hrun
    refine ⟨k, hk, ?_⟩
    rw [hport, (kineEndpoint_fields env d raw eff).2]
    exact portReconciled_ite _ _
  · rw [hn.2.2.1, hf.2.2.1]
    exact portReconciled_ite _ _
  · rw [hn.2.2.2, hf.2.2.2]
    exact portReconciled_ite _ _
  · rw [LoadApiserver_SecurePort env d rt s flags hflags]
    exact portReconciled_ite _ _

/-- Witness of C11: the register port 70000 becomes the register default 6440,
the join port 6441 is kept, the api-server port 0 becomes 6443 and the kine
port 2380 is kept. -/
theorem C11_ports_default_outside_range_witness :
    (LoadNetManager sampleEnv sampleDefaults
      (sampleRuntime (endpointFlags "10.0.0.2" 2380 "10.0.0.1" 70000 "10.0.0.1" 6441 0) false)
      sampleSys).rt.RuntimeOption.NetmamagerOptions.RegisterOptions.SecurePort = 6440 ∧
    (LoadNetManager sampleEnv sampleDefaults
      (sampleRuntime (endpointFlags "10.0.0.2" 2380 "10.0.0.1" 70000 "10.0.0.1" 6441 0) false)
      sampleSys).rt.RuntimeOption.NetmamagerOptions.JoinOptions.SecurePort = 6441 ∧
    (LoadApiserver sampleEnv sampleDefaults
      (sampleRuntime (endpointFlags "10.0.0.2" 2380 "10.0.0.1" 70000 "10.0.0.1" 6441 0) false)
      sampleSys).rt.RuntimeOption.ApiserverOptions.Options.SecurePort = 6443 ∧
    (∃ k, (LoadKine sampleEnv sampleDefaults
      (sampleRuntime (endpointFlags "10.0.0.2" 2380 "10.0.0.1" 70000 "10.0.0.1" 6441 0) false)
      sampleSys).rt.RuntimeOption.KineOptions = some k ∧ k.SecurePort = 2380) :=
  have h := C11_ports_default_outside_range sampleEnv sampleDefaults
    (sampleRuntime (endpointFlags "10.0.0.2" 2380 "10.0.0.1" 70000 "10.0.0.1" 6441 0) false)
    sampleSys (endpointFlags "10.0.0.2" 2380 "10.0.0.1" 70000 "10.0.0.1" 6441 0) rfl
  ⟨h.2.1.1 (Or.inr (by decide)), h.2.2.1.2 (by decide), h.2.2.2.1 (Or.inl (by decide)),
    (h.1 (KineOptions.mk "10.0.0.2" 2380 "" "" "") (KineOptions.mk "" 0 "" "" "")
      rfl rfl rfl).elim fun k hk => ⟨k, hk.1, hk.2.2 (by decide)⟩⟩

/-- C12: each of the three reconciled addresses follows the address rule.  For
every raw address, the kine bind address LoadKine leaves (storage backend
enabled) and the register and join addresses LoadNetManager leaves are the
subsystem's own default when the raw address fails IP parsing (register falls
back to the register default, join to the join default) and the raw address
itself when it parses. -/
theorem C12_addresses_default_when_unparseable {W : Type} (env : Env W) (d : Defaults)
    (rt : LeaderRuntime) (s : Sys W) (flags : LeaderOptions)
    (hflags : rt.FlagsOption = some flags) :
    (∀ raw eff : KineOptions, flags.KineOptions = some raw →
      rt.RuntimeOption.KineOptions = some eff →
      rt.RuntimeOption.GlobalOptions.RunKine = true →
      ∃ k, (LoadKine env d rt s).rt.RuntimeOption.KineOptions = some k ∧
        addressReconciled env raw.BindAddress d.KO_BindAddress k.BindAddress) ∧
    addressReconciled env flags.NetmamagerOptions.RegisterOptions.Address d.RONO_Address
      (LoadNetManager env d rt s).rt.RuntimeOption.NetmamagerOptions.RegisterOptions.Address ∧
    addressReconciled env flags.NetmamagerOptions.JoinOptions.Address d.JONO_Address
      (LoadNetManager env d rt s).rt.RuntimeOption.NetmamagerOptions.JoinOptions.Address := by
  have hn := LoadNetManager_endpoints env d rt s flags hflags
  have hf := netEndpoints_fields env d flags.NetmamagerOptions rt.RuntimeOption.NetmamagerOptions
  refine ⟨fun raw eff hraw heff hrun => ?_, ?_, ?_⟩
  · obtain ⟨k, hk, haddr, _⟩ :=
      LoadKine_endpoint env d rt s flags raw eff hflags hraw heff hrun
    refine ⟨k, hk, ?_⟩
    rw [haddr, (kineEndpoint_fields env d raw eff).1]
    exact addressReconciled_ite env _ _
  · rw [hn.1, hf.1]
    exact addressReconciled_ite env _ _
  · rw [hn.2.1, hf.2.1]
    exact addressReconciled_ite env _ _

/-- Witness of C12: an empty register address, which the sample parser rejects,
becomes the register default, the join address is kept and so is the kine
address. -/
theorem C12_addresses_default_when_unparseable_witness :
    (LoadNetManager sampleEnv sampleDefaults
      (sampleRuntime (endpointFlags "10.0.0.2" 2380 "" 6440 "10.0.0.7" 6441 0) false)
      sampleSys).rt.RuntimeOption.NetmamagerOptions.RegisterOptions.Address = "0.0.0.0" ∧
    (LoadNetManager sampleEnv sampleDefaults
      (sampleRuntime (endpointFlags "10.0.0.2" 2380 "" 6440 "10.0.0.7" 6441 0) false)
      sampleSys).rt.RuntimeOption.NetmamagerOptions.JoinOptions.Address = "10.0.0.7" ∧
    (∃ k, (LoadKine sampleEnv sampleDefaults
      (sampleRuntime (endpointFlags "10.0.0.2" 2380 "" 6440 "10.0.0.7" 6441 0) false)
      sampleSys).rt.RuntimeOption.KineOptions = some k ∧ k.BindAddress = "10.0.0.2") :=
  have h := C12_addresses_default_when_unparseable sampleEnv sampleDefaults
    (sampleRuntime (endpointFlags "10.0.0.2" 2380 "" 6440 "10.0.0.7" 6441 0) false)
    sampleSys (endpointFlags "10.0.0.2" 2380 "" 6440 "10.0.0.7" 6441 0) rfl
  ⟨h.2.1.1 (by decide), h.2.2.2 (by decide),
    (h.1 (KineOptions.mk "10.0.0.2" 2380 "" "" "") (KineOptions.mk "" 0 "" "" "")
      rfl rfl rfl).elim fun k hk => ⟨k, hk.1, hk.2.2 (by decide)⟩⟩

/-- C13: no mixed provenance.  After a successful LoadKine with the storage
backend enabled, the effective CACert, ServerCertFile and ServerkeyFile are
either exactly the raw three, which are then present and passed the pair and
the chain validation, or exactly the three of the self-managed kine store.
After a successful LoadNetManager the six effective client paths are either all
the raw ones, which then passed all validations, or all the ones of the
bootstrap client held by the store. -/
theorem C13_no_mixed_provenance {W : Type} (env : Env W) (d : Defaults)
    (rt : LeaderRuntime) (s : Sys W) (flags : LeaderOptions)
    (hflags : rt.FlagsOption = some flags) :
    (∀ raw eff : KineOptions, flags.KineOptions = some raw →
      rt.RuntimeOption.KineOptions = some eff →
      rt.RuntimeOption.GlobalOptions.RunKine = true →
      (LoadKine env d rt s).out = .ok →
      ∃ k, (LoadKine env d rt s).rt.RuntimeOption.KineOptions = some k ∧
        ((k.certs = raw.certs ∧
            env.NotExists s.world [raw.CACert, raw.ServerCertFile, raw.ServerkeyFile] = false ∧
            env.ValidateTLSPair s.world raw.ServerCertFile raw.ServerkeyFile = true ∧
            env.ValidateCA s.world raw.ServerCertFile raw.CACert = true) ∨
          (∃ ka, (LoadKine env d rt s).rt.RuntimeAuthentication.Kine = some ka ∧
            k.certs = ka.certs))) ∧
    ((LoadNetManager env d rt s).out = .ok →
      (sameClientCredentials (LoadNetManager env d rt s).rt.RuntimeOption.NetmamagerOptions
          flags.NetmamagerOptions ∧
        allFiveHold env (resolutionWorld env d rt flags s.world) flags.NetmamagerOptions = true) ∨
      (∃ c, (LoadNetManager env d rt s).rt.RuntimeAuthentication.NetWorkManagerClient = some c ∧
        clientPathsFrom (LoadNetManager env d rt s).rt.RuntimeOption.NetmamagerOptions c)) := by
  constructor
  · intro raw eff hraw heff hrun hok
    obtain ⟨k, hk, hcase⟩ := LoadKine_ok_cases env d rt s flags raw eff hflags hraw heff hrun hok
    refine ⟨k, hk, ?_⟩
    rcases hcase with ⟨_, _, ka, hka, hc⟩ | ⟨hne, hp, hca, _, _, hc⟩
    · exact Or.inr ⟨ka, hka, hc⟩
    · exact Or.inl ⟨hc, hne, hp, hca⟩
  · intro hok
    obtain ⟨rt1, s1, new1, hentry⟩ := LoadNetManager_ok_entry env d rt s flags hflags hok
    have hw := resolutionEntry_world env d rt s flags rt1 s1 new1 hentry
    rw [LoadNetManager_of_entry env d rt s flags rt1 s1 new1 hflags hentry] at hok ⊢
    rw [← hw]
    cases hsup : suppliedSomething env s1.world flags.NetmamagerOptions with
    | true =>
      have h := loadClientCredentials_supplied env rt1 s1 flags.NetmamagerOptions new1 hsup
      exact Or.inl ⟨h.2.2 hok, h.1.1 hok⟩
    | false =>
      obtain ⟨_, _, _, hcl, hpaths⟩ :=
        loadClientCredentials_bootstrap_ok env rt1 s1 flags.NetmamagerOptions new1 hsup hok
      exact Or.inr ⟨_, hcl, hpaths⟩

/-- Witness of C13: with valid supplied kine files the effective three are the
raw ones, and with nothing supplied to the network manager the six client
paths are the ones of the bootstrap client. -/
theorem C13_no_mixed_provenance_witness :
    (∃ k, (LoadKine sampleEnv sampleDefaults
        (sampleRuntime (kineFlags "ca.crt" "s.crt" "s.key") false)
        sampleSys).rt.RuntimeOption.KineOptions = some k ∧
      k.certs = ("ca.crt", "s.crt", "s.key")) ∧
    (∃ c, (LoadNetManager sampleEnv sampleDefaults
        (sampleRuntime (netFlags "0123456789abcdef" "" "" "" "" "") false)
        sampleSys).rt.RuntimeAuthentication.NetWorkManagerClient = some c ∧
      clientPathsFrom (LoadNetManager sampleEnv sampleDefaults
        (sampleRuntime (netFlags "0123456789abcdef" "" "" "" "" "") false)
        sampleSys).rt.RuntimeOption.NetmamagerOptions c) :=
  ⟨(((C13_no_mixed_provenance sampleEnv sampleDefaults
        (sampleRuntime (kineFlags "ca.crt" "s.crt" "s.key") false) sampleSys
        (kineFlags "ca.crt" "s.crt" "s.key") rfl).1
      (KineOptions.mk "10.0.0.2" 2379 "ca.crt" "s.crt" "s.key") (KineOptions.mk "" 0 "" "" "")
      rfl rfl rfl (by decide)).elim fun k hk => ⟨k, hk.1,
        hk.2.elim (fun h => h.1) (fun h => h.elim fun ka hka =>
          (Option.some_ne_none ka (hka.1.symm.trans (by decide))).elim)⟩),
   ((C13_no_mixed_provenance sampleEnv sampleDefaults
        (sampleRuntime (netFlags "0123456789abcdef" "" "" "" "" "") false) sampleSys
        (netFlags "0123456789abcdef" "" "" "" "" "") rfl).2 (by decide)).elim
      (fun h => absurd h.2 (by decide)) (fun h => h)⟩

/-- C15: in the bootstrap branch of LoadNetManager (reached with nothing
supplied by the operator), fetched material is accepted only after
verification.  The fetch is driven against the effective register address and
port; the call succeeds only if the fetch returned no error, the self-check
returned true and the node-token read returned no error; a fetch error is
returned unchanged, a failed self-check returns an error, and in either
failure, as after a failed node-token read, the effective client paths and
NodeToken are the ones from before the call. -/
theorem C15_bootstrap_accepted_only_after_verification {W : Type} (env : Env W) (d : Defaults)
    (rt : LeaderRuntime) (s : Sys W) (flags : LeaderOptions)
    (rt1 : LeaderRuntime) (s1 : Sys W) (new1 : NetManagerOptions)
    (hflags : rt.FlagsOption = some flags)
    (hentry : resolutionEntry env d rt s flags = some (rt1, s1, new1))
    (hboot : suppliedSomething env s1.world flags.NetmamagerOptions = false) :
    (new1.RegisterOptions.Address =
        (LoadNetManager env d rt s).rt.RuntimeOption.NetmamagerOptions.RegisterOptions.Address ∧
      new1.RegisterOptions.SecurePort =
        (LoadNetManager env d rt s).rt.RuntimeOption.NetmamagerOptions.RegisterOptions.SecurePort) ∧
    ((LoadNetManager env d rt s).out = .ok →
      (bootstrapFetch env rt.RuntimeAuthentication.CertDir s1.world new1).2.2 = none ∧
      env.ClientCheck (bootstrapFetch env rt.RuntimeAuthentication.CertDir s1.world new1).1
        (bootstrapFetch env rt.RuntimeAuthentication.CertDir s1.world new1).2.1 = true ∧
      ∃ tok, env.ClientNodetoken
        (bootstrapFetch env rt.RuntimeAuthentication.CertDir s1.world new1).1
        (bootstrapFetch env rt.RuntimeAuthentication.CertDir s1.world new1).2.1 = .ok tok) ∧
    (∀ e, (bootstrapFetch env rt.RuntimeAuthentication.CertDir s1.world new1).2.2 = some e →
      (LoadNetManager env d rt s).out = .fail e ∧
      sameClientCredentials (LoadNetManager env d rt s).rt.RuntimeOption.NetmamagerOptions
        rt.RuntimeOption.NetmamagerOptions) ∧
    ((bootstrapFetch env rt.RuntimeAuthentication.CertDir s1.world new1).2.2 = none →
      env.ClientCheck (bootstrapFetch env rt.RuntimeAuthentication.CertDir s1.world new1).1
        (bootstrapFetch env rt.RuntimeAuthentication.CertDir s1.world new1).2.1 = false →
      (LoadNetManager env d rt s).out = .fail "fail to load network-manager TLS args" ∧
      sameClientCredentials (LoadNetManager env d rt s).rt.RuntimeOption.NetmamagerOptions
        rt.RuntimeOption.NetmamagerOptions) ∧
    (∀ e, (bootstrapFetch env rt.RuntimeAuthentication.CertDir s1.world new1).2.2 = none →
      env.ClientCheck (bootstrapFetch env rt.RuntimeAuthentication.CertDir s1.world new1).1
        (bootstrapFetch env rt.RuntimeAuthentication.CertDir s1.world new1).2.1 = true →
      env.ClientNodetoken
        (bootstrapFetch env rt.RuntimeAuthentication.CertDir s1.world new1).1
        (bootstrapFetch env rt.RuntimeAuthentication.CertDir s1.world new1).2.1 = .error e →
      (LoadNetManager env d rt s).out = .fail e ∧
      sameClientCredentials (LoadNetManager env d rt s).rt.RuntimeOption.NetmamagerOptions
        rt.RuntimeOption.NetmamagerOptions) := by
  obtain ⟨hdir, _, hcred, _, _, _, _⟩ := resolutionEntry_facts env d rt s flags rt1 s1 new1 hentry
  rw [LoadNetManager_of_entry env d rt s flags rt1 s1 new1 hflags hentry, ← hdir]
  obtain ⟨h1, h2, h3, _⟩ :=
    loadClientCredentials_bootstrap_outcomes env rt1 s1 flags.NetmamagerOptions new1 hboot
  refine ⟨⟨(loadClientCredentials_endpoint _ _ _ _ _).1.symm,
    (loadClientCredentials_endpoint _ _ _ _ _).2.symm⟩, ?_, ?_, ?_, ?_⟩
  · intro hok
    obtain ⟨hg, hc, ⟨tok, hn, _⟩, _, _⟩ :=
      loadClientCredentials_bootstrap_ok env rt1 s1 flags.NetmamagerOptions new1 hboot hok
    exact ⟨hg, hc, tok, hn⟩
  · intro e he
    exact ⟨(h1 e he).1, sameClientCredentials_of_eq (h1 e he).2 hcred⟩
  · intro he hc
    exact ⟨(h2 he hc).1, sameClientCredentials_of_eq (h2 he hc).2 hcred⟩
  · intro e he hc hn
    exact ⟨(h3 e he hc hn).1, sameClientCredentials_of_eq (h3 e he hc hn).2 hcred⟩

/-- Witness of C15: on a client node with nothing supplied, a refused exchange
returns that error, a failed self-check returns an error, and both leave the
effective client credentials as they were. -/
theorem C15_bootstrap_accepted_only_after_verification_witness :
    ((LoadNetManager refusedFetchEnv sampleDefaults
        (sampleRuntime (netFlags "0123456789abcdef" "" "" "" "" "") false) sampleSys).out =
        .fail "connection refused" ∧
      sameClientCredentials (LoadNetManager refusedFetchEnv sampleDefaults
        (sampleRuntime (netFlags "0123456789abcdef" "" "" "" "" "") false)
        sampleSys).rt.RuntimeOption.NetmamagerOptions
        (sampleRuntime (netFlags "0123456789abcdef" "" "" "" "" "")
          false).RuntimeOption.NetmamagerOptions) ∧
    ((LoadNetManager failedCheckEnv sampleDefaults
        (sampleRuntime (netFlags "0123456789abcdef" "" "" "" "" "") false) sampleSys).out =
        .fail "fail to load network-manager TLS args" ∧
      sameClientCredentials (LoadNetManager failedCheckEnv sampleDefaults
        (sampleRuntime (netFlags "0123456789abcdef" "" "" "" "" "") false)
        sampleSys).rt.RuntimeOption.NetmamagerOptions
        (sampleRuntime (netFlags "0123456789abcdef" "" "" "" "" "")
          false).RuntimeOption.NetmamagerOptions) :=
  ⟨(C15_bootstrap_accepted_only_after_verification refusedFetchEnv sampleDefaults
      (sampleRuntime (netFlags "0123456789abcdef" "" "" "" "" "") false) sampleSys
      (netFlags "0123456789abcdef" "" "" "" "" "")
      (sampleRuntime (netFlags "0123456789abcdef" "" "" "" "" "") false) sampleSys
      (clientEntryFragment refusedFetchEnv (netFlags "0123456789abcdef" "" "" "" "" ""))
      rfl rfl (by decide)).2.2.1 "connection refused" rfl,
   (C15_bootstrap_accepted_only_after_verification failedCheckEnv sampleDefaults
      (sampleRuntime (netFlags "0123456789abcdef" "" "" "" "" "") false) sampleSys
      (netFlags "0123456789abcdef" "" "" "" "" "")
      (sampleRuntime (netFlags "0123456789abcdef" "" "" "" "" "") false) sampleSys
      (clientEntryFragment failedCheckEnv (netFlags "0123456789abcdef" "" "" "" "" ""))
      rfl rfl (by decide)).2.2.2.1 rfl rfl⟩

/-- C16: after every successful LoadNetManager the effective Token is "local"
exactly when the node hosts the membership service, whatever the raw token is;
on a client node the effective Token is the raw token, which is not "local"
and has length 16. -/
theorem C16_token_local_iff_hosting {W : Type} (env : Env W) (d : Defaults)
    (rt : LeaderRuntime) (s : Sys W) (flags : LeaderOptions)
    (hflags : rt.FlagsOption = some flags)
    (hok : (LoadNetManager env d rt s).out = .ok) :
    ((LoadNetManager env d rt s).rt.RuntimeOption.NetmamagerOptions.Token = "local" ↔
      (LoadNetManager env d rt s).rt.RuntimeOption.GlobalOptions.RunNetManager = true) ∧
    ((LoadNetManager env d rt s).rt.RuntimeOption.GlobalOptions.RunNetManager = false →
      (LoadNetManager env d rt s).rt.RuntimeOption.NetmamagerOptions.Token =
        flags.NetmamagerOptions.Token ∧
      (LoadNetManager env d rt s).rt.RuntimeOption.NetmamagerOptions.Token ≠ "local" ∧
      len (LoadNetManager env d rt s).rt.RuntimeOption.NetmamagerOptions.Token = 16) := by
  obtain ⟨rt1, s1, new1, hentry⟩ := LoadNetManager_ok_entry env d rt s flags hflags hok
  obtain ⟨_, hglob, _, _, _, hhostTok, hclientTok⟩ :=
    resolutionEntry_facts env d rt s flags rt1 s1 new1 hentry
  rw [LoadNetManager_of_entry env d rt s flags rt1 s1 new1 hflags hentry,
    loadClientCredentials_Token, loadClientCredentials_GlobalOptions, hglob]
  cases hhost : rt.RuntimeOption.GlobalOptions.RunNetManager with
  | true =>
    exact ⟨⟨fun _ => rfl, fun _ => hhostTok hhost⟩, fun h => by cases h⟩
  | false =>
    obtain ⟨h1, h2, h3, _⟩ := hclientTok hhost
    refine ⟨⟨fun h => absurd (h1 ▸ h) h2, fun h => by cases h⟩, fun _ => ⟨h1, ?_, ?_⟩⟩
    · rw [h1]; exact h2
    · rw [h1]; exact h3

/-- Witness of C16: a hosting node that was given the raw token "whatever" ends
with the token "local". -/
theorem C16_token_local_iff_hosting_witness :
    (LoadNetManager sampleEnv sampleDefaults
      (sampleRuntime (netFlags "whatever" "" "" "" "" "") true)
      sampleSys).rt.RuntimeOption.NetmamagerOptions.Token = "local" :=
  (C16_token_local_iff_hosting sampleEnv sampleDefaults
    (sampleRuntime (netFlags "whatever" "" "" "" "" "") true) sampleSys
    (netFlags "whatever" "" "" "" "" "") rfl (by decide)).1.2 (by decide)

/-- C14 fails on the code: LoadKine sets OwnKineCert in the self-managed branch
and never clears it.  On a runtime where an earlier LoadKine generated the
self-managed material, a second LoadKine with operator files that are present
and valid succeeds and uses the supplied paths verbatim, yet OwnKineCert is
still true. -/
theorem C14_own_kine_cert_not_cleared :
    (sampleRuntime (kineFlags "" "" "") false).OwnKineCert = false ∧
    (rerunRuntime (kineFlags "ca.crt" "s.crt" "s.key")).OwnKineCert = true ∧
    sampleEnv.NotExists () ["ca.crt", "s.crt", "s.key"] = false ∧
    (LoadKine sampleEnv sampleDefaults (rerunRuntime (kineFlags "ca.crt" "s.crt" "s.key"))
      sampleSys).out = .ok ∧
    (LoadKine sampleEnv sampleDefaults (rerunRuntime (kineFlags "ca.crt" "s.crt" "s.key"))
      sampleSys).rt.RuntimeOption.KineOptions =
      some (KineOptions.mk "10.0.0.2" 2379 "ca.crt" "s.crt" "s.key") ∧
    (LoadKine sampleEnv sampleDefaults (rerunRuntime (kineFlags "ca.crt" "s.crt" "s.key"))
      sampleSys).rt.OwnKineCert = true := by
  decide

/-- C18 fails on the code: line 273 makes the effective IgnoreOptions the raw
map itself, so the records of lines 286 and 311 are written into the raw tree.
With a rejected node-port range and an invalid cluster IP range the raw
IgnoreOptions, empty before the call, holds both records after it. -/
theorem C18_raw_ignore_options_mutated :
    (apiFlags "40000-40050" "").ApiserverOptions.IgnoreOptions = [] ∧
    (LoadApiserver sampleEnv sampleDefaults (sampleRuntime (apiFlags "40000-40050" "") false)
      sampleSys).rt.FlagsOption ≠ some (apiFlags "40000-40050" "") ∧
    (LoadApiserver sampleEnv sampleDefaults (sampleRuntime (apiFlags "40000-40050" "") false)
      sampleSys).rt.FlagsOption =
      some { apiFlags "40000-40050" "" with
        ApiserverOptions := { (apiFlags "40000-40050" "").ApiserverOptions with
          IgnoreOptions := [("service-node-port-range", "40000-40050"),
            ("service-cluster-ip-range", "")] } } := by
  decide

/-- C17 as stated cannot be met: with raw options that are empty except for the
work directory /tmp/x, so with an empty token on a node that does not host the
membership service, LoadFlags does not succeed.  It returns the token format
error and writes no manifest. -/
theorem C17_empty_token_run_fails_counterexample :
    (dirFlags "/tmp/x" "" "").NetmamagerOptions.Token = "" ∧
    (dirFlags "/tmp/x" "" "").GlobalOptions.RunNetManager = false ∧
    (LoadFlags unixEnv sampleDefaults (freshRuntime (dirFlags "/tmp/x" "" ""))
      sampleSys).out = .fail "error network token format" ∧
    manifestWrites (LoadFlags unixEnv sampleDefaults (freshRuntime (dirFlags "/tmp/x" "" ""))
      sampleSys).sys.trace = [] := by
  decide

/-- C17 (amended): end to end for a raw work directory /tmp/x.  With an empty
raw token and RunNetManager unset LoadFlags never succeeds and writes no
manifest; once the kine reconciler has succeeded the error is the token format
error.  Whenever a run does succeed (the raw options then carry a usable token
or RunNetManager), on a runtime whose effective options hold no etcd servers
and with the Unix filepath.Join, the effective RunKine is true and the one
manifest write of the run goes to /tmp/x/startup/leader.yaml. -/
theorem C17_end_to_end_work_dir {W : Type} (env : Env W) (d : Defaults)
    (rt : LeaderRuntime) (s : Sys W) (flags : LeaderOptions)
    (hflags : rt.FlagsOption = some flags)
    (hwd : flags.GlobalOptions.WorkDir = "/tmp/x") :
    (flags.NetmamagerOptions.Token = "" → flags.GlobalOptions.RunNetManager = false →
      (LoadFlags env d rt s).out ≠ .ok ∧
      manifestWrites (LoadFlags env d rt s).sys.trace = manifestWrites s.trace ∧
      ((afterKine env d rt s).out = .ok →
        (LoadFlags env d rt s).out = .fail "error network token format")) ∧
    (rt.RuntimeOption.etcdServers = "" → env.Join = filepathJoin →
      (LoadFlags env d rt s).out = .ok →
      (LoadFlags env d rt s).rt.RuntimeOption.GlobalOptions.RunKine = true ∧
      ∃ config, env.Marshal (LoadFlags env d rt s).rt.RuntimeOption = .ok config ∧
        manifestWrites (LoadFlags env d rt s).sys.trace = manifestWrites s.trace ++
          [.writeFile "/tmp/x/startup/leader.yaml" config]) := by
  constructor
  · intro htok hhost
    have hfail := afterNet_empty_token env d rt s flags hflags htok hhost
    have hn : (afterNet env d rt s).out ≠ .ok := by rw [hfail]; simp
    obtain ⟨h1, h2, h3⟩ := LoadFlags_stopped env d rt s flags hflags hn
    exact ⟨h1, h2, fun hk => by rw [h3 hk]; exact hfail⟩
  · intro hetcd hjoin hok
    obtain ⟨_, hrt, config, hm, hw⟩ := LoadFlags_ok env d rt s flags hflags hok
    have hgl := afterNet_GlobalOptions env d rt s
    have hwork : (afterNet env d rt s).rt.RuntimeOption.GlobalOptions.WorkDir = "/tmp/x" := by
      rw [hgl, afterGlobal, (LoadGloabl_fields env d rt s flags hflags).1, hwd]
      exact if_neg (by decide)
    have hkine : (afterNet env d rt s).rt.RuntimeOption.GlobalOptions.RunKine = true := by
      rw [hgl, afterGlobal, LoadGloabl_RunKine env d rt s flags hflags]
      simp only [LeaderOptions.etcdServers] at hetcd
      simp [hetcd]
    have hpath : manifestPath env "/tmp/x" = "/tmp/x/startup/leader.yaml" := by
      rw [manifestPath, hjoin]; decide
    rw [hrt]
    refine ⟨hkine, config, hm, ?_⟩
    rw [hw, hwork, hpath]

/-- Witness of C17: with the 16-byte token the run succeeds, RunKine is true and
the manifest is written to /tmp/x/startup/leader.yaml; with the empty token it
does not succeed. -/
theorem C17_end_to_end_work_dir_witness :
    ((LoadFlags unixEnv sampleDefaults (freshRuntime (dirFlags "/tmp/x" "" "0123456789abcdef"))
        sampleSys).rt.RuntimeOption.GlobalOptions.RunKine = true ∧
      ∃ config, unixEnv.Marshal (LoadFlags unixEnv sampleDefaults
          (freshRuntime (dirFlags "/tmp/x" "" "0123456789abcdef"))
          sampleSys).rt.RuntimeOption = .ok config ∧
        manifestWrites (LoadFlags unixEnv sampleDefaults
          (freshRuntime (dirFlags "/tmp/x" "" "0123456789abcdef")) sampleSys).sys.trace =
          manifestWrites sampleSys.trace ++ [.writeFile "/tmp/x/startup/leader.yaml" config]) ∧
    (LoadFlags unixEnv sampleDefaults (freshRuntime (dirFlags "/tmp/x" "" ""))
      sampleSys).out ≠ .ok :=
  ⟨(C17_end_to_end_work_dir unixEnv sampleDefaults
      (freshRuntime (dirFlags "/tmp/x" "" "0123456789abcdef")) sampleSys
      (dirFlags "/tmp/x" "" "0123456789abcdef") rfl rfl).2 rfl rfl (by decide),
   ((C17_end_to_end_work_dir unixEnv sampleDefaults
      (freshRuntime (dirFlags "/tmp/x" "" "")) sampleSys
      (dirFlags "/tmp/x" "" "") rfl rfl).1 rfl rfl).1⟩

/-- C19 as stated fails: with a raw log directory the effective log directory
is the raw one, not the one derived from the effective work directory. -/
theorem C19_raw_log_dir_kept_counterexample :
    (LoadGloabl unixEnv sampleDefaults (freshRuntime (dirFlags "/tmp/x" "/var/log/lk" ""))
      sampleSys).rt.RuntimeOption.GlobalOptions.WorkDir = "/tmp/x" ∧
    (LoadGloabl unixEnv sampleDefaults (freshRuntime (dirFlags "/tmp/x" "/var/log/lk" ""))
      sampleSys).rt.RuntimeOption.GlobalOptions.LogDir = "/var/log/lk" ∧
    unixEnv.Join "/tmp/x" "logs/" = "/tmp/x/logs" ∧
    (LoadGloabl unixEnv sampleDefaults (freshRuntime (dirFlags "/tmp/x" "/var/log/lk" ""))
      sampleSys).rt.RuntimeOption.GlobalOptions.LogDir ≠ unixEnv.Join "/tmp/x" "logs/" := by
  decide

/-- C19 (amended): with FlagsOption set LoadGloabl returns success for every
input; afterwards the effective work directory is the raw work directory when
that is not empty and the global default otherwise, and the effective log
directory is the raw log directory when that is not empty and otherwise the
one derived from the effective work directory, filepath.Join(work-dir,
"logs/"). -/
theorem C19_global_dirs {W : Type} (env : Env W) (d : Defaults)
    (rt : LeaderRuntime) (s : Sys W) (flags : LeaderOptions)
    (hflags : rt.FlagsOption = some flags) :
    (LoadGloabl env d rt s).out = .ok ∧
    (flags.GlobalOptions.WorkDir ≠ "" →
      (LoadGloabl env d rt s).rt.RuntimeOption.GlobalOptions.WorkDir =
        flags.GlobalOptions.WorkDir) ∧
    (flags.GlobalOptions.WorkDir = "" →
      (LoadGloabl env d rt s).rt.RuntimeOption.GlobalOptions.WorkDir = d.GO_WorkDir) ∧
    (flags.GlobalOptions.LogDir ≠ "" →
      (LoadGloabl env d rt s).rt.RuntimeOption.GlobalOptions.LogDir =
        flags.GlobalOptions.LogDir) ∧
    (flags.GlobalOptions.LogDir = "" →
      (LoadGloabl env d rt s).rt.RuntimeOption.GlobalOptions.LogDir =
        env.Join (LoadGloabl env d rt s).rt.RuntimeOption.GlobalOptions.WorkDir "logs/") := by
  obtain ⟨hw, hl, _, _⟩ := LoadGloabl_fields env d rt s flags hflags
  refine ⟨LoadGloabl_ok env d rt s flags hflags, ?_, ?_, ?_, ?_⟩
  · intro h; rw [hw, if_neg h]
  · intro h; rw [hw, if_pos h]
  · intro h; rw [hl, if_neg h]
  · intro h; rw [hl, if_pos h]

/-- Witness of C19: an empty raw work directory gives the default one and the
log directory under it; a raw log directory is kept. -/
theorem C19_global_dirs_witness :
    (LoadGloabl unixEnv sampleDefaults (freshRuntime (dirFlags "" "" ""))
      sampleSys).rt.RuntimeOption.GlobalOptions.WorkDir = "/root/litekube" ∧
    (LoadGloabl unixEnv sampleDefaults (freshRuntime (dirFlags "" "" ""))
      sampleSys).rt.RuntimeOption.GlobalOptions.LogDir = "/root/litekube/logs" ∧
    (LoadGloabl unixEnv sampleDefaults (freshRuntime (dirFlags "/tmp/x" "/var/log/lk" ""))
      sampleSys).rt.RuntimeOption.GlobalOptions.LogDir = "/var/log/lk" :=
  ⟨(C19_global_dirs unixEnv sampleDefaults (freshRuntime (dirFlags "" "" "")) sampleSys
      (dirFlags "" "" "") rfl).2.2.1 rfl,
   ((C19_global_dirs unixEnv sampleDefaults (freshRuntime (dirFlags "" "" "")) sampleSys
      (dirFlags "" "" "") rfl).2.2.2.2 rfl).trans (by decide),
   (C19_global_dirs unixEnv sampleDefaults (freshRuntime (dirFlags "/tmp/x" "/var/log/lk" ""))
      sampleSys (dirFlags "/tmp/x" "/var/log/lk" "") rfl).2.2.2.1 (by decide)⟩

/-- C20: after LoadApiserver, for every raw input, the effective
ServiceNodePortRange is either the default range, with the raw string recorded
under "service-node-port-range" in IgnoreOptions, or the rendering "min-max" of
two integers with 1 ≤ min < max ≤ 65535 and max - min > 100, which are the two
bounds of the raw string after substitution.  A parsed upper bound above 65535
is replaced by 65535 and a parsed lower bound below 1 by 30000 before the span
test, so neither appears in an accepted range. -/
theorem C20_effective_range_default_or_in_bounds {W : Type} (env : Env W) (d : Defaults)
    (rt : LeaderRuntime) (s : Sys W) (flags : LeaderOptions)
    (hflags : rt.FlagsOption = some flags) :
    (((LoadApiserver env d rt s).rt.RuntimeOption.ApiserverOptions.Options.ServiceNodePortRange =
          d.ALO_ServiceNodePortRange ∧
        (LoadApiserver env d rt s).rt.RuntimeOption.ApiserverOptions.IgnoreOptions.get
          "service-node-port-range" = some flags.ApiserverOptions.Options.ServiceNodePortRange) ∨
      (∃ p0 p1 lo hi, Split flags.ApiserverOptions.Options.ServiceNodePortRange = [p0, p1] ∧
        lo = portMin p0 ∧ hi = portMax p1 ∧
        (LoadApiserver env d rt s).rt.RuntimeOption.ApiserverOptions.Options.ServiceNodePortRange =
          sprintfRange lo hi ∧
        1 ≤ lo ∧ lo < hi ∧ hi ≤ 65535 ∧ hi - lo > 100)) ∧
    (∀ part p, Atoi (TrimSpace part) = some p →
      (65535 < p → portMax part = 65535) ∧ (p < 1 → portMin part = 30000)) := by
  have h := LoadApiserver_nodePortRange env d rt s flags hflags
  constructor
  · by_cases he : nodePortRange flags.ApiserverOptions.Options.ServiceNodePortRange = ""
    · rw [if_pos he, if_pos he] at h
      exact Or.inl ⟨h.2.1, h.2.2⟩
    · rw [if_neg he, if_neg he] at h
      obtain ⟨p0, p1, hs, hr, h1, h2, h3, h4⟩ := nodePortRange_accepted _ he
      exact Or.inr ⟨p0, p1, _, _, hs, rfl, rfl, h.2.1.trans hr, h1, h2, h3, h4⟩
  · intro part p hp
    exact ⟨portMax_of_large part p hp, portMin_of_small part p hp⟩

/-- Witness of C20: for the raw range "30100-90000" the effective range is
"30100-65535": the upper bound 90000 was replaced by 65535. -/
theorem C20_effective_range_default_or_in_bounds_witness :
    (LoadApiserver sampleEnv sampleDefaults
      (sampleRuntime (apiFlags "30100-90000" "10.0.0.0/16") false)
      sampleSys).rt.RuntimeOption.ApiserverOptions.Options.ServiceNodePortRange =
      "30100-65535" ∧
    portMax "90000" = 65535 :=
  have h := C20_effective_range_default_or_in_bounds sampleEnv sampleDefaults
    (sampleRuntime (apiFlags "30100-90000" "10.0.0.0/16") false) sampleSys
    (apiFlags "30100-90000" "10.0.0.0/16") rfl
  ⟨h.1.elim (fun hd => absurd hd.1 (by decide))
      (fun ⟨p0, p1, lo, hi, hs, hlo, hhi, hr, _⟩ => by
        have hsplit : [p0, p1] = ["30100", "90000"] := hs.symm.trans (by decide)
        simp only [List.cons.injEq, and_true] at hsplit
        rw [hr, hlo, hhi, hsplit.1, hsplit.2]
        decide),
   (h.2 "90000" 90000 (by decide)).1 (by decide)⟩

end LiteKube
